import Mathlib

/-!
# Turf-Ease: booking conflicts, daily availability and the booking lifecycle

A shallow embedding of the booking-conflict queries of `BackEnd/models/Booking.js`,
of the slot computation of `BackEnd/controllers/turfController.js`
(`getTurfAvailability`), of the method and the hook of `BackEnd/models/Turf.js`,
of the booking operations of `BackEnd/controllers/bookingController.js` and of
the amenity mapper of `FrontEnd/src/utils/turfDataMapper.js`, with the
properties the specification states about them.

Conventions of the embedding:

* a MongoDB collection is a `List` of documents in natural order; `find(q)` is
  `List.filter`, `findOne(q)` is `List.find?`;
* a `Date` is its number of milliseconds since the epoch; local time is a fixed
  offset `tz` (milliseconds east of UTC) from UTC;
* strings are compared character by character on their code points, which is how
  JavaScript's `<` and MongoDB's `$lt` order the ASCII strings the schemas admit
  for times;
* a JavaScript value that may be `undefined` is an `Option`, and so is the
  result of a call that may throw, `none` being the exception;
* amounts of money and durations are exact rationals.
-/

namespace TurfEase

/-! ## Values -/

/-- A document identifier (`ObjectId`). -/
abbrev ObjectId := Nat

/-- A `Date`, as milliseconds since the epoch. -/
abbrev Date := Int

/-- Milliseconds in a day. -/
def msPerDay : Int := 86400000

/-- `d.setHours(0, 0, 0, 0)`: local midnight of the local day of `d`. -/
def setHoursStartOfDay (tz : Int) (d : Date) : Date :=
  d - (d + tz) % msPerDay

/-- `d.setHours(23, 59, 59, 999)`: the last millisecond of the local day of `d`. -/
def setHoursEndOfDay (tz : Int) (d : Date) : Date :=
  setHoursStartOfDay tz d + (msPerDay - 1)

/-- Lexicographic `<` on character sequences, by code point. -/
def ltChars : List Char → List Char → Bool
  | [], [] => false
  | [], _ :: _ => true
  | _ :: _, [] => false
  | a :: as, b :: bs =>
    if a.toNat < b.toNat then true
    else if b.toNat < a.toNat then false
    else ltChars as bs

/-- `a < b` on strings (JavaScript), `$lt` (MongoDB). -/
def strLt (a b : String) : Bool := ltChars a.toList b.toList

/-- `a > b` on strings (JavaScript), `$gt` (MongoDB). -/
def strGt (a b : String) : Bool := strLt b a

/-- `a <= b` on strings: not `b < a`. -/
def strLe (a b : String) : Bool := !strLt b a

/-- `a >= b` on strings: not `a < b`. -/
def strGe (a b : String) : Bool := !strLt a b

/-! ## The Booking model (`BackEnd/models/Booking.js`) -/

/-- The `status` enum of the booking schema. -/
inductive BookingStatus
  | pending
  | confirmed
  | cancelled
  | completed
  | no_show
  deriving DecidableEq, Repr

/-- The `timeSlot` sub-document: two `"HH:MM"` strings. -/
structure TimeSlot where
  startTime : String
  endTime : String
  deriving DecidableEq, Repr

/-- The `players` sub-document; the `details` list is left out. -/
structure Players where
  count : Int
  deriving DecidableEq, Repr

/-- The `pricing` sub-document of a booking. Amounts are exact rationals. -/
structure BookingPricing where
  baseAmount : ℚ
  peakHourCharges : ℚ
  taxes : ℚ
  discount : ℚ
  totalAmount : ℚ
  deriving DecidableEq, Repr

/-- The `payment.status` enum. -/
inductive PaymentStatus
  | pending
  | completed
  | failed
  | refunded
  deriving DecidableEq, Repr

/-- The `payment` sub-document. -/
structure Payment where
  method : String
  status : PaymentStatus
  transactionId : Option String
  paidAt : Option Date
  refundedAt : Option Date
  deriving DecidableEq, Repr

/-- The `cancellation.cancelledBy` enum. -/
inductive CancelledBy
  | user
  | owner
  | admin
  deriving DecidableEq, Repr

/-- The `cancellation` sub-document. -/
structure Cancellation where
  cancelledBy : CancelledBy
  cancelledAt : Date
  reason : String
  refundAmount : Option ℚ
  deriving DecidableEq, Repr

/-- A booking document: the fields that the queries and the controllers read or
write. -/
structure Booking where
  _id : ObjectId
  user : ObjectId
  turf : ObjectId
  date : Date
  timeSlot : TimeSlot
  duration : ℚ
  players : Players
  pricing : BookingPricing
  payment : Payment
  status : BookingStatus
  cancellation : Option Cancellation
  deriving DecidableEq, Repr

/-- The filter `status: { $in: ['confirmed', 'pending'] }`. -/
def statusInConfirmedPending (s : BookingStatus) : Bool :=
  s == BookingStatus.confirmed || s == BookingStatus.pending

/-- The `$and` pair of the conflict query over a time domain `T` ordered by `lt`:
`existing.startTime < endTime` and `existing.endTime > startTime`. -/
def overlapTest {T : Type} (lt : T → T → Bool)
    (existingStart existingEnd startTime endTime : T) : Bool :=
  lt existingStart endTime && lt startTime existingEnd

/-- The query object built by `checkConflict` and by `getConflictingBookings`,
as the predicate it selects documents with. `date` is normalised to the start
of its day first; `_id: { $ne: excludeBookingId }` is added when an id is given. -/
def conflictQuery (tz : Int) (turfId : ObjectId) (date : Date)
    (startTime endTime : String) (excludeBookingId : Option ObjectId)
    (b : Booking) : Bool :=
  let bookingDate := setHoursStartOfDay tz date
  b.turf == turfId
    && b.date == bookingDate
    && statusInConfirmedPending b.status
    && overlapTest strLt b.timeSlot.startTime b.timeSlot.endTime startTime endTime
    && (match excludeBookingId with
        | some id => b._id != id
        | none => true)

/-- `Booking.checkConflict`: whether `findOne(query)` is not `null`. -/
def Booking.checkConflict (tz : Int) (store : List Booking) (turfId : ObjectId)
    (date : Date) (startTime endTime : String)
    (excludeBookingId : Option ObjectId) : Bool :=
  let conflictingBooking :=
    store.find? (conflictQuery tz turfId date startTime endTime excludeBookingId)
  conflictingBooking.isSome

/-- `Booking.getConflictingBookings`: `find(query)`. -/
def Booking.getConflictingBookings (tz : Int) (store : List Booking)
    (turfId : ObjectId) (date : Date) (startTime endTime : String)
    (excludeBookingId : Option ObjectId) : List Booking :=
  store.filter (conflictQuery tz turfId date startTime endTime excludeBookingId)

/-- A booking as the examples use it: booking `id` of user 1. -/
def exampleBooking (id turf : ObjectId) (date : Date) (startTime endTime : String)
    (status : BookingStatus) : Booking :=
  { _id := id, user := 1, turf := turf, date := date,
    timeSlot := { startTime := startTime, endTime := endTime },
    duration := 1, players := { count := 10 },
    pricing :=
      { baseAmount := 1000, peakHourCharges := 0, taxes := 180, discount := 0,
        totalAmount := 1180 },
    payment :=
      { method := "upi", status := PaymentStatus.pending, transactionId := none,
        paidAt := none, refundedAt := none },
    status := status, cancellation := none }

/-! ## The Turf model (`BackEnd/models/Turf.js`) -/

/-- The `day` enum of a schedule entry, in the order of `Date.getDay()`. -/
inductive DayName
  | sunday
  | monday
  | tuesday
  | wednesday
  | thursday
  | friday
  | saturday
  deriving DecidableEq, Repr

/-- The `peakHours` of a schedule entry; either bound may be unset. -/
structure PeakHours where
  start : Option String
  «end» : Option String
  deriving DecidableEq, Repr

/-- One entry of `availability.days`. `peakHours` is `none` when the entry has
no peak window object at all. -/
structure DaySchedule where
  day : DayName
  isOpen : Bool
  openTime : String
  closeTime : String
  peakHours : Option PeakHours
  deriving DecidableEq, Repr

/-- The `pricing` of a turf; `peakHourRate` is optional in the schema. -/
structure Pricing where
  hourlyRate : ℚ
  peakHourRate : Option ℚ
  deriving DecidableEq, Repr

/-- One entry of `availability.maintenanceDates`. The schema requires neither
field: `date` is `none` in an entry stored without one. -/
structure MaintenanceEntry where
  date : Option Date
  reason : Option String
  deriving DecidableEq, Repr

/-- The `availability` of a turf. An element of `holidays` is `none` where the
array holds `null`, which the schema type `[Date]` admits. -/
structure Availability where
  days : List DaySchedule
  holidays : List (Option Date)
  maintenanceDates : List MaintenanceEntry
  deriving DecidableEq, Repr

/-- The `capacity` of a turf, in whole players. -/
structure Capacity where
  maxPlayers : Option Int
  deriving DecidableEq, Repr

/-- The fields of a turf document that availability and booking read. -/
structure Turf where
  _id : ObjectId
  owner : ObjectId
  pricing : Pricing
  availability : Availability
  capacity : Option Capacity
  isActive : Bool
  deriving DecidableEq, Repr

/-- `Date.getDay()`: the local day of the week, 0 for Sunday. The epoch day,
1 January 1970, was a Thursday. -/
def getDay (tz : Int) (d : Date) : Nat :=
  (((d + tz) / msPerDay + 4) % 7).toNat

/-- The lower-cased `toLocaleDateString('en-US', { weekday: 'long' })` of a date. -/
def weekdayLong (tz : Int) (d : Date) : DayName :=
  match getDay tz d with
  | 0 => DayName.sunday
  | 1 => DayName.monday
  | 2 => DayName.tuesday
  | 3 => DayName.wednesday
  | 4 => DayName.thursday
  | 5 => DayName.friday
  | _ => DayName.saturday

/-! ## JavaScript built-ins used by the slot loop -/

/-- White space that `parseInt` skips at the start of its argument. -/
def isJsWhiteSpace (c : Char) : Bool :=
  let n := c.toNat
  (9 ≤ n && n ≤ 13) || n == 32 || n == 160 || n == 5760 || (8192 ≤ n && n ≤ 8202)
    || n == 8232 || n == 8233 || n == 8239 || n == 8287 || n == 12288 || n == 65279

/-- The value of a character as a digit of the given radix (10 or 16). -/
def digitValue (radix : Nat) (c : Char) : Option Nat :=
  let n := c.toNat
  if 48 ≤ n && n ≤ 57 then some (n - 48)
  else if radix == 16 && 97 ≤ n && n ≤ 102 then some (n - 87)
  else if radix == 16 && 65 ≤ n && n ≤ 70 then some (n - 55)
  else none

/-- `parseInt(s)` without a radix argument; `none` is `NaN`. Leading white
space is skipped, a sign is read, `0x` selects radix 16, and the longest run of
digits is converted. Values are exact integers (JavaScript rounds those beyond
2^53). -/
def parseInt (s : String) : Option Int :=
  let cs := s.toList.dropWhile isJsWhiteSpace
  let signed : Bool × List Char :=
    match cs with
    | '-' :: r => (true, r)
    | '+' :: r => (false, r)
    | _ => (false, cs)
  let based : Nat × List Char :=
    match signed.2 with
    | '0' :: 'x' :: r => (16, r)
    | '0' :: 'X' :: r => (16, r)
    | r => (10, r)
  let digits := based.2.takeWhile (fun c => (digitValue based.1 c).isSome)
  if digits.isEmpty then none
  else
    let n : Nat := digits.foldl (fun acc c => acc * based.1 + (digitValue based.1 c).getD 0) 0
    some (if signed.1 then -(n : Int) else (n : Int))

/-- `s.split(':')[0]`: the characters before the first colon. -/
def splitColonFirst (s : String) : String :=
  String.mk (s.toList.takeWhile (fun c => c != ':'))

/-- `hour.toString().padStart(2, '0')` for an integer `hour`. -/
def toStringPadStart2 (hour : Int) : String :=
  let s := toString hour
  String.mk (List.replicate (2 - s.length) '0') ++ s

/-- `s >= x` where `x` may be `undefined`: false when it is. -/
def strGeOpt (s : String) : Option String → Bool
  | some x => strGe s x
  | none => false

/-- `s < x` where `x` may be `undefined`: false when it is. -/
def strLtOpt (s : String) : Option String → Bool
  | some x => strLt s x
  | none => false

/-- Truthiness of a value that is `undefined`, `false` or `true`. -/
def truthy : Option Bool → Bool
  | some b => b
  | none => false

/-! ## Availability (`BackEnd/controllers/turfController.js`) -/

/-- One element of the `slots` array. `isPeakHour` is `none` when the
expression yields the missing `peakHours` itself rather than a boolean. -/
structure Slot where
  startTime : String
  endTime : String
  isAvailable : Bool
  isPeakHour : Option Bool
  price : Option ℚ
  deriving DecidableEq, Repr

/-- The `data` object of the availability response; a key the response does
not carry is `none`. -/
structure AvailabilityData where
  isOpen : Bool
  availableSlots : Option (List Slot)
  openTime : Option String
  closeTime : Option String
  slots : Option (List Slot)
  bookedSlots : List TimeSlot
  deriving DecidableEq, Repr

/-- The filter of the bookings query of `getTurfAvailability`: the turf, a date
within the requested local day, and status confirmed or pending. -/
def availabilityQuery (tz : Int) (turfId : ObjectId) (requestedDate : Date)
    (b : Booking) : Bool :=
  let startOfDay := setHoursStartOfDay tz requestedDate
  let endOfDay := setHoursEndOfDay tz requestedDate
  b.turf == turfId
    && (decide (startOfDay ≤ b.date) && decide (b.date ≤ endOfDay))
    && statusInConfirmedPending b.status

/-- The values `hour` takes in `for (hour = startHour; hour < endHour; hour++)`;
with a `NaN` bound the loop body never runs. -/
def loopHours (startHour endHour : Option Int) : List Int :=
  match startHour, endHour with
  | some s, some e => (List.range (e - s).toNat).map (fun (i : Nat) => s + (i : Int))
  | _, _ => []

/-- The body of the slot loop for one `hour`. -/
def slotForHour (turf : Turf) (daySchedule : DaySchedule) (bookings : List Booking)
    (hour : Int) : Slot :=
  let startTime := toStringPadStart2 hour ++ ":00"
  let endTime := toStringPadStart2 (hour + 1) ++ ":00"
  let isBooked := bookings.any (fun booking =>
    strLe booking.timeSlot.startTime startTime && strGt booking.timeSlot.endTime startTime)
  let isPeakHour : Option Bool :=
    match daySchedule.peakHours with
    | none => none
    | some peakHours =>
      some (strGeOpt startTime peakHours.start && strLtOpt startTime peakHours.«end»)
  { startTime := startTime
    endTime := endTime
    isAvailable := !isBooked
    isPeakHour := isPeakHour
    price := if truthy isPeakHour then turf.pricing.peakHourRate
             else some turf.pricing.hourlyRate }

/-- `getTurfAvailability` from the point where the turf has been loaded and the
requested date parsed: the `data` of the 200 response. -/
def getTurfAvailability (tz : Int) (turf : Turf) (requestedDate : Date)
    (store : List Booking) : AvailabilityData :=
  let bookings := store.filter (availabilityQuery tz turf._id requestedDate)
  let dayName := weekdayLong tz requestedDate
  match turf.availability.days.find? (fun d => d.day == dayName) with
  | none =>
    { isOpen := false, availableSlots := some [], openTime := none, closeTime := none,
      slots := none, bookedSlots := [] }
  | some daySchedule =>
    if !daySchedule.isOpen then
      { isOpen := false, availableSlots := some [], openTime := none, closeTime := none,
        slots := none, bookedSlots := [] }
    else
      let startHour := parseInt (splitColonFirst daySchedule.openTime)
      let endHour := parseInt (splitColonFirst daySchedule.closeTime)
      let slots := (loopHours startHour endHour).map (slotForHour turf daySchedule bookings)
      { isOpen := true
        availableSlots := none
        openTime := some daySchedule.openTime
        closeTime := some daySchedule.closeTime
        slots := some slots
        bookedSlots := bookings.map (fun b => b.timeSlot) }

/-- The character of a decimal digit. -/
def digitChar (k : Nat) : Char := Char.ofNat (48 + k)

/-- The time `h:m` written as a zero-padded `"HH:MM"` string. -/
def hhmm (h m : Nat) : String :=
  toStringPadStart2 h ++ ":" ++ toStringPadStart2 m

/-- A schedule entry for the examples. -/
def exampleEntry (isOpen : Bool) (openTime closeTime : String)
    (peakHours : Option PeakHours) (d : DayName) : DaySchedule :=
  { day := d, isOpen := isOpen, openTime := openTime, closeTime := closeTime,
    peakHours := peakHours }

/-- A turf for the examples: every day has the same schedule entry. -/
def exampleTurf (isOpen : Bool) (openTime closeTime : String)
    (peakHours : Option PeakHours) : Turf :=
  let entry := exampleEntry isOpen openTime closeTime peakHours
  { _id := 7
    owner := 2
    pricing := { hourlyRate := 1000, peakHourRate := some 1500 }
    availability :=
      { days := [entry DayName.monday, entry DayName.tuesday, entry DayName.wednesday,
          entry DayName.thursday, entry DayName.friday, entry DayName.saturday,
          entry DayName.sunday]
        holidays := []
        maintenanceDates := [] }
    capacity := some { maxPlayers := some 22 }
    isActive := true }

/-- The start and end times and the availability flag of each slot of a response. -/
def slotTimes (data : AvailabilityData) : Option (List (String × String × Bool)) :=
  data.slots.map (List.map (fun s => (s.startTime, s.endTime, s.isAvailable)))

/-- The start times of the slots of a response whose `isPeakHour` is true. -/
def peakSlotStarts (data : AvailabilityData) : List String :=
  (data.slots.getD []).filterMap (fun s =>
    if s.isPeakHour = some true then some s.startTime else none)

/-! ## Turf methods and hooks (`BackEnd/models/Turf.js`) -/

/-- `d.toDateString()`, represented by the number of the local day it prints:
two dates print the same string exactly when they fall on the same local day. -/
def toDateString (tz : Int) (d : Date) : Int :=
  (d + tz) / msPerDay

/-- The array `daysOfWeek` of `isAvailable`, indexed by `Date.getDay()`. -/
def daysOfWeek : List DayName :=
  [DayName.sunday, DayName.monday, DayName.tuesday, DayName.wednesday, DayName.thursday,
    DayName.friday, DayName.saturday]

/-- `xs.some(f)` for a callback that may throw: the elements are tested in
order up to the first one that passes; `none` is the exception of the callback. -/
def arraySome {α : Type} (f : α → Option Bool) : List α → Option Bool
  | [] => some false
  | x :: xs =>
    match f x with
    | none => none
    | some true => some true
    | some false => arraySome f xs

/-- `x.toDateString() === date.toDateString()` where `x` may be `undefined` or
`null`: reading `toDateString` of it then throws `TypeError`, which is `none`. -/
def toDateStringEq (tz : Int) (date : Date) (x : Option Date) : Option Bool :=
  match x with
  | none => none
  | some d => some (toDateString tz d == toDateString tz date)

/-- The method `isAvailable(date, startTime, endTime)` of a turf; `none` is a
call that throws. The day name is `daysOfWeek[date.getDay()]`; a day without an
open entry returns false before the two lists are read; `isHoliday` is computed
first and `isMaintenance` whatever it is. -/
def Turf.isAvailable (tz : Int) (t : Turf) (date : Date) (_startTime _endTime : String) :
    Option Bool :=
  let dayName := daysOfWeek[getDay tz date]?
  match t.availability.days.find? (fun d => some d.day == dayName) with
  | none => some false
  | some daySchedule =>
    if !daySchedule.isOpen then some false
    else
      match arraySome (fun holiday => toDateStringEq tz date holiday)
          t.availability.holidays with
      | none => none
      | some isHoliday =>
        match arraySome (fun maintenance => toDateStringEq tz date maintenance.date)
            t.availability.maintenanceDates with
        | none => none
        | some isMaintenance => some (!isHoliday && !isMaintenance)

/-- Truthiness of a number that may be `undefined`: set and not zero. -/
def truthyNumber : Option ℚ → Bool
  | some x => x != 0
  | none => false

/-- The `pre('save')` hook of the turf schema: the default `peakHourRate`. -/
def Turf.preSave (t : Turf) : Turf :=
  if !truthyNumber t.pricing.peakHourRate && truthyNumber (some t.pricing.hourlyRate) then
    { t with pricing := { t.pricing with peakHourRate := some (t.pricing.hourlyRate * 1.5) } }
  else t

/-! ## Request validation (`BackEnd/middleware/validate.js`) -/

/-- A character in the range `lo`-`hi` of a character class. -/
def charIn (lo hi c : Char) : Bool :=
  decide (lo.toNat ≤ c.toNat) && decide (c.toNat ≤ hi.toNat)

/-- The pattern `/^([0-1]?[0-9]|2[0-3]):[0-5][0-9]$/` of the time rules, as the
set of strings it matches. -/
def matchesTimePattern (s : String) : Bool :=
  match s.toList with
  | [h, ':', m1, m0] =>
    charIn '0' '9' h && charIn '0' '5' m1 && charIn '0' '9' m0
  | [h1, h0, ':', m1, m0] =>
    ((charIn '0' '1' h1 && charIn '0' '9' h0) || (h1 == '2' && charIn '0' '3' h0))
      && charIn '0' '5' m1 && charIn '0' '9' m0
  | _ => false

/-- A create-booking request from the point where `new Date(date)` has made a
valid `Date` of the date field: `turf` is a well-formed id and `date` is that
`Date`. The field as it is received is in `BookingBody`, and
`createBookingFromBody` is the handler from there. -/
structure BookingRequest where
  turf : ObjectId
  date : Date
  timeSlot : TimeSlot
  players : Players
  paymentMethod : String
  deriving DecidableEq, Repr

/-- The rules of `validateCreateBooking` that the types leave open: both times
match the pattern, `players.count` is an integer of at least 1, and the payment
method is one of the four listed. -/
def validateCreateBooking (req : BookingRequest) : Bool :=
  matchesTimePattern req.timeSlot.startTime
    && matchesTimePattern req.timeSlot.endTime
    && decide (1 ≤ req.players.count)
    && ["cash", "card", "upi", "wallet"].contains req.paymentMethod

/-! ## Booking creation (`BackEnd/controllers/bookingController.js`) -/

/-- `s.split(':')` on characters; `acc` holds the current segment reversed. -/
def splitColonAux : List Char → List Char → List (List Char)
  | [], acc => [acc.reverse]
  | c :: cs, acc =>
    if c == ':' then acc.reverse :: splitColonAux cs []
    else splitColonAux cs (c :: acc)

/-- `Number(s)` for a string of decimal digits, which the segments of a time
that matches the pattern are. -/
def numberOfDigits (cs : List Char) : Nat :=
  cs.foldl (fun acc c => acc * 10 + (c.toNat - 48)) 0

/-- The minutes since midnight of a time: `[hour, min] = s.split(':').map(Number)`
and `hour * 60 + min`. A time that matches the pattern has both segments. -/
def timeToMinutes (s : String) : Nat :=
  let parts := (splitColonAux s.toList []).map numberOfDigits
  parts.getD 0 0 * 60 + parts.getD 1 0

/-- One element of `conflict.bookings` in the 409 response. -/
structure ConflictEntry where
  id : ObjectId
  date : Date
  timeSlot : TimeSlot
  status : BookingStatus
  deriving DecidableEq, Repr

/-- The responses of `createBooking`, by kind; `serverError` is the 500 answer
of its `catch` block. -/
inductive CreateBookingResult
  | validationFailed
  | invalidInterval
  | pastDate
  | turfNotFound
  | turfInactive
  | slotConflict (bookings : List ConflictEntry)
  | capacityExceeded (maxPlayers : Int)
  | created (booking : Booking)
  | serverError
  deriving DecidableEq, Repr

/-- The entry of the 409 response for a conflicting booking. -/
def conflictEntry (b : Booking) : ConflictEntry :=
  { id := b._id, date := b.date, timeSlot := b.timeSlot, status := b.status }

/-- The maximum that the capacity check compares against: `capacity.maxPlayers`
when `turfDoc.capacity && turfDoc.capacity.maxPlayers` is truthy. -/
def capacityLimit (turfDoc : Turf) : Option Int :=
  match turfDoc.capacity with
  | none => none
  | some capacity =>
    match capacity.maxPlayers with
    | none => none
    | some maxPlayers => if maxPlayers != 0 then some maxPlayers else none

/-- The document that `createBooking` passes to `Booking.create`, with the
schema defaults filled in; `newId` is the id the database assigns. -/
def newBooking (tz : Int) (turfDoc : Turf) (userId newId : ObjectId)
    (req : BookingRequest) : Booking :=
  let startMinutes := timeToMinutes req.timeSlot.startTime
  let endMinutes := timeToMinutes req.timeSlot.endTime
  let durationMinutes : Int := (endMinutes : Int) - (startMinutes : Int)
  let duration : ℚ := (durationMinutes : ℚ) / 60
  let baseAmount := turfDoc.pricing.hourlyRate * duration
  let taxes := baseAmount * 0.18
  let totalAmount := baseAmount + taxes
  { _id := newId
    user := userId
    turf := req.turf
    date := setHoursStartOfDay tz req.date
    timeSlot := req.timeSlot
    duration := duration
    players := req.players
    pricing :=
      { baseAmount := baseAmount, peakHourCharges := 0, taxes := taxes, discount := 0,
        totalAmount := totalAmount }
    payment :=
      { method := req.paymentMethod, status := PaymentStatus.pending, transactionId := none,
        paidAt := none, refundedAt := none }
    status := BookingStatus.pending
    cancellation := none }

/-- `createBooking` on a request whose date field has been read to a valid
`Date`: the response and the booking collection afterwards. `now` is the
current time, `turfs` the turf collection, `userId` the requester. -/
def createBooking (tz : Int) (now : Date) (turfs : List Turf) (store : List Booking)
    (userId newId : ObjectId) (req : BookingRequest) :
    CreateBookingResult × List Booking :=
  if !validateCreateBooking req then (CreateBookingResult.validationFailed, store)
  else
    let startMinutes := timeToMinutes req.timeSlot.startTime
    let endMinutes := timeToMinutes req.timeSlot.endTime
    if endMinutes ≤ startMinutes then (CreateBookingResult.invalidInterval, store)
    else
      let bookingDate := setHoursStartOfDay tz req.date
      let today := setHoursStartOfDay tz now
      if bookingDate < today then (CreateBookingResult.pastDate, store)
      else
        match turfs.find? (fun t => t._id == req.turf) with
        | none => (CreateBookingResult.turfNotFound, store)
        | some turfDoc =>
          if !turfDoc.isActive then (CreateBookingResult.turfInactive, store)
          else
            let conflictingBookings := Booking.getConflictingBookings tz store req.turf
              bookingDate req.timeSlot.startTime req.timeSlot.endTime none
            if conflictingBookings.length > 0 then
              (CreateBookingResult.slotConflict (conflictingBookings.map conflictEntry), store)
            else
              match capacityLimit turfDoc with
              | some maxPlayers =>
                if req.players.count > maxPlayers then
                  (CreateBookingResult.capacityExceeded maxPlayers, store)
                else
                  (CreateBookingResult.created (newBooking tz turfDoc userId newId req),
                    store ++ [newBooking tz turfDoc userId newId req])
              | none =>
                (CreateBookingResult.created (newBooking tz turfDoc userId newId req),
                  store ++ [newBooking tz turfDoc userId newId req])

/-- The part of `createBooking` after the turf has been found active. -/
def createBookingTail (tz : Int) (store : List Booking) (userId newId : ObjectId)
    (req : BookingRequest) (turfDoc : Turf) : CreateBookingResult × List Booking :=
  let conflictingBookings := Booking.getConflictingBookings tz store req.turf
    (setHoursStartOfDay tz req.date) req.timeSlot.startTime req.timeSlot.endTime none
  if conflictingBookings.length > 0 then
    (CreateBookingResult.slotConflict (conflictingBookings.map conflictEntry), store)
  else
    match capacityLimit turfDoc with
    | some maxPlayers =>
      if req.players.count > maxPlayers then
        (CreateBookingResult.capacityExceeded maxPlayers, store)
      else
        (CreateBookingResult.created (newBooking tz turfDoc userId newId req),
          store ++ [newBooking tz turfDoc userId newId req])
    | none =>
      (CreateBookingResult.created (newBooking tz turfDoc userId newId req),
        store ++ [newBooking tz turfDoc userId newId req])

/-! ## The date field of a request (`new Date(date)`) -/

/-- The decimal value of a run of digit characters; `none` when the run is
empty or holds another character. -/
def digitsToNat (cs : List Char) : Option Nat :=
  if cs.isEmpty || !cs.all (charIn '0' '9') then none
  else some (numberOfDigits cs)

/-- `DayFromYear(y)` of ECMAScript: the day number of 1 January of year `y`,
counted from 1 January 1970. -/
def dayFromYear (y : Int) : Int :=
  365 * (y - 1970) + (y - 1969) / 4 - (y - 1901) / 100 + (y - 1601) / 400

/-- Whether `y` is a leap year of the Gregorian calendar. -/
def inLeapYear (y : Int) : Bool :=
  y % 4 == 0 && (y % 100 != 0 || y % 400 == 0)

/-- The number of days of month `m` (1 to 12) of year `y`. -/
def daysInMonth (y : Int) (m : Nat) : Nat :=
  match m with
  | 2 => if inLeapYear y then 29 else 28
  | 4 => 30
  | 6 => 30
  | 9 => 30
  | 11 => 30
  | _ => 31

/-- `MakeDay`: the day number of day `d` of month `m` of year `y`. -/
def makeDay (y : Int) (m d : Nat) : Int :=
  dayFromYear y + (((List.range (m - 1)).map (fun i => daysInMonth y (i + 1))).sum : Nat)
    + ((d : Int) - 1)

/-- The day number of a date given by its fields, when the month is 1 to 12
and the day is one of that month. -/
def checkedDay (y m d : Nat) : Option Int :=
  if 1 ≤ m && m ≤ 12 && 1 ≤ d && d ≤ daysInMonth y m then some (makeDay y m d) else none

/-- The date part of the ECMAScript date-time format, `YYYY`, `YYYY-MM` or
`YYYY-MM-DD`, as a day number. -/
def parseDatePart (cs : List Char) : Option Int :=
  match cs with
  | [y3, y2, y1, y0] =>
    match digitsToNat [y3, y2, y1, y0] with
    | some y => checkedDay y 1 1
    | none => none
  | [y3, y2, y1, y0, '-', m1, m0] =>
    match digitsToNat [y3, y2, y1, y0], digitsToNat [m1, m0] with
    | some y, some m => checkedDay y m 1
    | _, _ => none
  | [y3, y2, y1, y0, '-', m1, m0, '-', d1, d0] =>
    match digitsToNat [y3, y2, y1, y0], digitsToNat [m1, m0], digitsToNat [d1, d0] with
    | some y, some m, some d => checkedDay y m d
    | _, _, _ => none
  | _ => none

/-- The milliseconds into the day of a time given by its fields, for an hour up
to 23 and minutes and seconds up to 59. -/
def checkedTime (h m sec ms : Nat) : Option Int :=
  if h ≤ 23 && m ≤ 59 && sec ≤ 59 then
    some ((((h * 60 + m) * 60 + sec) * 1000 + ms : Nat) : Int)
  else none

/-- The time part of the format, `HH:mm`, `HH:mm:ss` or `HH:mm:ss.sss`, as
milliseconds into the day. -/
def parseTimePart (cs : List Char) : Option Int :=
  match cs with
  | [h1, h0, ':', m1, m0] =>
    match digitsToNat [h1, h0], digitsToNat [m1, m0] with
    | some h, some m => checkedTime h m 0 0
    | _, _ => none
  | [h1, h0, ':', m1, m0, ':', s1, s0] =>
    match digitsToNat [h1, h0], digitsToNat [m1, m0], digitsToNat [s1, s0] with
    | some h, some m, some sec => checkedTime h m sec 0
    | _, _, _ => none
  | [h1, h0, ':', m1, m0, ':', s1, s0, '.', f2, f1, f0] =>
    match digitsToNat [h1, h0], digitsToNat [m1, m0], digitsToNat [s1, s0],
      digitsToNat [f2, f1, f0] with
    | some h, some m, some sec, some ms => checkedTime h m sec ms
    | _, _, _, _ => none
  | _ => none

/-- The UTC offset of the format in milliseconds east of UTC: `Z`, `+HH:mm` or
`-HH:mm`. The outer `none` is a malformed offset, `some none` an absent one. -/
def parseOffsetPart (cs : List Char) : Option (Option Int) :=
  match cs with
  | [] => some none
  | ['Z'] => some (some 0)
  | [sign, h1, h0, ':', m1, m0] =>
    match digitsToNat [h1, h0], digitsToNat [m1, m0] with
    | some h, some m =>
      if h ≤ 23 && m ≤ 59 then
        if sign == '+' then some (some (((h * 60 + m) * 60000 : Nat) : Int))
        else if sign == '-' then some (some (-(((h * 60 + m) * 60000 : Nat) : Int)))
        else none
      else none
    | _, _ => none
  | _ => none

/-- A character of the time part: a digit, a colon or the decimal point. -/
def isTimeChar (c : Char) : Bool :=
  charIn '0' '9' c || c == ':' || c == '.'

/-- `Date.parse` on a string of the ECMAScript date-time format with a
four-digit year: a date, or a date, `T`, a time and an optional offset. Without
an offset a date-only form is read as UTC and a date-time form as local time.
`none` is a string that is not of these forms. -/
def parseDateTimeFormat (tz : Int) (s : String) : Option Date :=
  let cs := s.toList
  let datePart := cs.takeWhile (fun c => c != 'T')
  match cs.dropWhile (fun c => c != 'T') with
  | [] =>
    match parseDatePart datePart with
    | some day => some (day * msPerDay)
    | none => none
  | _ :: rest =>
    let timePart := rest.takeWhile isTimeChar
    let offsetPart := rest.dropWhile isTimeChar
    match parseDatePart datePart, parseTimePart timePart, parseOffsetPart offsetPart with
    | some day, some ms, some (some offset) => some (day * msPerDay + ms - offset)
    | some day, some ms, some none => some (day * msPerDay + ms - tz)
    | _, _, _ => none

/-- What `createBooking` takes from outside `src/` when it reads the date
field: `isISO8601` is the rule of the validator library, and `fallbackDate` is
what `new Date(s)` makes of a string that `parseDateTimeFormat` does not read,
which the language leaves to the engine. `none` is Invalid Date. -/
structure DateRuntime where
  isISO8601 : String → Bool
  fallbackDate : String → Option Date

/-- `new Date(s)` for a string `s`; `none` is Invalid Date. -/
def newDate (rt : DateRuntime) (tz : Int) (s : String) : Option Date :=
  match parseDateTimeFormat tz s with
  | some d => some d
  | none => rt.fallbackDate s

/-- The body of a create-booking request as it is received: `date` is the
string of the field, `turf` a well-formed id. -/
structure BookingBody where
  turf : ObjectId
  date : String
  timeSlot : TimeSlot
  players : Players
  paymentMethod : String
  deriving DecidableEq, Repr

/-- The request whose date is the `Date` that was made of the field. -/
def BookingBody.toRequest (body : BookingBody) (date : Date) : BookingRequest :=
  { turf := body.turf, date := date, timeSlot := body.timeSlot, players := body.players,
    paymentMethod := body.paymentMethod }

/-- The rules of `validateCreateBooking` on the received body: the date is not
empty and passes `isISO8601`, both times match the pattern, `players.count` is
an integer of at least 1, and the payment method is one of the four listed. -/
def validateCreateBookingBody (rt : DateRuntime) (body : BookingBody) : Bool :=
  (body.date != "" && rt.isISO8601 body.date)
    && matchesTimePattern body.timeSlot.startTime
    && matchesTimePattern body.timeSlot.endTime
    && decide (1 ≤ body.players.count)
    && ["cash", "card", "upi", "wallet"].contains body.paymentMethod

/-- `createBooking` from the received body, with `bookingDate = new Date(date)`.
On an Invalid Date `setHours` leaves it invalid and `bookingDate < today` is
false, so the date check passes; the conflict query on the invalid date then
throws and the `catch` block answers 500. -/
def createBookingFromBody (rt : DateRuntime) (tz : Int) (now : Date) (turfs : List Turf)
    (store : List Booking) (userId newId : ObjectId) (body : BookingBody) :
    CreateBookingResult × List Booking :=
  if !validateCreateBookingBody rt body then (CreateBookingResult.validationFailed, store)
  else
    let startMinutes := timeToMinutes body.timeSlot.startTime
    let endMinutes := timeToMinutes body.timeSlot.endTime
    if endMinutes ≤ startMinutes then (CreateBookingResult.invalidInterval, store)
    else
      match newDate rt tz body.date with
      | none =>
        match turfs.find? (fun t => t._id == body.turf) with
        | none => (CreateBookingResult.turfNotFound, store)
        | some turfDoc =>
          if !turfDoc.isActive then (CreateBookingResult.turfInactive, store)
          else (CreateBookingResult.serverError, store)
      | some date =>
        let bookingDate := setHoursStartOfDay tz date
        let today := setHoursStartOfDay tz now
        if bookingDate < today then (CreateBookingResult.pastDate, store)
        else
          match turfs.find? (fun t => t._id == body.turf) with
          | none => (CreateBookingResult.turfNotFound, store)
          | some turfDoc =>
            if !turfDoc.isActive then (CreateBookingResult.turfInactive, store)
            else createBookingTail tz store userId newId (body.toRequest date) turfDoc

/-- A turf with its peak data replaced: the peak rate and every peak window. -/
def withPeakData (t : Turf) (rate : Option ℚ) (window : DaySchedule → Option PeakHours) :
    Turf :=
  { t with
    pricing := { t.pricing with peakHourRate := rate }
    availability :=
      { t.availability with
        days := t.availability.days.map (fun d => { d with peakHours := window d }) } }

/-- A turf with its availability data replaced. -/
def withAvailability (t : Turf) (a : Availability) : Turf :=
  { t with availability := a }

/-- A turf with its pricing replaced. -/
def withPricing (t : Turf) (hourlyRate : ℚ) (peakHourRate : Option ℚ) : Turf :=
  { t with pricing := { hourlyRate := hourlyRate, peakHourRate := peakHourRate } }

/-- A maintenance entry with a date and no reason. -/
def maintenanceOn (d : Date) : MaintenanceEntry :=
  { date := some d, reason := none }

/-- The availability of the example turf with the given holidays and
maintenance dates added. -/
def exampleAvailability (isOpen : Bool) (openTime closeTime : String)
    (holidays maintenanceDates : List Date) : Availability :=
  { (exampleTurf isOpen openTime closeTime none).availability with
    holidays := holidays.map some, maintenanceDates := maintenanceDates.map maintenanceOn }

/-- The turf of `scripts/testModels.js` as stored: entries for Monday and
Tuesday only, both open 06:00-22:00; hourly rate 1000 with the default peak
rate; at most 22 players; no holidays and no maintenance entries. -/
def testModelsTurf : Turf :=
  { _id := 7
    owner := 2
    pricing := { hourlyRate := 1000, peakHourRate := some 1500 }
    availability :=
      { days :=
          [exampleEntry true "06:00" "22:00"
              (some { start := some "18:00", «end» := some "21:00" }) DayName.monday,
            exampleEntry true "06:00" "22:00"
              (some { start := none, «end» := none }) DayName.tuesday]
        holidays := []
        maintenanceDates := [] }
    capacity := some { maxPlayers := some 22 }
    isActive := true }

/-- The test turf with the given holidays and maintenance entries. -/
def testModelsTurfWith (holidays : List (Option Date))
    (maintenanceDates : List MaintenanceEntry) : Turf :=
  withAvailability testModelsTurf
    { days := testModelsTurf.availability.days
      holidays := holidays
      maintenanceDates := maintenanceDates }

/-- A maintenance entry stored with a reason and no date. -/
def undatedMaintenance : MaintenanceEntry :=
  { date := none, reason := some "resurfacing" }

/-- The instant 2024-01-15T00:00:00Z, day 19737 after the epoch, a Monday. -/
def mondayJan15 : Date := 1705276800000

/-- One hour in milliseconds. -/
def msPerHour : Int := 3600000

/-- A create-booking request for the examples: 10 players, paid by UPI. -/
def exampleRequest (turf : ObjectId) (date : Date) (startTime endTime : String) :
    BookingRequest :=
  { turf := turf, date := date,
    timeSlot := { startTime := startTime, endTime := endTime },
    players := { count := 10 }, paymentMethod := "upi" }

/-- A received create-booking body for the examples: 10 players, paid by UPI. -/
def exampleBody (turf : ObjectId) (date : String) (startTime endTime : String) :
    BookingBody :=
  { turf := turf, date := date,
    timeSlot := { startTime := startTime, endTime := endTime },
    players := { count := 10 }, paymentMethod := "upi" }

/-! ## Booking lifecycle (`BackEnd/controllers/bookingController.js`) -/

/-- The role of an authenticated user. -/
inductive Role
  | user
  | owner
  | admin
  deriving DecidableEq, Repr

/-- The authenticated requester, `req.user`. -/
structure RequestUser where
  id : ObjectId
  role : Role
  deriving DecidableEq, Repr

/-- `Booking.findById(id)`. -/
def findById (store : List Booking) (id : ObjectId) : Option Booking :=
  store.find? (fun b => b._id == id)

/-- `booking.save()` for a document loaded by id: the stored document with that
id is replaced by `b`. -/
def saveBooking : List Booking → Booking → List Booking
  | [], _ => []
  | x :: xs, b => if x._id == b._id then b :: xs else x :: saveBooking xs b

/-- The responses of `cancelBooking`, by kind. -/
inductive CancelBookingResult
  | notFound
  | notAuthorized
  | alreadyCancelled
  | completedBooking
  | noShowBooking
  | cancelled (booking : Booking)
  deriving DecidableEq, Repr

/-- `req.body.reason || 'Cancelled by user'`. -/
def reasonOrDefault : Option String → String
  | some r => if r == "" then "Cancelled by user" else r
  | none => "Cancelled by user"

/-- Who cancelled, as `cancelBooking` determines it. -/
def cancelledByOf (user : RequestUser) (booking : Booking) : CancelledBy :=
  if user.role == Role.admin then CancelledBy.admin
  else if user.role == Role.owner && booking.user != user.id then CancelledBy.owner
  else CancelledBy.user

/-- The document that `cancelBooking` saves for a booking it cancels. `now`
stands for both `new Date()` readings of the function. -/
def cancelledDocument (now : Date) (user : RequestUser) (reason : Option String)
    (booking : Booking) : Booking :=
  let cancellation : Cancellation :=
    { cancelledBy := cancelledByOf user booking, cancelledAt := now,
      reason := reasonOrDefault reason, refundAmount := none }
  if booking.payment.status == PaymentStatus.completed then
    { booking with
      status := BookingStatus.cancelled
      payment :=
        { booking.payment with status := PaymentStatus.refunded, refundedAt := some now }
      cancellation :=
        some { cancellation with refundAmount := some booking.pricing.totalAmount } }
  else
    { booking with status := BookingStatus.cancelled, cancellation := some cancellation }

/-- `cancelBooking`: the response and the booking collection afterwards. -/
def cancelBooking (now : Date) (store : List Booking) (user : RequestUser) (id : ObjectId)
    (reason : Option String) : CancelBookingResult × List Booking :=
  match findById store id with
  | none => (CancelBookingResult.notFound, store)
  | some booking =>
    let isOwner := booking.user == user.id
    let isAdmin := user.role == Role.admin
    let isTurfOwner := user.role == Role.owner
    if !isOwner && !isAdmin && !isTurfOwner then (CancelBookingResult.notAuthorized, store)
    else if booking.status == BookingStatus.cancelled then
      (CancelBookingResult.alreadyCancelled, store)
    else if booking.status == BookingStatus.completed then
      (CancelBookingResult.completedBooking, store)
    else if booking.status == BookingStatus.no_show then
      (CancelBookingResult.noShowBooking, store)
    else
      (CancelBookingResult.cancelled (cancelledDocument now user reason booking),
        saveBooking store (cancelledDocument now user reason booking))

/-- The responses of `processPayment`, by kind. -/
inductive ProcessPaymentResult
  | notFound
  | notAuthorized
  | cancelledBooking
  | alreadyCompleted
  | transactionIdRequired
  | processed (booking : Booking)
  deriving DecidableEq, Repr

/-- `processPayment`: the response and the booking collection afterwards. -/
def processPayment (now : Date) (store : List Booking) (user : RequestUser) (id : ObjectId)
    (transactionId : Option String) : ProcessPaymentResult × List Booking :=
  match findById store id with
  | none => (ProcessPaymentResult.notFound, store)
  | some booking =>
    if booking.user != user.id then (ProcessPaymentResult.notAuthorized, store)
    else if booking.status == BookingStatus.cancelled then
      (ProcessPaymentResult.cancelledBooking, store)
    else if booking.payment.status == PaymentStatus.completed then
      (ProcessPaymentResult.alreadyCompleted, store)
    else
      match transactionId with
      | none => (ProcessPaymentResult.transactionIdRequired, store)
      | some txn =>
        if txn == "" then (ProcessPaymentResult.transactionIdRequired, store)
        else
          let updated : Booking :=
            { booking with
              payment :=
                { booking.payment with
                  status := PaymentStatus.completed
                  transactionId := some txn
                  paidAt := some now }
              status := BookingStatus.confirmed }
          (ProcessPaymentResult.processed updated, saveBooking store updated)

/-- The responses of `confirmBooking`, `completeBooking` and `markNoShow`, by
kind; `serverError` is the 500 response when the booking's turf no longer exists
and `booking.turf.owner` throws. -/
inductive StatusUpdateResult
  | notFound
  | serverError
  | notAuthorized
  | updated (booking : Booking)
  deriving DecidableEq, Repr

/-- The common body of `confirmBooking`, `completeBooking` and `markNoShow`,
which differ in the status they write. -/
def ownerStatusUpdate (status : BookingStatus) (turfs : List Turf) (store : List Booking)
    (user : RequestUser) (id : ObjectId) : StatusUpdateResult × List Booking :=
  match findById store id with
  | none => (StatusUpdateResult.notFound, store)
  | some booking =>
    match turfs.find? (fun t => t._id == booking.turf) with
    | none => (StatusUpdateResult.serverError, store)
    | some turf =>
      if turf.owner != user.id && user.role != Role.admin then
        (StatusUpdateResult.notAuthorized, store)
      else
        let updated : Booking := { booking with status := status }
        (StatusUpdateResult.updated updated, saveBooking store updated)

/-- `confirmBooking`. -/
def confirmBooking (turfs : List Turf) (store : List Booking) (user : RequestUser)
    (id : ObjectId) : StatusUpdateResult × List Booking :=
  ownerStatusUpdate BookingStatus.confirmed turfs store user id

/-- `completeBooking`. -/
def completeBooking (turfs : List Turf) (store : List Booking) (user : RequestUser)
    (id : ObjectId) : StatusUpdateResult × List Booking :=
  ownerStatusUpdate BookingStatus.completed turfs store user id

/-- `markNoShow`. -/
def markNoShow (turfs : List Turf) (store : List Booking) (user : RequestUser)
    (id : ObjectId) : StatusUpdateResult × List Booking :=
  ownerStatusUpdate BookingStatus.no_show turfs store user id

/-- The method `calculateTotal()` of a booking. -/
def Booking.calculateTotal (b : Booking) : ℚ :=
  b.pricing.baseAmount + b.pricing.peakHourCharges + b.pricing.taxes - b.pricing.discount

/-- One call of a booking operation of the controller, with its inputs. -/
inductive BookingOp
  | create (now : Date) (userId newId : ObjectId) (req : BookingRequest)
  | cancel (now : Date) (user : RequestUser) (id : ObjectId) (reason : Option String)
  | pay (now : Date) (user : RequestUser) (id : ObjectId) (transactionId : Option String)
  | confirm (user : RequestUser) (id : ObjectId)
  | complete (user : RequestUser) (id : ObjectId)
  | noShow (user : RequestUser) (id : ObjectId)
  deriving DecidableEq, Repr

/-- The booking collection after one operation. -/
def applyOp (tz : Int) (turfs : List Turf) (store : List Booking) : BookingOp → List Booking
  | BookingOp.create now userId newId req =>
    (createBooking tz now turfs store userId newId req).2
  | BookingOp.cancel now user id reason => (cancelBooking now store user id reason).2
  | BookingOp.pay now user id transactionId =>
    (processPayment now store user id transactionId).2
  | BookingOp.confirm user id => (confirmBooking turfs store user id).2
  | BookingOp.complete user id => (completeBooking turfs store user id).2
  | BookingOp.noShow user id => (markNoShow turfs store user id).2

/-- The booking collection after a sequence of operations, run one after another. -/
def applyOps (tz : Int) (turfs : List Turf) (store : List Booking) (ops : List BookingOp) :
    List Booking :=
  ops.foldl (applyOp tz turfs) store

/-- Two documents are the same reservation: they agree on every field but
`status`, `payment` and `cancellation`. -/
def sameReservation (b c : Booking) : Prop :=
  c._id = b._id ∧ c.user = b.user ∧ c.turf = b.turf ∧ c.date = b.date ∧
    c.timeSlot = b.timeSlot ∧ c.duration = b.duration ∧ c.players = b.players ∧
    c.pricing = b.pricing

/-- Every document of `s` is, at the same position of `t`, the same reservation. -/
def keepsReservations (s t : List Booking) : Prop :=
  ∀ (i : Nat) (b : Booking), s[i]? = some b → ∃ c, t[i]? = some c ∧ sameReservation b c

/-- Two bookings that are both pending or confirmed, of the same turf and date,
and whose time slots pass the overlap test of the conflict query. -/
def doubleBooked (a b : Booking) : Bool :=
  statusInConfirmedPending a.status && statusInConfirmedPending b.status
    && a.turf == b.turf && a.date == b.date
    && overlapTest strLt a.timeSlot.startTime a.timeSlot.endTime
        b.timeSlot.startTime b.timeSlot.endTime

/-- No two documents of the collection are double booked. -/
def noDoubleBooking : List Booking → Bool
  | [] => true
  | b :: bs => bs.all (fun x => !doubleBooked b x) && noDoubleBooking bs

/-! ## The turf data mapper (`FrontEnd/src/utils/turfDataMapper.js`) -/

/-- The constant `AMENITY_MAP`, as its own keys and their values. -/
def AMENITY_MAP : List (String × String) :=
  [("Floodlights", "lighting"), ("Parking", "parking"), ("Changing Rooms", "changing_room"),
   ("Cafeteria", "cafeteria"), ("First Aid", "first_aid"),
   ("Equipment Rental", "equipment_rental"), ("Scoreboard", "seating"),
   ("Seating Area", "seating"), ("Washrooms", "washroom"), ("Security", "parking"),
   ("Air Conditioning", "changing_room"), ("Wi-Fi", "cafeteria")]

/-- The constant `VALID_BACKEND_AMENITIES`. -/
def VALID_BACKEND_AMENITIES : List String :=
  ["parking", "washroom", "changing_room", "lighting", "seating", "cafeteria", "first_aid",
   "equipment_rental"]

/-- The constant `VALID_BACKEND_SPORTS`. -/
def VALID_BACKEND_SPORTS : List String :=
  ["football", "cricket", "basketball", "tennis", "badminton", "volleyball", "hockey"]

/-- The `enum` of `amenities` in the turf schema (`BackEnd/models/Turf.js`). -/
def turfSchemaAmenities : List String :=
  ["parking", "washroom", "changing_room", "lighting", "seating", "cafeteria", "first_aid",
   "equipment_rental"]

/-- The `enum` of `sports` in the turf schema (`BackEnd/models/Turf.js`). -/
def turfSchemaSports : List String :=
  ["football", "cricket", "basketball", "tennis", "badminton", "volleyball", "hockey"]

/-- The property names that every object literal inherits from `Object.prototype`. -/
def objectPrototypeKeys : List String :=
  ["constructor", "__defineGetter__", "__defineSetter__", "hasOwnProperty",
   "__lookupGetter__", "__lookupSetter__", "isPrototypeOf", "propertyIsEnumerable",
   "toString", "valueOf", "__proto__", "toLocaleString"]

/-- What `mapAmenityToBackend` can return besides `null`: a string, or the
function or object that an inherited property name looks up in `AMENITY_MAP`. -/
inductive MappedAmenity
  | str (value : String)
  | inherited
  deriving DecidableEq, Repr

/-- `s.replace(/\s+/g, '_')` on characters; `inRun` tells whether the previous
character was white space. -/
def replaceWhiteSpaceRuns : Bool → List Char → List Char
  | _, [] => []
  | inRun, c :: cs =>
    if isJsWhiteSpace c then
      if inRun then replaceWhiteSpaceRuns true cs else '_' :: replaceWhiteSpaceRuns true cs
    else c :: replaceWhiteSpaceRuns false cs

/-- `mapAmenityToBackend(displayAmenity)` for a string; `none` is `null`.
`toLowerCase` is the method `String.prototype.toLowerCase`. -/
def mapAmenityToBackend (toLowerCase : String → String) (displayAmenity : String) :
    Option MappedAmenity :=
  if displayAmenity == "" then none
  else
    match AMENITY_MAP.lookup displayAmenity with
    | some mapped => some (MappedAmenity.str mapped)
    | none =>
      if objectPrototypeKeys.contains displayAmenity then some MappedAmenity.inherited
      else
        let lowerAmenity :=
          String.mk (replaceWhiteSpaceRuns false (toLowerCase displayAmenity).toList)
        if VALID_BACKEND_AMENITIES.contains lowerAmenity then
          some (MappedAmenity.str lowerAmenity)
        else none

/-- The argument of `mapAmenitiesToBackend`: an array of strings, or a value
that is not an array. -/
inductive AmenitiesArgument
  | array (items : List String)
  | notArray
  deriving DecidableEq, Repr

/-- The second filter of `mapAmenitiesToBackend`, `VALID_BACKEND_AMENITIES.includes`,
on a value that passed the first (it is not `null`). -/
def validAmenity : MappedAmenity → Option String
  | MappedAmenity.str value => if VALID_BACKEND_AMENITIES.contains value then some value else none
  | MappedAmenity.inherited => none

/-- `mapAmenitiesToBackend(displayAmenities)`: map, drop `null`, keep the valid
enum values. -/
def mapAmenitiesToBackend (toLowerCase : String → String) :
    AmenitiesArgument → List String
  | AmenitiesArgument.notArray => []
  | AmenitiesArgument.array displayAmenities =>
    ((displayAmenities.map (fun amenity => mapAmenityToBackend toLowerCase amenity)).filterMap
      (fun amenity => amenity)).filterMap validAmenity

/-- The ASCII part of `toLowerCase`, for the examples. -/
def toLowerCaseAscii (s : String) : String :=
  String.mk (s.toList.map (fun c =>
    if 65 ≤ c.toNat ∧ c.toNat ≤ 90 then Char.ofNat (c.toNat + 32) else c))

/-- Four accepted operations, starting from the empty store: a booking
10:00-11:00 is created and cancelled by its user, the same slot is booked by
another user, and the turf's owner confirms the cancelled booking. -/
def reconfirmScenario : List BookingOp :=
  [BookingOp.create 0 3 1 (exampleRequest 7 0 "10:00" "11:00"),
   BookingOp.cancel 0 { id := 3, role := Role.user } 1 none,
   BookingOp.create 0 4 2 (exampleRequest 7 0 "10:00" "11:00"),
   BookingOp.confirm { id := 2, role := Role.owner } 1]

/-- Two dates fall on the same local calendar day. -/
def sameCalendarDay (tz : Int) (d1 d2 : Date) : Bool :=
  setHoursStartOfDay tz d1 == setHoursStartOfDay tz d2

/-- The reservations the specification's `findConflicts` asks for, in the
specification's words: same turf, same calendar date, status pending or
confirmed, and the half-open overlap test against the candidate. -/
def specFindConflicts (tz : Int) (store : List Booking) (turfId : ObjectId)
    (date : Date) (startTime endTime : String) : List Booking :=
  store.filter (fun b =>
    b.turf == turfId && sameCalendarDay tz b.date date
      && (b.status == BookingStatus.pending || b.status == BookingStatus.confirmed)
      && (strLt b.timeSlot.startTime endTime && strGt b.timeSlot.endTime startTime))

/-! ## Basic facts -/

theorem setHoursStartOfDay_idem (tz : Int) (d : Date) :
    setHoursStartOfDay tz (setHoursStartOfDay tz d) = setHoursStartOfDay tz d := by
  have key : ∀ x t : Int,
      (x - (x + t) % 86400000) - ((x - (x + t) % 86400000) + t) % 86400000
        = x - (x + t) % 86400000 := by
    intro x t
    omega
  exact key d tz

theorem ltChars_irrefl (a : List Char) : ltChars a a = false := by
  induction a with
  | nil => rfl
  | cons c cs ih => simp [ltChars, ih]

theorem strLt_irrefl (a : String) : strLt a a = false :=
  ltChars_irrefl a.toList

theorem conflictQuery_none_iff (tz : Int) (turfId : ObjectId) (date : Date)
    (startTime endTime : String) (b : Booking) :
    conflictQuery tz turfId date startTime endTime none b = true ↔
      b.turf = turfId ∧ b.date = setHoursStartOfDay tz date ∧
      (b.status = BookingStatus.pending ∨ b.status = BookingStatus.confirmed) ∧
      strLt b.timeSlot.startTime endTime = true ∧
      strGt b.timeSlot.endTime startTime = true := by
  simp only [conflictQuery, overlapTest, statusInConfirmedPending, strGt, Bool.and_eq_true,
    Bool.or_eq_true, beq_iff_eq, and_true]
  constructor
  · rintro ⟨⟨⟨h1, h2⟩, h3⟩, h4, h5⟩
    exact ⟨h1, h2, h3.symm, h4, h5⟩
  · rintro ⟨h1, h2, h3, h4, h5⟩
    exact ⟨⟨⟨h1, h2⟩, h3.symm⟩, h4, h5⟩

theorem conflictQuery_inactive (tz : Int) (turfId : ObjectId) (date : Date)
    (startTime endTime : String) (ex : Option ObjectId) (b : Booking)
    (h : statusInConfirmedPending b.status = false) :
    conflictQuery tz turfId date startTime endTime ex b = false := by
  simp [conflictQuery, h]

theorem char_eq_of_toNat (a b : Char) (h1 : ¬ a.toNat < b.toNat)
    (h2 : ¬ b.toNat < a.toNat) : a = b := by
  have h : a.toNat = b.toNat := by omega
  exact Char.ext (UInt32.ext h)

/-- The comparison `ltChars` is the lexicographic order of `List Char`. -/
theorem ltChars_iff_lt (a b : List Char) : ltChars a b = true ↔ a < b := by
  induction a generalizing b with
  | nil =>
    cases b with
    | nil => simp [ltChars]
    | cons d ds => simp only [ltChars, true_iff]; exact List.Lex.nil
  | cons c cs ih =>
    cases b with
    | nil => simp [ltChars]
    | cons d ds =>
      simp only [ltChars]
      by_cases h1 : c.toNat < d.toNat
      · simp only [h1, if_true, true_iff]
        exact List.Lex.rel h1
      · by_cases h2 : d.toNat < c.toNat
        · simp only [h1, h2, if_true, if_false]
          constructor
          · intro h; cases h
          · intro h
            exfalso
            have hdc : d < c := h2
            cases h with
            | cons h3 => exact lt_irrefl _ hdc
            | rel h3 => exact lt_asymm h3 hdc
        · have hcd := char_eq_of_toNat c d h1 h2
          subst hcd
          simp only [h1, if_false]
          rw [ih ds]
          constructor
          · intro h; exact List.Lex.cons h
          · intro h
            cases h with
            | cons h3 => exact h3
            | rel h3 => exact absurd h3 (lt_irrefl _)

/-- The comparison `strLt` is the strict part of the linear order of strings. -/
theorem strLt_iff_lt (a b : String) : strLt a b = true ↔ a < b := by
  rw [String.lt_iff_toList_lt]
  exact ltChars_iff_lt a.toList b.toList

theorem strLe_iff_le (a b : String) : strLe a b = true ↔ a ≤ b := by
  unfold strLe
  rw [Bool.not_eq_true', ← Bool.not_eq_true, strLt_iff_lt]
  exact not_lt

theorem strLt_eq_decide (a b : String) : strLt a b = decide (a < b) := by
  rw [Bool.eq_iff_iff]
  simp [strLt_iff_lt]

theorem overlapTest_strLt_iff (a b c d : String) :
    overlapTest strLt a b c d = true ↔ a < d ∧ c < b := by
  simp [overlapTest, strLt_iff_lt]

theorem mem_getConflictingBookings_iff (tz : Int) (store : List Booking)
    (turfId : ObjectId) (date : Date) (startTime endTime : String) (b : Booking) :
    b ∈ Booking.getConflictingBookings tz store turfId date startTime endTime none ↔
      b ∈ store ∧ b.turf = turfId ∧ b.date = setHoursStartOfDay tz date ∧
      (b.status = BookingStatus.pending ∨ b.status = BookingStatus.confirmed) ∧
      strLt b.timeSlot.startTime endTime = true ∧
      strGt b.timeSlot.endTime startTime = true := by
  unfold Booking.getConflictingBookings
  rw [List.mem_filter, conflictQuery_none_iff]

theorem filter_conflictQuery_active (tz : Int) (store : List Booking)
    (turfId : ObjectId) (date : Date) (startTime endTime : String)
    (ex : Option ObjectId) :
    (store.filter (fun b => statusInConfirmedPending b.status)).filter
        (conflictQuery tz turfId date startTime endTime ex)
      = store.filter (conflictQuery tz turfId date startTime endTime ex) := by
  rw [List.filter_filter]
  congr 1
  funext b
  cases h : statusInConfirmedPending b.status
  · simp [conflictQuery_inactive tz turfId date startTime endTime ex b h]
  · simp

theorem checkConflict_eq_getConflictingBookings (tz : Int) (store : List Booking)
    (turfId : ObjectId) (date : Date) (startTime endTime : String)
    (ex : Option ObjectId) :
    Booking.checkConflict tz store turfId date startTime endTime ex =
      !(Booking.getConflictingBookings tz store turfId date startTime endTime ex).isEmpty := by
  unfold Booking.checkConflict Booking.getConflictingBookings
  induction store with
  | nil => rfl
  | cons b bs ih =>
    cases h : conflictQuery tz turfId date startTime endTime ex b
    · simpa [List.find?, List.filter, h] using ih
    · simp [List.find?, List.filter, h]

theorem checkConflict_none_iff (tz : Int) (store : List Booking) (turfId : ObjectId)
    (date : Date) (startTime endTime : String) :
    Booking.checkConflict tz store turfId date startTime endTime none = true ↔
      ∃ b ∈ store, b.turf = turfId ∧ b.date = setHoursStartOfDay tz date ∧
        (b.status = BookingStatus.pending ∨ b.status = BookingStatus.confirmed) ∧
        strLt b.timeSlot.startTime endTime = true ∧
        strGt b.timeSlot.endTime startTime = true := by
  unfold Booking.checkConflict
  simp only [List.find?_isSome]
  constructor
  · rintro ⟨b, hb, hq⟩
    exact ⟨b, hb, (conflictQuery_none_iff tz turfId date startTime endTime b).1 hq⟩
  · rintro ⟨b, hb, hq⟩
    exact ⟨b, hb, (conflictQuery_none_iff tz turfId date startTime endTime b).2 hq⟩

theorem checkConflict_singleton_active (tz : Int) (turfId : ObjectId) (date : Date)
    (startTime endTime : String) (A : Booking) (hT : A.turf = turfId)
    (hD : A.date = setHoursStartOfDay tz date)
    (hS : A.status = BookingStatus.pending ∨ A.status = BookingStatus.confirmed) :
    Booking.checkConflict tz [A] turfId date startTime endTime none =
      (strLt A.timeSlot.startTime endTime && strGt A.timeSlot.endTime startTime) := by
  rw [Bool.eq_iff_iff, checkConflict_none_iff]
  simp only [List.mem_singleton, exists_eq_left, Bool.and_eq_true]
  constructor
  · rintro ⟨_, _, _, h4, h5⟩
    exact ⟨h4, h5⟩
  · rintro ⟨h4, h5⟩
    exact ⟨hT, hD, hS, h4, h5⟩

/-! ## Conflict detection -/

/-- C1: `checkConflict(turf, date, start, end)` is true exactly when the store
holds a reservation of that turf, dated at the midnight-normalised date, with
status pending or confirmed, and with `existing.startTime < end` and
`existing.endTime > start`; for a store of one such active reservation `A` the
result is exactly `A.start < end && A.end > start`. -/
theorem checkConflict_iff (tz : Int) (store : List Booking) (turfId : ObjectId)
    (date : Date) (startTime endTime : String) :
    (Booking.checkConflict tz store turfId date startTime endTime none = true ↔
      ∃ b ∈ store, b.turf = turfId ∧ b.date = setHoursStartOfDay tz date ∧
        (b.status = BookingStatus.pending ∨ b.status = BookingStatus.confirmed) ∧
        strLt b.timeSlot.startTime endTime = true ∧
        strGt b.timeSlot.endTime startTime = true) ∧
    (∀ A : Booking, A.turf = turfId → A.date = setHoursStartOfDay tz date →
      (A.status = BookingStatus.pending ∨ A.status = BookingStatus.confirmed) →
      Booking.checkConflict tz [A] turfId date startTime endTime none =
        (strLt A.timeSlot.startTime endTime && strGt A.timeSlot.endTime startTime)) := by
  exact ⟨checkConflict_none_iff tz store turfId date startTime endTime,
    fun A hT hD hS => checkConflict_singleton_active tz turfId date startTime endTime A hT hD hS⟩

/-- The scenario of `scripts/testModels.js`: a pending booking 10:00-12:00 is a
conflict for the candidate 11:00-13:00 of the same turf and day. -/
theorem checkConflict_iff_witness :
    Booking.checkConflict 0
      [exampleBooking 1 7 (setHoursStartOfDay 0 1700000000000) "10:00" "12:00"
        BookingStatus.pending]
      7 1700000000000 "11:00" "13:00" none = true := by
  rw [(checkConflict_iff 0 [] 7 1700000000000 "11:00" "13:00").2
    (exampleBooking 1 7 (setHoursStartOfDay 0 1700000000000) "10:00" "12:00"
      BookingStatus.pending) rfl rfl (Or.inl rfl)]
  decide

/-- C2: over any linearly ordered time domain, for two non-empty intervals the
two-sided test of the conflict query holds exactly when the half-open intervals
`[aStart, aEnd)` and `[bStart, bEnd)` share an instant. -/
theorem overlapTest_iff_common_instant {T : Type} [LinearOrder T]
    (aStart aEnd bStart bEnd : T) (hA : aStart < aEnd) (hB : bStart < bEnd) :
    overlapTest (fun x y => decide (x < y)) aStart aEnd bStart bEnd = true ↔
      ∃ t : T, aStart ≤ t ∧ t < aEnd ∧ bStart ≤ t ∧ t < bEnd := by
  simp only [overlapTest, Bool.and_eq_true, decide_eq_true_eq]
  constructor
  · rintro ⟨h1, h2⟩
    exact ⟨max aStart bStart, le_max_left _ _, max_lt hA h2, le_max_right _ _, max_lt h1 hB⟩
  · rintro ⟨t, h1, h2, h3, h4⟩
    exact ⟨lt_of_le_of_lt h1 h4, lt_of_le_of_lt h3 h2⟩

/-- C2 at the time strings the query compares: 10:00-12:00 against 11:00-13:00. -/
theorem overlapTest_iff_common_instant_witness :
    overlapTest strLt "10:00" "12:00" "11:00" "13:00" = true ↔
      ∃ t : String, "10:00" ≤ t ∧ t < "12:00" ∧ "11:00" ≤ t ∧ t < "13:00" := by
  have h := overlapTest_iff_common_instant "10:00" "12:00" "11:00" "13:00"
    ((strLt_iff_lt _ _).1 (by decide)) ((strLt_iff_lt _ _).1 (by decide))
  refine Iff.trans ?_ h
  simp only [overlapTest, Bool.and_eq_true, strLt_iff_lt, decide_eq_true_eq]

/-- C3: back-to-back bookings never conflict. Whatever the store, a reservation
`A` is not returned for a candidate that starts when `A` ends, nor for one that
ends when `A` starts, and alone it raises no conflict; 09:00-10:00 against
10:00-11:00 gives none. Whenever the two intervals share an instant `t` (which
identical, nested and partially overlapping non-empty intervals do) an active
`A` of the turf and day is returned; the listed examples are evaluated. -/
theorem back_to_back_no_conflict (tz : Int) (store : List Booking) (A : Booking)
    (date : Date) (other : String) (ex : Option ObjectId) :
    (A ∉ Booking.getConflictingBookings tz store A.turf date A.timeSlot.endTime other ex ∧
      Booking.checkConflict tz [A] A.turf date A.timeSlot.endTime other ex = false) ∧
    (A ∉ Booking.getConflictingBookings tz store A.turf date other A.timeSlot.startTime ex ∧
      Booking.checkConflict tz [A] A.turf date other A.timeSlot.startTime ex = false) ∧
    (∀ startTime endTime t : String, A ∈ store →
      A.date = setHoursStartOfDay tz date →
      (A.status = BookingStatus.pending ∨ A.status = BookingStatus.confirmed) →
      strLe A.timeSlot.startTime t = true → strLt t A.timeSlot.endTime = true →
      strLe startTime t = true → strLt t endTime = true →
      A ∈ Booking.getConflictingBookings tz store A.turf date startTime endTime none ∧
      Booking.checkConflict tz [A] A.turf date startTime endTime none = true) ∧
    (let A0 := exampleBooking 1 7 (setHoursStartOfDay tz date) "09:00" "10:00"
        BookingStatus.confirmed
     Booking.checkConflict tz [A0] 7 date "10:00" "11:00" none = false ∧
     Booking.checkConflict tz [A0] 7 date "08:00" "09:00" none = false ∧
     Booking.checkConflict tz [A0] 7 date "09:00" "10:00" none = true ∧
     Booking.checkConflict tz [A0] 7 date "09:15" "09:45" none = true ∧
     Booking.checkConflict tz [A0] 7 date "08:00" "11:00" none = true ∧
     Booking.checkConflict tz [A0] 7 date "08:30" "09:30" none = true ∧
     Booking.checkConflict tz [A0] 7 date "09:30" "10:30" none = true) := by
  have q1 : conflictQuery tz A.turf date A.timeSlot.endTime other ex A = false := by
    simp [conflictQuery, overlapTest, strLt_irrefl]
  have q2 : conflictQuery tz A.turf date other A.timeSlot.startTime ex A = false := by
    simp [conflictQuery, overlapTest, strLt_irrefl]
  refine ⟨⟨?_, ?_⟩, ⟨?_, ?_⟩, ?_, ?_⟩
  · intro h
    have := (List.mem_filter.1 h).2
    rw [q1] at this
    exact Bool.false_ne_true this
  · simp [Booking.checkConflict, List.find?, q1]
  · intro h
    have := (List.mem_filter.1 h).2
    rw [q2] at this
    exact Bool.false_ne_true this
  · simp [Booking.checkConflict, List.find?, q2]
  · intro startTime endTime t hmem hD hS h1 h2 h3 h4
    have o1 : strLt A.timeSlot.startTime endTime = true :=
      (strLt_iff_lt _ _).2
        (lt_of_le_of_lt ((strLe_iff_le _ _).1 h1) ((strLt_iff_lt _ _).1 h4))
    have o2 : strGt A.timeSlot.endTime startTime = true :=
      (strLt_iff_lt _ _).2
        (lt_of_le_of_lt ((strLe_iff_le _ _).1 h3) ((strLt_iff_lt _ _).1 h2))
    have hq : conflictQuery tz A.turf date startTime endTime none A = true :=
      (conflictQuery_none_iff tz A.turf date startTime endTime A).2 ⟨rfl, hD, hS, o1, o2⟩
    refine ⟨List.mem_filter.2 ⟨hmem, hq⟩, ?_⟩
    simp [Booking.checkConflict, List.find?, hq]
  · intro A0
    have e : ∀ s e : String, Booking.checkConflict tz [A0] 7 date s e none =
        (strLt "09:00" e && strGt "10:00" s) := fun s e =>
      checkConflict_singleton_active tz 7 date s e A0 rfl rfl (Or.inr rfl)
    simp only [e]
    decide

/-- C4: conflict detection ignores inactive reservations. Two stores whose
pending and confirmed reservations coincide (so that they differ only by
added, removed or changed cancelled, completed or no-show reservations) give
the same `checkConflict` and the same `getConflictingBookings`. -/
theorem conflict_ignores_inactive (tz : Int) (store1 store2 : List Booking)
    (turfId : ObjectId) (date : Date) (startTime endTime : String)
    (ex : Option ObjectId)
    (h : store1.filter (fun b => statusInConfirmedPending b.status) =
      store2.filter (fun b => statusInConfirmedPending b.status)) :
    Booking.getConflictingBookings tz store1 turfId date startTime endTime ex =
      Booking.getConflictingBookings tz store2 turfId date startTime endTime ex ∧
    Booking.checkConflict tz store1 turfId date startTime endTime ex =
      Booking.checkConflict tz store2 turfId date startTime endTime ex := by
  have hg : Booking.getConflictingBookings tz store1 turfId date startTime endTime ex =
      Booking.getConflictingBookings tz store2 turfId date startTime endTime ex := by
    unfold Booking.getConflictingBookings
    rw [← filter_conflictQuery_active tz store1, ← filter_conflictQuery_active tz store2, h]
  refine ⟨hg, ?_⟩
  rw [checkConflict_eq_getConflictingBookings, checkConflict_eq_getConflictingBookings, hg]

/-- C4 at a store holding a cancelled booking for 09:00-10:00 against the empty
store: the new request for the same interval meets no conflict. -/
theorem conflict_ignores_inactive_witness :
    Booking.getConflictingBookings 0
        [exampleBooking 1 7 0 "09:00" "10:00" BookingStatus.cancelled] 7 0 "09:00" "10:00" none
      = [] ∧
    Booking.checkConflict 0
        [exampleBooking 1 7 0 "09:00" "10:00" BookingStatus.cancelled] 7 0 "09:00" "10:00" none
      = false :=
  conflict_ignores_inactive 0
    [exampleBooking 1 7 0 "09:00" "10:00" BookingStatus.cancelled] [] 7 0 "09:00" "10:00" none
    (by decide)

/-- C5: on a store whose reservations carry midnight-normalised dates (the data
model's calendar days), `getConflictingBookings(turf, date, start, end)` returns
exactly the reservations of the same turf and the same calendar date, with
status pending or confirmed, that pass the overlap test, in store order. A
pending reservation 10:00-12:00 on `(turf, date)` is returned for the candidate
11:00-13:00, and never for another calendar date, another turf, or the
candidate 12:00-13:00. -/
theorem getConflictingBookings_spec (tz : Int) (store : List Booking)
    (turfId : ObjectId) (date : Date) (startTime endTime : String)
    (hstore : ∀ b ∈ store, setHoursStartOfDay tz b.date = b.date) :
    Booking.getConflictingBookings tz store turfId date startTime endTime none =
      specFindConflicts tz store turfId date startTime endTime ∧
    (∀ id : ObjectId,
      let A := exampleBooking id turfId (setHoursStartOfDay tz date) "10:00" "12:00"
        BookingStatus.pending
      A ∈ store →
      A ∈ Booking.getConflictingBookings tz store turfId date "11:00" "13:00" none ∧
      (∀ otherDate : Date, sameCalendarDay tz otherDate date = false →
        A ∉ Booking.getConflictingBookings tz store turfId otherDate startTime endTime none) ∧
      (∀ otherTurf : ObjectId, otherTurf ≠ turfId →
        A ∉ Booking.getConflictingBookings tz store otherTurf date startTime endTime none) ∧
      A ∉ Booking.getConflictingBookings tz store turfId date "12:00" "13:00" none) := by
  constructor
  · unfold Booking.getConflictingBookings specFindConflicts
    apply List.filter_congr
    intro b hb
    have hn := hstore b hb
    have hd : (b.date == setHoursStartOfDay tz date) = sameCalendarDay tz b.date date := by
      unfold sameCalendarDay
      rw [hn]
    simp only [conflictQuery, overlapTest, statusInConfirmedPending, strGt, Bool.and_true, hd]
    rw [Bool.or_comm (b.status == BookingStatus.confirmed)]
  · intro id A hA
    refine ⟨?_, ?_, ?_, ?_⟩
    · rw [mem_getConflictingBookings_iff]
      have o1 : strLt "10:00" "13:00" = true := by decide
      have o2 : strGt "12:00" "11:00" = true := by decide
      exact ⟨hA, rfl, rfl, Or.inl rfl, o1, o2⟩
    · intro otherDate hne h
      rw [mem_getConflictingBookings_iff] at h
      have h2 : setHoursStartOfDay tz date = setHoursStartOfDay tz otherDate := h.2.2.1
      have h3 : sameCalendarDay tz otherDate date = true := by
        unfold sameCalendarDay
        rw [h2]
        exact beq_self_eq_true _
      rw [h3] at hne
      exact Bool.noConfusion hne
    · intro otherTurf hne h
      rw [mem_getConflictingBookings_iff] at h
      exact hne h.2.1.symm
    · intro h
      rw [mem_getConflictingBookings_iff] at h
      have o3 : strGt "12:00" "12:00" = false := by decide
      have o4 : strGt "12:00" "12:00" = true := h.2.2.2.2.2
      rw [o3] at o4
      exact Bool.noConfusion o4

/-- C5 on the store of `scripts/testModels.js`: one pending booking 10:00-12:00. -/
theorem getConflictingBookings_spec_witness :
    Booking.getConflictingBookings 0
        [exampleBooking 1 7 86400000 "10:00" "12:00" BookingStatus.pending]
        7 86400000 "11:00" "13:00" none
      = [exampleBooking 1 7 86400000 "10:00" "12:00" BookingStatus.pending] := by
  rw [(getConflictingBookings_spec 0
    [exampleBooking 1 7 86400000 "10:00" "12:00" BookingStatus.pending]
    7 86400000 "11:00" "13:00" (by decide)).1]
  decide

/-! ## Facts about the time strings -/

theorem toStringPadStart2_toList_fin :
    ∀ n : Fin 100, (toStringPadStart2 (n.val : Int)).toList =
      [digitChar (n.val / 10), digitChar (n.val % 10)] := by
  decide

theorem toStringPadStart2_toList (n : Nat) (h : n < 100) :
    (toStringPadStart2 (n : Int)).toList = [digitChar (n / 10), digitChar (n % 10)] :=
  toStringPadStart2_toList_fin ⟨n, h⟩

theorem parseInt_toStringPadStart2_fin :
    ∀ n : Fin 100, parseInt (toStringPadStart2 (n.val : Int)) = some (n.val : Int) := by
  decide

theorem parseInt_toStringPadStart2 (n : Nat) (h : n < 100) :
    parseInt (toStringPadStart2 (n : Int)) = some (n : Int) :=
  parseInt_toStringPadStart2_fin ⟨n, h⟩

theorem digitChar_toNat_fin : ∀ k : Fin 10, (digitChar k.val).toNat = 48 + k.val := by
  decide

theorem digitChar_toNat (k : Nat) (h : k < 10) : (digitChar k).toNat = 48 + k :=
  digitChar_toNat_fin ⟨k, h⟩

theorem digitChar_ne_colon (k : Nat) (h : k < 10) : (digitChar k != ':') = true := by
  have h1 := digitChar_toNat k h
  rw [bne_iff_ne]
  intro h2
  rw [h2] at h1
  have h3 : (':' : Char).toNat = 58 := by decide
  omega

theorem hhmm_toList (h m : Nat) (hh : h < 100) (hm : m < 100) :
    (hhmm h m).toList =
      [digitChar (h / 10), digitChar (h % 10), ':', digitChar (m / 10), digitChar (m % 10)] := by
  unfold hhmm
  simp only [String.toList, String.data_append]
  have e1 := toStringPadStart2_toList h hh
  have e2 := toStringPadStart2_toList m hm
  simp only [String.toList] at e1 e2
  rw [e1, e2]
  rfl

theorem slotTime_eq_hhmm (h : Nat) : toStringPadStart2 (h : Int) ++ ":00" = hhmm h 0 := by
  unfold hhmm
  rw [String.append_assoc]
  rfl

theorem splitColonFirst_hhmm (h m : Nat) (hh : h < 100) (hm : m < 100) :
    splitColonFirst (hhmm h m) = toStringPadStart2 (h : Int) := by
  unfold splitColonFirst
  rw [hhmm_toList h m hh hm]
  have d1 := digitChar_ne_colon (h / 10) (by omega)
  have d2 := digitChar_ne_colon (h % 10) (by omega)
  have e1 := toStringPadStart2_toList h hh
  have d3 : ((':' : Char) != ':') = false := by decide
  simp only [List.takeWhile, d1, d2, d3]
  exact String.ext e1.symm

theorem parseInt_hour_hhmm (h m : Nat) (hh : h < 100) (hm : m < 100) :
    parseInt (splitColonFirst (hhmm h m)) = some (h : Int) := by
  rw [splitColonFirst_hhmm h m hh hm, parseInt_toStringPadStart2 h hh]

theorem ltChars_cons_same (c : Char) (as bs : List Char) :
    ltChars (c :: as) (c :: bs) = ltChars as bs := by
  simp [ltChars]

/-- On zero-padded strings, `strLt` compares hours first and minutes second. -/
theorem strLt_hhmm (h m k n : Nat) (hh : h < 100) (hm : m < 100) (hk : k < 100)
    (hn : n < 100) :
    strLt (hhmm h m) (hhmm k n) = decide (100 * h + m < 100 * k + n) := by
  unfold strLt
  rw [hhmm_toList h m hh hm, hhmm_toList k n hk hn]
  simp only [ltChars, digitChar_toNat (h / 10) (by omega), digitChar_toNat (h % 10) (by omega),
    digitChar_toNat (m / 10) (by omega), digitChar_toNat (m % 10) (by omega),
    digitChar_toNat (k / 10) (by omega), digitChar_toNat (k % 10) (by omega),
    digitChar_toNat (n / 10) (by omega), digitChar_toNat (n % 10) (by omega)]
  rw [Bool.eq_iff_iff]
  simp only [decide_eq_true_eq]
  split_ifs <;> simp <;> omega

/-! ## Facts about `getTurfAvailability` -/

theorem getTurfAvailability_closed (tz : Int) (turf : Turf) (date : Date)
    (store : List Booking)
    (h : ∀ d, turf.availability.days.find? (fun d => d.day == weekdayLong tz date) = some d →
      d.isOpen = false) :
    getTurfAvailability tz turf date store =
      { isOpen := false, availableSlots := some [], openTime := none, closeTime := none,
        slots := none, bookedSlots := [] } := by
  cases hf : turf.availability.days.find? (fun d => d.day == weekdayLong tz date) with
  | none => simp only [getTurfAvailability, hf]
  | some d => simp [getTurfAvailability, hf, h d hf]

theorem getTurfAvailability_slots (tz : Int) (turf : Turf) (date : Date)
    (store : List Booking) (day : DaySchedule)
    (hday : turf.availability.days.find? (fun d => d.day == weekdayLong tz date) = some day)
    (hopen : day.isOpen = true) :
    (getTurfAvailability tz turf date store).slots =
      some ((loopHours (parseInt (splitColonFirst day.openTime))
          (parseInt (splitColonFirst day.closeTime))).map
        (slotForHour turf day (store.filter (availabilityQuery tz turf._id date)))) := by
  unfold getTurfAvailability
  simp [hday, hopen]

theorem mem_slots_elim (tz : Int) (turf : Turf) (date : Date) (store : List Booking)
    (slots : List Slot) (s : Slot)
    (hs : (getTurfAvailability tz turf date store).slots = some slots) (hmem : s ∈ slots) :
    ∃ day hour,
      turf.availability.days.find? (fun d => d.day == weekdayLong tz date) = some day ∧
      s = slotForHour turf day (store.filter (availabilityQuery tz turf._id date)) hour := by
  cases hf : turf.availability.days.find? (fun d => d.day == weekdayLong tz date) with
  | none =>
    rw [getTurfAvailability_closed tz turf date store (by intro d hd; rw [hf] at hd; cases hd)] at hs
    cases hs
  | some day =>
    cases ho : day.isOpen with
    | false =>
      rw [getTurfAvailability_closed tz turf date store
        (by intro d hd; rw [hf] at hd; cases hd; exact ho)] at hs
      cases hs
    | true =>
      rw [getTurfAvailability_slots tz turf date store day hf ho] at hs
      cases hs
      obtain ⟨hour, _, hh⟩ := List.mem_map.1 hmem
      exact ⟨day, hour, rfl, hh.symm⟩

theorem loopHours_nat (a b : Nat) :
    loopHours (some (a : Int)) (some (b : Int)) =
      (List.range (b - a)).map (fun i => ((a + i : Nat) : Int)) := by
  unfold loopHours
  have e : ((b : Int) - (a : Int)).toNat = b - a := by omega
  simp only [e]
  apply List.map_congr_left
  intro i _
  push_cast
  rfl

theorem slotForHour_times (turf : Turf) (day : DaySchedule) (bookings : List Booking)
    (k : Nat) :
    (slotForHour turf day bookings (k : Int)).startTime = hhmm k 0 ∧
    (slotForHour turf day bookings (k : Int)).endTime = hhmm (k + 1) 0 := by
  constructor
  · exact slotTime_eq_hhmm k
  · have e : ((k : Int) + 1) = ((k + 1 : Nat) : Int) := by push_cast; rfl
    show toStringPadStart2 ((k : Int) + 1) ++ ":00" = hhmm (k + 1) 0
    rw [e]
    exact slotTime_eq_hhmm (k + 1)

theorem slots_of_hhmm (tz : Int) (turf : Turf) (date : Date) (store : List Booking)
    (day : DaySchedule) (h m k n : Nat) (hh : h < 100) (hm : m < 100) (hk : k < 100)
    (hn : n < 100)
    (hday : turf.availability.days.find? (fun d => d.day == weekdayLong tz date) = some day)
    (hopen : day.isOpen = true) (ho : day.openTime = hhmm h m)
    (hc : day.closeTime = hhmm k n) :
    (getTurfAvailability tz turf date store).slots =
      some ((List.range (k - h)).map (fun i =>
        slotForHour turf day (store.filter (availabilityQuery tz turf._id date))
          ((h + i : Nat) : Int))) := by
  rw [getTurfAvailability_slots tz turf date store day hday hopen, ho, hc,
    parseInt_hour_hhmm h m hh hm, parseInt_hour_hhmm k n hk hn, loopHours_nat, List.map_map]
  rfl

theorem exampleTurf_find (isOpen : Bool) (openTime closeTime : String)
    (peakHours : Option PeakHours) (w : DayName) :
    (exampleTurf isOpen openTime closeTime peakHours).availability.days.find?
        (fun d => d.day == w)
      = some (exampleEntry isOpen openTime closeTime peakHours w) := by
  cases w <;> rfl

/-! ## Availability -/

/-- C6: when the weekly schedule has no entry for the weekday of the date, or
the entry has `isOpen = false`, the response has `isOpen = false`, an empty
slot list and no booked slots, whatever the store holds. -/
theorem closed_day_response (tz : Int) (turf : Turf) (date : Date) (store : List Booking)
    (h : (∀ d ∈ turf.availability.days, d.day ≠ weekdayLong tz date) ∨
      ∃ d, turf.availability.days.find? (fun d => d.day == weekdayLong tz date) = some d ∧
        d.isOpen = false) :
    (getTurfAvailability tz turf date store).isOpen = false ∧
    (getTurfAvailability tz turf date store).availableSlots = some [] ∧
    (getTurfAvailability tz turf date store).slots = none ∧
    (getTurfAvailability tz turf date store).bookedSlots = [] := by
  have hc : ∀ d, turf.availability.days.find? (fun d => d.day == weekdayLong tz date) = some d →
      d.isOpen = false := by
    intro d hd
    rcases h with h | ⟨e, he, hcl⟩
    · have hm := List.mem_of_find?_eq_some hd
      have hp := List.find?_some hd
      exact absurd (beq_iff_eq.1 hp) (h d hm)
    · rw [he] at hd
      cases hd
      exact hcl
  rw [getTurfAvailability_closed tz turf date store hc]
  exact ⟨rfl, rfl, rfl, rfl⟩

/-- C6 on a turf closed every day, with a confirmed booking stored for the date. -/
theorem closed_day_response_witness :
    (getTurfAvailability 0 (exampleTurf false "06:00" "09:00" none) 0
        [exampleBooking 1 7 0 "06:00" "07:00" BookingStatus.confirmed]).isOpen = false ∧
    (getTurfAvailability 0 (exampleTurf false "06:00" "09:00" none) 0
        [exampleBooking 1 7 0 "06:00" "07:00" BookingStatus.confirmed]).availableSlots
      = some [] ∧
    (getTurfAvailability 0 (exampleTurf false "06:00" "09:00" none) 0
        [exampleBooking 1 7 0 "06:00" "07:00" BookingStatus.confirmed]).slots = none ∧
    (getTurfAvailability 0 (exampleTurf false "06:00" "09:00" none) 0
        [exampleBooking 1 7 0 "06:00" "07:00" BookingStatus.confirmed]).bookedSlots = [] :=
  closed_day_response 0 (exampleTurf false "06:00" "09:00" none) 0
    [exampleBooking 1 7 0 "06:00" "07:00" BookingStatus.confirmed]
    (Or.inr ⟨exampleEntry false "06:00" "09:00" none DayName.thursday, by decide, rfl⟩)

/-- C7, as stated, fails: with `openTime` 06:30 and `closeTime` 09:30 the slots
are 06:00-07:00, 07:00-08:00 and 08:00-09:00, so slot 0 is not 06:30-07:30 and
it starts before `openTime`. -/
theorem slot_zero_not_at_openTime :
    slotTimes (getTurfAvailability 0 (exampleTurf true "06:30" "09:30" none) 0 []) =
      some [("06:00", "07:00", true), ("07:00", "08:00", true), ("08:00", "09:00", true)] ∧
    strLt "06:00" "06:30" = true ∧
    ("06:00", "07:00") ≠ (hhmm 6 30, hhmm 7 30) := by
  decide

/-- C7, amended: for an open day whose `openTime` is `h:m` and whose `closeTime`
is `k:n` (valid zero-padded times) the slots are aligned to whole hours from the
hour of `openTime`: slot `i` is `[(h+i):00, (h+i+1):00)` for `i < k - h`, which is
`[openTime + i hours, openTime + (i+1) hours)` when `m = 0`. No slot starts
before `h:00`, none ends after `closeTime`, and when `m = 0` none starts before
`openTime`. -/
theorem slots_whole_hours (tz : Int) (turf : Turf) (date : Date) (store : List Booking)
    (day : DaySchedule) (h m k n : Nat) (hh : h < 24) (hm : m < 60) (hk : k < 24)
    (hn : n < 60)
    (hday : turf.availability.days.find? (fun d => d.day == weekdayLong tz date) = some day)
    (hopen : day.isOpen = true) (ho : day.openTime = hhmm h m)
    (hc : day.closeTime = hhmm k n) :
    ∃ slots, (getTurfAvailability tz turf date store).slots = some slots ∧
      slots.map (fun s => (s.startTime, s.endTime)) =
        (List.range (k - h)).map (fun i => (hhmm (h + i) 0, hhmm (h + i + 1) 0)) ∧
      (∀ s ∈ slots, strLe (hhmm h 0) s.startTime = true ∧
        strLe s.endTime day.closeTime = true) ∧
      (m = 0 → ∀ s ∈ slots, strLe day.openTime s.startTime = true) := by
  refine ⟨_, slots_of_hhmm tz turf date store day h m k n (by omega) (by omega) (by omega)
    (by omega) hday hopen ho hc, ?_, ?_, ?_⟩
  · rw [List.map_map]
    apply List.map_congr_left
    intro i _
    have t := slotForHour_times turf day
      (store.filter (availabilityQuery tz turf._id date)) (h + i)
    exact Prod.ext t.1 t.2
  · intro s hs
    obtain ⟨i, hi, rfl⟩ := List.mem_map.1 hs
    have hi2 : i < k - h := List.mem_range.1 hi
    have t := slotForHour_times turf day
      (store.filter (availabilityQuery tz turf._id date)) (h + i)
    rw [t.1, t.2, hc]
    unfold strLe
    rw [strLt_hhmm (h + i) 0 h 0 (by omega) (by omega) (by omega) (by omega),
      strLt_hhmm k n (h + i + 1) 0 (by omega) (by omega) (by omega) (by omega)]
    constructor
    · simp
    · simp only [Bool.not_eq_true', decide_eq_false_iff_not]
      omega
  · intro hm0 s hs
    obtain ⟨i, hi, rfl⟩ := List.mem_map.1 hs
    have hi2 : i < k - h := List.mem_range.1 hi
    have t := slotForHour_times turf day
      (store.filter (availabilityQuery tz turf._id date)) (h + i)
    rw [t.1, ho, hm0]
    unfold strLe
    rw [strLt_hhmm (h + i) 0 h 0 (by omega) (by omega) (by omega) (by omega)]
    simp

/-- C7, amended, at `openTime` 06:30 and `closeTime` 09:30 on an empty store. -/
theorem slots_whole_hours_witness :
    ∃ slots, (getTurfAvailability 0 (exampleTurf true "06:30" "09:30" none) 0 []).slots
        = some slots ∧
      slots.map (fun s => (s.startTime, s.endTime)) =
        (List.range (9 - 6)).map (fun i => (hhmm (6 + i) 0, hhmm (6 + i + 1) 0)) ∧
      (∀ s ∈ slots, strLe (hhmm 6 0) s.startTime = true ∧
        strLe s.endTime (exampleEntry true "06:30" "09:30" none DayName.thursday).closeTime
          = true) ∧
      (30 = 0 → ∀ s ∈ slots,
        strLe (exampleEntry true "06:30" "09:30" none DayName.thursday).openTime s.startTime
          = true) :=
  slots_whole_hours 0 (exampleTurf true "06:30" "09:30" none) 0 []
    (exampleEntry true "06:30" "09:30" none DayName.thursday) 6 30 9 30
    (by decide) (by decide) (by decide) (by decide) (by decide) rfl (by decide) (by decide)

/-- C8: for an open day with `openTime` `h1:00` and `closeTime` `h2:00`,
`0 <= h1 <= h2 <= 24`, and no active reservation of the turf on the date, the
slots are exactly the `h2 - h1` slots `[(h1+i):00, (h1+i+1):00)` in ascending
order, each one hour long and ending where the next starts, all available. -/
theorem hourly_slots_no_reservations (tz : Int) (turf : Turf) (date : Date)
    (store : List Booking) (day : DaySchedule) (h1 h2 : Nat) (hle : h1 ≤ h2)
    (h24 : h2 ≤ 24)
    (hday : turf.availability.days.find? (fun d => d.day == weekdayLong tz date) = some day)
    (hopen : day.isOpen = true) (ho : day.openTime = hhmm h1 0)
    (hc : day.closeTime = hhmm h2 0)
    (hnone : store.filter (availabilityQuery tz turf._id date) = []) :
    slotTimes (getTurfAvailability tz turf date store) =
      some ((List.range (h2 - h1)).map
        (fun i => (hhmm (h1 + i) 0, hhmm (h1 + i + 1) 0, true))) := by
  unfold slotTimes
  rw [slots_of_hhmm tz turf date store day h1 0 h2 0 (by omega) (by omega) (by omega)
    (by omega) hday hopen ho hc, hnone]
  simp only [Option.map_some', List.map_map]
  congr 1
  apply List.map_congr_left
  intro i _
  have t := slotForHour_times turf day [] (h1 + i)
  exact Prod.ext t.1 (Prod.ext t.2 rfl)

/-- C8 at 06:00-09:00: exactly 06:00-07:00, 07:00-08:00 and 08:00-09:00. -/
theorem hourly_slots_no_reservations_witness :
    slotTimes (getTurfAvailability 0 (exampleTurf true "06:00" "09:00" none) 0 []) =
      some [("06:00", "07:00", true), ("07:00", "08:00", true), ("08:00", "09:00", true)] :=
  (hourly_slots_no_reservations 0 (exampleTurf true "06:00" "09:00" none) 0 []
    (exampleEntry true "06:00" "09:00" none DayName.thursday) 6 9
    (by decide) (by decide) (by decide) rfl (by decide) (by decide) rfl).trans (by decide)

/-- C9: a generated slot has `isAvailable = false` exactly when some booking of
the day's query result (the turf's pending and confirmed bookings dated within
the requested day) has `startTime <= slot.startTime` and
`slot.startTime < endTime` as strings; otherwise it is true. -/
theorem slot_isAvailable_iff (tz : Int) (turf : Turf) (date : Date) (store : List Booking)
    (slots : List Slot) (s : Slot)
    (hs : (getTurfAvailability tz turf date store).slots = some slots) (hmem : s ∈ slots) :
    (s.isAvailable = false ↔
      ∃ b ∈ store.filter (availabilityQuery tz turf._id date),
        strLe b.timeSlot.startTime s.startTime = true ∧
        strLt s.startTime b.timeSlot.endTime = true) ∧
    (s.isAvailable = true ↔
      ¬ ∃ b ∈ store.filter (availabilityQuery tz turf._id date),
        strLe b.timeSlot.startTime s.startTime = true ∧
        strLt s.startTime b.timeSlot.endTime = true) := by
  obtain ⟨day, hour, _, rfl⟩ := mem_slots_elim tz turf date store slots s hs hmem
  have key : (slotForHour turf day (store.filter (availabilityQuery tz turf._id date))
      hour).isAvailable = false ↔
      ∃ b ∈ store.filter (availabilityQuery tz turf._id date),
        strLe b.timeSlot.startTime (slotForHour turf day
          (store.filter (availabilityQuery tz turf._id date)) hour).startTime = true ∧
        strLt (slotForHour turf day
          (store.filter (availabilityQuery tz turf._id date)) hour).startTime
          b.timeSlot.endTime = true := by
    simp only [slotForHour, strGt, Bool.not_eq_false', List.any_eq_true, Bool.and_eq_true]
  refine ⟨key, ?_⟩
  rw [← key]
  simp

/-- C9 on an open day 06:00-09:00 with a confirmed booking 07:00-08:00: the
07:00 slot is unavailable. -/
theorem slot_isAvailable_iff_witness :
    (slotForHour (exampleTurf true "06:00" "09:00" none)
        (exampleEntry true "06:00" "09:00" none DayName.thursday)
        [exampleBooking 1 7 0 "07:00" "08:00" BookingStatus.confirmed] 7).isAvailable
      = false :=
  ((slot_isAvailable_iff 0 (exampleTurf true "06:00" "09:00" none) 0
    [exampleBooking 1 7 0 "07:00" "08:00" BookingStatus.confirmed]
    ((List.range 3).map (fun i =>
      slotForHour (exampleTurf true "06:00" "09:00" none)
        (exampleEntry true "06:00" "09:00" none DayName.thursday)
        [exampleBooking 1 7 0 "07:00" "08:00" BookingStatus.confirmed] ((6 + i : Nat) : Int)))
    (slotForHour (exampleTurf true "06:00" "09:00" none)
        (exampleEntry true "06:00" "09:00" none DayName.thursday)
        [exampleBooking 1 7 0 "07:00" "08:00" BookingStatus.confirmed] 7)
    rfl (List.mem_map.2 ⟨1, by decide, rfl⟩)).1).2
    ⟨exampleBooking 1 7 0 "07:00" "08:00" BookingStatus.confirmed, by decide, by decide,
      by decide⟩

/-- C10: a generated slot has `isPeakHour` true exactly when the day's entry
has a peak window with both bounds set and `start <= slot.startTime < end` as
strings; without a peak window no slot is peak. With the window 18:00-20:00 on
a day open 06:00-23:00 the peak slots are those starting 18:00 and 19:00, so
the 17:00 and 20:00 slots are not peak. -/
theorem slot_isPeakHour_iff (tz : Int) (turf : Turf) (date : Date) (store : List Booking)
    (day : DaySchedule) (slots : List Slot) (s : Slot)
    (hday : turf.availability.days.find? (fun d => d.day == weekdayLong tz date) = some day)
    (hs : (getTurfAvailability tz turf date store).slots = some slots) (hmem : s ∈ slots) :
    (s.isPeakHour = some true ↔
      ∃ p st en, day.peakHours = some p ∧ p.start = some st ∧ p.«end» = some en ∧
        strLe st s.startTime = true ∧ strLt s.startTime en = true) ∧
    (day.peakHours = none → s.isPeakHour = none) ∧
    peakSlotStarts (getTurfAvailability tz
        (exampleTurf true "06:00" "23:00" (some { start := some "18:00", «end» := some "20:00" }))
        date store) = ["18:00", "19:00"] ∧
    peakSlotStarts (getTurfAvailability tz (exampleTurf true "06:00" "23:00" none) date store)
      = [] := by
  obtain ⟨day2, hour, hday2, rfl⟩ := mem_slots_elim tz turf date store slots s hs hmem
  rw [hday] at hday2
  cases hday2
  refine ⟨?_, ?_, ?_, ?_⟩
  · cases hp : day.peakHours with
    | none => simp [slotForHour, hp]
    | some p =>
      cases hst : p.start with
      | none => simp [slotForHour, hp, hst, strGeOpt]
      | some st =>
        cases hen : p.«end» with
        | none => simp [slotForHour, hp, hst, hen, strLtOpt]
        | some en => simp [slotForHour, hp, hst, hen, strGeOpt, strLtOpt, strGe, strLe]
  · intro hp
    simp [slotForHour, hp]
  · have e := slots_of_hhmm tz (exampleTurf true "06:00" "23:00" (some { start := some "18:00", «end» := some "20:00" })) date store
      (exampleEntry true "06:00" "23:00" (some { start := some "18:00", «end» := some "20:00" }) (weekdayLong tz date)) 6 0 23 0
      (by decide) (by decide) (by decide) (by decide)
      (exampleTurf_find true "06:00" "23:00" (some { start := some "18:00", «end» := some "20:00" }) (weekdayLong tz date)) rfl rfl rfl
    unfold peakSlotStarts
    rw [e]
    simp only [Option.getD_some, List.filterMap_map]
    rfl
  · have e := slots_of_hhmm tz (exampleTurf true "06:00" "23:00" none) date store
      (exampleEntry true "06:00" "23:00" none (weekdayLong tz date)) 6 0 23 0
      (by decide) (by decide) (by decide) (by decide)
      (exampleTurf_find true "06:00" "23:00" none (weekdayLong tz date)) rfl rfl rfl
    unfold peakSlotStarts
    rw [e]
    simp only [Option.getD_some, List.filterMap_map]
    rfl

/-- C10 on a day open 06:00-23:00 with peak window 18:00-20:00: the 18:00 slot
is peak. -/
theorem slot_isPeakHour_iff_witness :
    (slotForHour
        (exampleTurf true "06:00" "23:00" (some { start := some "18:00", «end» := some "20:00" }))
        (exampleEntry true "06:00" "23:00" (some { start := some "18:00", «end» := some "20:00" })
          DayName.thursday) [] 18).isPeakHour = some true :=
  ((slot_isPeakHour_iff 0
    (exampleTurf true "06:00" "23:00" (some { start := some "18:00", «end» := some "20:00" }))
    0 []
    (exampleEntry true "06:00" "23:00" (some { start := some "18:00", «end» := some "20:00" })
      DayName.thursday)
    ((List.range 17).map (fun i =>
      slotForHour
        (exampleTurf true "06:00" "23:00"
          (some { start := some "18:00", «end» := some "20:00" }))
        (exampleEntry true "06:00" "23:00"
          (some { start := some "18:00", «end» := some "20:00" }) DayName.thursday)
        [] ((6 + i : Nat) : Int)))
    (slotForHour
        (exampleTurf true "06:00" "23:00" (some { start := some "18:00", «end» := some "20:00" }))
        (exampleEntry true "06:00" "23:00" (some { start := some "18:00", «end» := some "20:00" })
          DayName.thursday) [] 18)
    (by decide) rfl (List.mem_map.2 ⟨12, by decide, rfl⟩)).1).2
    ⟨{ start := some "18:00", «end» := some "20:00" }, "18:00", "20:00", rfl, rfl, rfl,
      by decide, by decide⟩

/-! ## Facts about `createBooking` -/

theorem startOfDay_lt_iff (tz : Int) (a b : Date) :
    setHoursStartOfDay tz a < setHoursStartOfDay tz b ↔
      toDateString tz a < toDateString tz b := by
  have key : ∀ x y t : Int,
      x - (x + t) % 86400000 < y - (y + t) % 86400000 ↔
        (x + t) / 86400000 < (y + t) / 86400000 := by
    intro x y t
    omega
  exact key a b tz

theorem toDateString_eq_iff (tz : Int) (a b : Date) :
    toDateString tz a = toDateString tz b ↔ sameCalendarDay tz a b = true := by
  have key : ∀ x y t : Int,
      (x + t) / 86400000 = (y + t) / 86400000 ↔
        x - (x + t) % 86400000 = y - (y + t) % 86400000 := by
    intro x y t
    omega
  unfold sameCalendarDay
  rw [beq_iff_eq]
  exact key a b tz

theorem createBooking_invalid (tz : Int) (now : Date) (turfs : List Turf)
    (store : List Booking) (userId newId : ObjectId) (req : BookingRequest)
    (hv : validateCreateBooking req = true)
    (hi : timeToMinutes req.timeSlot.endTime ≤ timeToMinutes req.timeSlot.startTime) :
    createBooking tz now turfs store userId newId req =
      (CreateBookingResult.invalidInterval, store) := by
  unfold createBooking
  simp [hv, hi]

theorem createBooking_past (tz : Int) (now : Date) (turfs : List Turf)
    (store : List Booking) (userId newId : ObjectId) (req : BookingRequest)
    (hv : validateCreateBooking req = true)
    (hi : timeToMinutes req.timeSlot.startTime < timeToMinutes req.timeSlot.endTime)
    (hp : setHoursStartOfDay tz req.date < setHoursStartOfDay tz now) :
    createBooking tz now turfs store userId newId req =
      (CreateBookingResult.pastDate, store) := by
  unfold createBooking
  simp [hv, Nat.not_le.2 hi, hp]

theorem createBooking_checked (tz : Int) (now : Date) (turfs : List Turf)
    (store : List Booking) (userId newId : ObjectId) (req : BookingRequest)
    (hv : validateCreateBooking req = true)
    (hi : timeToMinutes req.timeSlot.startTime < timeToMinutes req.timeSlot.endTime)
    (hp : ¬ setHoursStartOfDay tz req.date < setHoursStartOfDay tz now) :
    createBooking tz now turfs store userId newId req =
      match turfs.find? (fun t => t._id == req.turf) with
      | none => (CreateBookingResult.turfNotFound, store)
      | some turfDoc =>
        if !turfDoc.isActive then (CreateBookingResult.turfInactive, store)
        else createBookingTail tz store userId newId req turfDoc := by
  unfold createBooking createBookingTail
  simp only [hv, Nat.not_le.2 hi, hp, Bool.not_true, Bool.false_eq_true, if_false]

theorem createBooking_active (tz : Int) (now : Date) (turfs : List Turf)
    (store : List Booking) (userId newId : ObjectId) (req : BookingRequest) (turfDoc : Turf)
    (hv : validateCreateBooking req = true)
    (hi : timeToMinutes req.timeSlot.startTime < timeToMinutes req.timeSlot.endTime)
    (hp : ¬ setHoursStartOfDay tz req.date < setHoursStartOfDay tz now)
    (hf : turfs.find? (fun t => t._id == req.turf) = some turfDoc)
    (ha : turfDoc.isActive = true) :
    createBooking tz now turfs store userId newId req =
      createBookingTail tz store userId newId req turfDoc := by
  rw [createBooking_checked tz now turfs store userId newId req hv hi hp, hf]
  simp [ha]

theorem createBookingTail_created (tz : Int) (store : List Booking) (userId newId : ObjectId)
    (req : BookingRequest) (turfDoc : Turf) (b : Booking) (store2 : List Booking)
    (h : createBookingTail tz store userId newId req turfDoc =
      (CreateBookingResult.created b, store2)) :
    b = newBooking tz turfDoc userId newId req ∧ store2 = store ++ [b] := by
  unfold createBookingTail at h
  dsimp only at h
  split_ifs at h with h1
  · cases h
  · split at h
    · split_ifs at h with h2
      · cases h
      · cases h
        exact ⟨rfl, rfl⟩
    · cases h
      exact ⟨rfl, rfl⟩

theorem createBookingTail_fst (tz : Int) (store : List Booking) (userId newId : ObjectId)
    (req : BookingRequest) (turfDoc : Turf) :
    (∃ l, (createBookingTail tz store userId newId req turfDoc).1 =
        CreateBookingResult.slotConflict l) ∨
    (∃ m, (createBookingTail tz store userId newId req turfDoc).1 =
        CreateBookingResult.capacityExceeded m) ∨
    (∃ b, (createBookingTail tz store userId newId req turfDoc).1 =
        CreateBookingResult.created b) := by
  unfold createBookingTail
  dsimp only
  by_cases h1 : (Booking.getConflictingBookings tz store req.turf
      (setHoursStartOfDay tz req.date) req.timeSlot.startTime req.timeSlot.endTime
      none).length > 0
  · left
    exact ⟨_, by rw [if_pos h1]⟩
  · right
    rw [if_neg h1]
    cases capacityLimit turfDoc with
    | none =>
      right
      exact ⟨_, rfl⟩
    | some m =>
      by_cases h2 : req.players.count > m
      · left
        exact ⟨m, by simp only [if_pos h2]⟩
      · right
        exact ⟨newBooking tz turfDoc userId newId req, by simp only [if_neg h2]⟩

/-- Every accepted request was answered from a turf found in the collection,
and the booking it stored is `newBooking` of that turf. -/
theorem createBooking_created (tz : Int) (now : Date) (turfs : List Turf)
    (store : List Booking) (userId newId : ObjectId) (req : BookingRequest) (b : Booking)
    (store2 : List Booking)
    (h : createBooking tz now turfs store userId newId req =
      (CreateBookingResult.created b, store2)) :
    ∃ turfDoc, turfs.find? (fun t => t._id == req.turf) = some turfDoc ∧
      b = newBooking tz turfDoc userId newId req ∧ store2 = store ++ [b] := by
  cases hv : validateCreateBooking req with
  | false =>
    unfold createBooking at h
    simp [hv] at h
  | true =>
    by_cases hi : timeToMinutes req.timeSlot.endTime ≤ timeToMinutes req.timeSlot.startTime
    · rw [createBooking_invalid tz now turfs store userId newId req hv hi] at h
      cases h
    · have hi2 := Nat.lt_of_not_le hi
      by_cases hp : setHoursStartOfDay tz req.date < setHoursStartOfDay tz now
      · rw [createBooking_past tz now turfs store userId newId req hv hi2 hp] at h
        cases h
      · rw [createBooking_checked tz now turfs store userId newId req hv hi2 hp] at h
        cases hf : turfs.find? (fun t => t._id == req.turf) with
        | none =>
          rw [hf] at h
          cases h
        | some turfDoc =>
          rw [hf] at h
          cases ha : turfDoc.isActive with
          | false =>
            simp [ha] at h
          | true =>
            simp only [ha, Bool.not_true, Bool.false_eq_true, if_false] at h
            exact ⟨turfDoc, rfl, createBookingTail_created tz store userId newId req turfDoc b
              store2 h⟩

/-- The response of `createBooking` depends on a turf only through its id, its
`isActive` flag, its capacity and its hourly rate. -/
theorem createBooking_map_congr (tz : Int) (now : Date) (turfs : List Turf)
    (store : List Booking) (userId newId : ObjectId) (req : BookingRequest)
    (f : Turf → Turf) (hid : ∀ t, (f t)._id = t._id)
    (hact : ∀ t, (f t).isActive = t.isActive) (hcap : ∀ t, (f t).capacity = t.capacity)
    (hrate : ∀ t, (f t).pricing.hourlyRate = t.pricing.hourlyRate) :
    createBooking tz now (turfs.map f) store userId newId req =
      createBooking tz now turfs store userId newId req := by
  have hfind : (turfs.map f).find? (fun t => t._id == req.turf) =
      (turfs.find? (fun t => t._id == req.turf)).map f := by
    rw [List.find?_map]
    congr 2
    funext t
    simp [Function.comp, hid]
  have hnew : ∀ t, newBooking tz (f t) userId newId req = newBooking tz t userId newId req := by
    intro t
    simp only [newBooking, hrate]
  have hlim : ∀ t, capacityLimit (f t) = capacityLimit t := by
    intro t
    simp only [capacityLimit, hcap]
  unfold createBooking
  rw [hfind]
  cases turfs.find? (fun t => t._id == req.turf) with
  | none => rfl
  | some t => simp only [Option.map_some', hact, hnew, hlim]

theorem createBooking_fst_pastDate_iff (tz : Int) (now : Date) (turfs : List Turf)
    (store : List Booking) (userId newId : ObjectId) (req : BookingRequest)
    (hv : validateCreateBooking req = true)
    (hi : timeToMinutes req.timeSlot.startTime < timeToMinutes req.timeSlot.endTime) :
    (createBooking tz now turfs store userId newId req).1 = CreateBookingResult.pastDate ↔
      setHoursStartOfDay tz req.date < setHoursStartOfDay tz now := by
  constructor
  · intro h
    by_contra hp
    rw [createBooking_checked tz now turfs store userId newId req hv hi hp] at h
    cases hf : turfs.find? (fun t => t._id == req.turf) with
    | none =>
      rw [hf] at h
      cases h
    | some turfDoc =>
      rw [hf] at h
      cases ha : turfDoc.isActive with
      | false =>
        simp [ha] at h
      | true =>
        simp only [ha, Bool.not_true, Bool.false_eq_true, if_false] at h
        rcases createBookingTail_fst tz store userId newId req turfDoc with
          ⟨l, hl⟩ | ⟨m, hm⟩ | ⟨b, hb⟩
        · rw [hl] at h
          cases h
        · rw [hm] at h
          cases h
        · rw [hb] at h
          cases h
  · intro hp
    rw [createBooking_past tz now turfs store userId newId req hv hi hp]

theorem createBookingTail_conflict (tz : Int) (store : List Booking) (userId newId : ObjectId)
    (req : BookingRequest) (turfDoc : Turf)
    (h : Booking.getConflictingBookings tz store req.turf (setHoursStartOfDay tz req.date)
      req.timeSlot.startTime req.timeSlot.endTime none ≠ []) :
    createBookingTail tz store userId newId req turfDoc =
      (CreateBookingResult.slotConflict
        ((Booking.getConflictingBookings tz store req.turf (setHoursStartOfDay tz req.date)
          req.timeSlot.startTime req.timeSlot.endTime none).map conflictEntry), store) := by
  unfold createBookingTail
  dsimp only
  rw [if_pos (List.length_pos.2 h)]

theorem createBookingTail_no_conflict (tz : Int) (store : List Booking)
    (userId newId : ObjectId) (req : BookingRequest) (turfDoc : Turf)
    (h : Booking.getConflictingBookings tz store req.turf (setHoursStartOfDay tz req.date)
      req.timeSlot.startTime req.timeSlot.endTime none = []) :
    createBookingTail tz store userId newId req turfDoc =
      match capacityLimit turfDoc with
      | some maxPlayers =>
        if req.players.count > maxPlayers then
          (CreateBookingResult.capacityExceeded maxPlayers, store)
        else
          (CreateBookingResult.created (newBooking tz turfDoc userId newId req),
            store ++ [newBooking tz turfDoc userId newId req])
      | none =>
        (CreateBookingResult.created (newBooking tz turfDoc userId newId req),
          store ++ [newBooking tz turfDoc userId newId req]) := by
  unfold createBookingTail
  dsimp only
  rw [h]
  rfl

/-! ## Slot prices and booking creation -/

/-- C11: the `price` of a generated slot is the turf's peak hour rate when the
slot's `isPeakHour` is true and the turf's hourly rate otherwise. -/
theorem slot_price (tz : Int) (turf : Turf) (date : Date) (store : List Booking)
    (slots : List Slot) (s : Slot)
    (hs : (getTurfAvailability tz turf date store).slots = some slots) (hmem : s ∈ slots) :
    (s.isPeakHour = some true → s.price = turf.pricing.peakHourRate) ∧
    (s.isPeakHour ≠ some true → s.price = some turf.pricing.hourlyRate) := by
  obtain ⟨day, hour, _, rfl⟩ := mem_slots_elim tz turf date store slots s hs hmem
  simp only [slotForHour]
  cases day.peakHours with
  | none => simp [truthy]
  | some p =>
    cases hb : (strGeOpt (toStringPadStart2 hour ++ ":00") p.start &&
        strLtOpt (toStringPadStart2 hour ++ ":00") p.«end») <;> simp [truthy, hb]

/-- C11 on a day open 06:00-23:00 with peak window 18:00-20:00, hourly rate
1000 and peak rate 1500: the 18:00 slot costs 1500. -/
theorem slot_price_witness :
    (slotForHour
        (exampleTurf true "06:00" "23:00" (some { start := some "18:00", «end» := some "20:00" }))
        (exampleEntry true "06:00" "23:00" (some { start := some "18:00", «end» := some "20:00" })
          DayName.thursday) [] 18).price = some 1500 :=
  (slot_price 0
    (exampleTurf true "06:00" "23:00" (some { start := some "18:00", «end» := some "20:00" }))
    0 []
    ((List.range 17).map (fun i =>
      slotForHour
        (exampleTurf true "06:00" "23:00"
          (some { start := some "18:00", «end» := some "20:00" }))
        (exampleEntry true "06:00" "23:00"
          (some { start := some "18:00", «end» := some "20:00" }) DayName.thursday)
        [] ((6 + i : Nat) : Int)))
    (slotForHour
        (exampleTurf true "06:00" "23:00" (some { start := some "18:00", «end» := some "20:00" }))
        (exampleEntry true "06:00" "23:00" (some { start := some "18:00", «end» := some "20:00" })
          DayName.thursday) [] 18)
    rfl (List.mem_map.2 ⟨12, by decide, rfl⟩)).1 (by decide)

/-- C12: every accepted request stores a booking whose `baseAmount` is the
turf's hourly rate times `d`, whose `taxes` are `baseAmount * 0.18` and whose
`totalAmount` is their sum, where `d = (endMinutes - startMinutes) / 60` is the
exact duration in hours; at hourly rate 1000 and a duration of 150 minutes the
amounts are 2500, 450 and 2950. -/
theorem createBooking_pricing (tz : Int) (now : Date) (turfs : List Turf)
    (store : List Booking) (userId newId : ObjectId) (req : BookingRequest) (b : Booking)
    (store2 : List Booking)
    (h : createBooking tz now turfs store userId newId req =
      (CreateBookingResult.created b, store2)) :
    ∃ turfDoc, turfs.find? (fun t => t._id == req.turf) = some turfDoc ∧
      b ∈ store2 ∧
      b.duration = ((timeToMinutes req.timeSlot.endTime : ℚ) -
        (timeToMinutes req.timeSlot.startTime : ℚ)) / 60 ∧
      b.pricing.baseAmount = turfDoc.pricing.hourlyRate * b.duration ∧
      b.pricing.taxes = b.pricing.baseAmount * 0.18 ∧
      b.pricing.totalAmount = b.pricing.baseAmount + b.pricing.taxes ∧
      (turfDoc.pricing.hourlyRate = 1000 →
        timeToMinutes req.timeSlot.endTime = timeToMinutes req.timeSlot.startTime + 150 →
        b.duration = 5 / 2 ∧ b.pricing.baseAmount = 2500 ∧ b.pricing.taxes = 450 ∧
        b.pricing.totalAmount = 2950) := by
  obtain ⟨turfDoc, hf, hb, hst⟩ := createBooking_created tz now turfs store userId newId req b
    store2 h
  have hd : b.duration = ((timeToMinutes req.timeSlot.endTime : ℚ) -
      (timeToMinutes req.timeSlot.startTime : ℚ)) / 60 := by
    rw [hb]
    simp only [newBooking]
    push_cast
    rfl
  have hbase : b.pricing.baseAmount = turfDoc.pricing.hourlyRate * b.duration := by
    rw [hb]
    rfl
  have htax : b.pricing.taxes = b.pricing.baseAmount * 0.18 := by
    rw [hb]
    rfl
  have htot : b.pricing.totalAmount = b.pricing.baseAmount + b.pricing.taxes := by
    rw [hb]
    rfl
  refine ⟨turfDoc, hf, ?_, hd, hbase, htax, htot, ?_⟩
  · rw [hst]
    simp
  · intro hr hm
    have e1 : b.duration = 5 / 2 := by
      rw [hd, hm]
      push_cast
      ring
    have e2 : b.pricing.baseAmount = 2500 := by
      rw [hbase, hr, e1]
      norm_num
    have e3 : b.pricing.taxes = 450 := by
      rw [htax, e2]
      norm_num
    have e4 : b.pricing.totalAmount = 2950 := by
      rw [htot, e2, e3]
      norm_num
    exact ⟨e1, e2, e3, e4⟩

/-- C12 for a booking 10:00-12:30 on a turf with hourly rate 1000. -/
theorem createBooking_pricing_witness :
    ∃ b : Booking,
      (createBooking 0 0 [exampleTurf true "06:00" "23:00" none] [] 3 50
        (exampleRequest 7 0 "10:00" "12:30")).1 = CreateBookingResult.created b ∧
      b.pricing.baseAmount = 2500 ∧ b.pricing.taxes = 450 ∧ b.pricing.totalAmount = 2950 := by
  obtain ⟨turfDoc, hf, _, _, _, _, _, hex⟩ := createBooking_pricing 0 0
    [exampleTurf true "06:00" "23:00" none] [] 3 50 (exampleRequest 7 0 "10:00" "12:30")
    (newBooking 0 (exampleTurf true "06:00" "23:00" none) 3 50
      (exampleRequest 7 0 "10:00" "12:30"))
    [newBooking 0 (exampleTurf true "06:00" "23:00" none) 3 50
      (exampleRequest 7 0 "10:00" "12:30")] rfl
  have ht : turfDoc = exampleTurf true "06:00" "23:00" none := by
    have hf2 : [exampleTurf true "06:00" "23:00" none].find? (fun t => t._id == 7) =
        some (exampleTurf true "06:00" "23:00" none) := rfl
    exact (Option.some.inj (hf.symm.trans hf2))
  have hr : turfDoc.pricing.hourlyRate = 1000 := by
    rw [ht]
    rfl
  have hm : timeToMinutes "12:30" = timeToMinutes "10:00" + 150 := by decide
  exact ⟨_, rfl, (hex hr hm).2⟩

/-- C13: the response of `createBooking`, and with it the stored `baseAmount`,
`taxes` and `totalAmount`, does not depend on peak-hour data: replacing the peak
rate and the peak windows of the turfs, in any way, leaves it unchanged. -/
theorem createBooking_ignores_peak_data (tz : Int) (now : Date) (turfs : List Turf)
    (store : List Booking) (userId newId : ObjectId) (req : BookingRequest)
    (rate : Turf → Option ℚ) (window : Turf → DaySchedule → Option PeakHours) :
    createBooking tz now (turfs.map (fun t => withPeakData t (rate t) (window t))) store
        userId newId req =
      createBooking tz now turfs store userId newId req :=
  createBooking_map_congr tz now turfs store userId newId req
    (fun t => withPeakData t (rate t) (window t)) (fun _ => rfl) (fun _ => rfl) (fun _ => rfl)
    (fun _ => rfl)

/-- C13 for a booking 18:00-20:00 that lies inside the peak window 18:00-22:00:
with peak rate 3000 the response is that of the turf without peak data. -/
theorem createBooking_ignores_peak_data_witness :
    createBooking 0 0
        [withPeakData (exampleTurf true "06:00" "23:00" none) (some 3000)
          (fun _ => some { start := some "18:00", «end» := some "22:00" })]
        [] 3 50 (exampleRequest 7 0 "18:00" "20:00") =
      createBooking 0 0 [exampleTurf true "06:00" "23:00" none] [] 3 50
        (exampleRequest 7 0 "18:00" "20:00") :=
  createBooking_ignores_peak_data 0 0 [exampleTurf true "06:00" "23:00" none] [] 3 50
    (exampleRequest 7 0 "18:00" "20:00") (fun _ => some 3000)
    (fun _ _ => some { start := some "18:00", «end» := some "22:00" })

/-- C14: a validated request is rejected with the invalid-interval error
exactly when its end time in minutes is at most its start time in minutes; then
the response is that error whatever the date, the turfs and the store are, and
the store is unchanged. -/
theorem createBooking_invalidInterval_iff (tz : Int) (now : Date) (turfs : List Turf)
    (store : List Booking) (userId newId : ObjectId) (req : BookingRequest)
    (hv : validateCreateBooking req = true) :
    ((createBooking tz now turfs store userId newId req).1 =
        CreateBookingResult.invalidInterval ↔
      timeToMinutes req.timeSlot.endTime ≤ timeToMinutes req.timeSlot.startTime) ∧
    (timeToMinutes req.timeSlot.endTime ≤ timeToMinutes req.timeSlot.startTime →
      createBooking tz now turfs store userId newId req =
        (CreateBookingResult.invalidInterval, store)) := by
  refine ⟨⟨?_, ?_⟩, ?_⟩
  · intro h
    by_contra hi
    have hi2 := Nat.lt_of_not_le hi
    by_cases hp : setHoursStartOfDay tz req.date < setHoursStartOfDay tz now
    · rw [createBooking_past tz now turfs store userId newId req hv hi2 hp] at h
      cases h
    · rw [createBooking_checked tz now turfs store userId newId req hv hi2 hp] at h
      cases hf : turfs.find? (fun t => t._id == req.turf) with
      | none =>
        rw [hf] at h
        cases h
      | some turfDoc =>
        rw [hf] at h
        cases ha : turfDoc.isActive with
        | false =>
          simp [ha] at h
        | true =>
          simp only [ha, Bool.not_true, Bool.false_eq_true, if_false] at h
          rcases createBookingTail_fst tz store userId newId req turfDoc with
            ⟨l, hl⟩ | ⟨m, hm⟩ | ⟨b, hb⟩
          · rw [hl] at h
            cases h
          · rw [hm] at h
            cases h
          · rw [hb] at h
            cases h
  · intro hi
    rw [createBooking_invalid tz now turfs store userId newId req hv hi]
  · exact createBooking_invalid tz now turfs store userId newId req hv

/-- C14 for the request 12:00-10:00 on an empty turf collection. -/
theorem createBooking_invalidInterval_iff_witness :
    createBooking 0 0 [] [] 3 50 (exampleRequest 7 0 "12:00" "10:00") =
      (CreateBookingResult.invalidInterval, []) :=
  (createBooking_invalidInterval_iff 0 0 [] [] 3 50 (exampleRequest 7 0 "12:00" "10:00")
    (by decide)).2 (by decide)

/-- From the point where the date field has been made a `Date`: a validated
request with a valid interval is rejected with the past-date error exactly when
the local calendar day of that `Date` is strictly before the current local
calendar day; the verdict is the same for every time of day of the `Date` and
of the clock, and a `Date` within the current local day is not rejected. -/
theorem createBooking_pastDate_iff (tz : Int) (now : Date) (turfs : List Turf)
    (store : List Booking) (userId newId : ObjectId) (req : BookingRequest)
    (hv : validateCreateBooking req = true)
    (hi : timeToMinutes req.timeSlot.startTime < timeToMinutes req.timeSlot.endTime) :
    ((createBooking tz now turfs store userId newId req).1 = CreateBookingResult.pastDate ↔
      toDateString tz req.date < toDateString tz now) ∧
    (∀ date2 now2 : Date, toDateString tz date2 = toDateString tz req.date →
      toDateString tz now2 = toDateString tz now →
      ((createBooking tz now2 turfs store userId newId { req with date := date2 }).1 =
          CreateBookingResult.pastDate ↔
        (createBooking tz now turfs store userId newId req).1 =
          CreateBookingResult.pastDate)) ∧
    (toDateString tz req.date = toDateString tz now →
      (createBooking tz now turfs store userId newId req).1 ≠ CreateBookingResult.pastDate) := by
  have main : ∀ (r : BookingRequest) (n : Date), validateCreateBooking r = true →
      timeToMinutes r.timeSlot.startTime < timeToMinutes r.timeSlot.endTime →
      ((createBooking tz n turfs store userId newId r).1 = CreateBookingResult.pastDate ↔
        toDateString tz r.date < toDateString tz n) := by
    intro r n hv2 hi2
    rw [createBooking_fst_pastDate_iff tz n turfs store userId newId r hv2 hi2]
    exact startOfDay_lt_iff tz r.date n
  refine ⟨main req now hv hi, ?_, ?_⟩
  · intro date2 now2 hd hn
    rw [main req now hv hi, main { req with date := date2 } now2 hv hi]
    show toDateString tz date2 < toDateString tz now2 ↔ _
    rw [hd, hn]
  · intro he h
    have hlt := (main req now hv hi).1 h
    rw [he] at hlt
    exact lt_irrefl _ hlt

/-- The rules on the received body are the two date rules and the rules on the
parsed request. -/
theorem validateCreateBookingBody_eq (rt : DateRuntime) (body : BookingBody) (d : Date) :
    validateCreateBookingBody rt body =
      ((body.date != "" && rt.isISO8601 body.date) &&
        validateCreateBooking (body.toRequest d)) := by
  unfold validateCreateBookingBody validateCreateBooking BookingBody.toRequest
  simp only [Bool.and_assoc]

/-- Where the date field parses to `d`, `createBooking` from the body is
`createBooking` on the request dated `d`. -/
theorem createBookingFromBody_parsed (rt : DateRuntime) (tz : Int) (now : Date)
    (turfs : List Turf) (store : List Booking) (userId newId : ObjectId) (body : BookingBody)
    (d : Date) (hd : (body.date != "" && rt.isISO8601 body.date) = true)
    (hn : newDate rt tz body.date = some d) :
    createBookingFromBody rt tz now turfs store userId newId body =
      createBooking tz now turfs store userId newId (body.toRequest d) := by
  unfold createBookingFromBody createBooking
  rw [validateCreateBookingBody_eq rt body d, hd, Bool.true_and, hn]
  rfl

/-- Where the date field is an Invalid Date, the date check is passed over. -/
theorem createBookingFromBody_invalidDate (rt : DateRuntime) (tz : Int) (now : Date)
    (turfs : List Turf) (store : List Booking) (userId newId : ObjectId) (body : BookingBody)
    (hv : validateCreateBookingBody rt body = true)
    (hi : timeToMinutes body.timeSlot.startTime < timeToMinutes body.timeSlot.endTime)
    (hn : newDate rt tz body.date = none) :
    createBookingFromBody rt tz now turfs store userId newId body =
      match turfs.find? (fun t => t._id == body.turf) with
      | none => (CreateBookingResult.turfNotFound, store)
      | some turfDoc =>
        if !turfDoc.isActive then (CreateBookingResult.turfInactive, store)
        else (CreateBookingResult.serverError, store) := by
  unfold createBookingFromBody
  simp only [hv, Nat.not_le.2 hi, hn, Bool.not_true, Bool.false_eq_true, if_false]

/-- The field `2024-01-15` is read as midnight UTC, whatever the offset. -/
theorem newDate_dateOnly_example (rt : DateRuntime) (tz : Int) :
    newDate rt tz "2024-01-15" = some mondayJan15 := by
  have h : parseDateTimeFormat tz "2024-01-15" = some mondayJan15 := by rfl
  unfold newDate
  rw [h]

/-- A week date is not of the ECMAScript date-time format. -/
theorem parse_week_date (tz : Int) : parseDateTimeFormat tz "1970-W01" = none := by rfl


/-- West of UTC a date-only field is a local day before the one it names. -/
theorem toDateString_utc_midnight_west (tz day : Int) (h1 : -msPerDay ≤ tz) (h2 : tz < 0) :
    toDateString tz (day * msPerDay) = day - 1 := by
  unfold toDateString
  have key : ∀ t d : Int, -86400000 ≤ t → t < 0 → (d * 86400000 + t) / 86400000 = d - 1 := by
    intro t d ht1 ht2
    omega
  exact key tz day h1 h2

/-- C15: `createBooking` rejects a request for today as past, and lets an
unreadable date through. The field `2024-01-15` is read as midnight UTC; on a
server at UTC-5 that instant lies in local 14 January, so the request received
at 10:00 local time on 15 January is answered with the past-date error, while
at UTC+6 the same request at 10:00 local time is accepted. In general, at an
offset west of UTC a validated request whose field is read as midnight UTC of
the current local day is rejected as past. The validated field `1970-W01`, which
`new Date` does not read, is never rejected as past: on an active turf the
answer is the 500 of the `catch` block, without the turf it is turf-not-found.
For a field read as the instant `d` the past-date error is given exactly when
the local day of `d` is before the current local day. -/
theorem createBooking_date_field_misread :
    (∀ (rt : DateRuntime) (tz : Int), newDate rt tz "2024-01-15" = some mondayJan15) ∧
    mondayJan15 = makeDay 2024 1 15 * msPerDay ∧
    toDateString (-5 * msPerHour) (mondayJan15 + 15 * msPerHour) = makeDay 2024 1 15 ∧
    toDateString (-5 * msPerHour) mondayJan15 = makeDay 2024 1 14 ∧
    (∀ rt : DateRuntime, rt.isISO8601 "2024-01-15" = true →
      createBookingFromBody rt (-5 * msPerHour) (mondayJan15 + 15 * msPerHour)
          [exampleTurf true "06:00" "23:00" none] [] 3 50
          (exampleBody 7 "2024-01-15" "10:00" "11:00") =
        (CreateBookingResult.pastDate, [])) ∧
    (∀ rt : DateRuntime, rt.isISO8601 "2024-01-15" = true →
      createBookingFromBody rt (6 * msPerHour) (mondayJan15 + 4 * msPerHour)
          [exampleTurf true "06:00" "23:00" none] [] 3 50
          (exampleBody 7 "2024-01-15" "10:00" "11:00") =
        (CreateBookingResult.created
          (newBooking (6 * msPerHour) (exampleTurf true "06:00" "23:00" none) 3 50
            (exampleRequest 7 mondayJan15 "10:00" "11:00")),
          [newBooking (6 * msPerHour) (exampleTurf true "06:00" "23:00" none) 3 50
            (exampleRequest 7 mondayJan15 "10:00" "11:00")])) ∧
    (∀ (rt : DateRuntime) (tz : Int) (now : Date) (turfs : List Turf) (store : List Booking)
        (userId newId : ObjectId) (body : BookingBody) (day : Int),
      validateCreateBookingBody rt body = true →
      timeToMinutes body.timeSlot.startTime < timeToMinutes body.timeSlot.endTime →
      newDate rt tz body.date = some (day * msPerDay) →
      -msPerDay ≤ tz → tz < 0 → toDateString tz now = day →
      createBookingFromBody rt tz now turfs store userId newId body =
        (CreateBookingResult.pastDate, store)) ∧
    (∀ (rt : DateRuntime) (tz : Int) (now : Date), rt.isISO8601 "1970-W01" = true →
      rt.fallbackDate "1970-W01" = none →
      createBookingFromBody rt tz now [exampleTurf true "06:00" "23:00" none] [] 3 50
          (exampleBody 7 "1970-W01" "10:00" "11:00") =
        (CreateBookingResult.serverError, []) ∧
      createBookingFromBody rt tz now [] [] 3 50
          (exampleBody 7 "1970-W01" "10:00" "11:00") =
        (CreateBookingResult.turfNotFound, [])) ∧
    (∀ (rt : DateRuntime) (tz : Int) (now : Date) (turfs : List Turf) (store : List Booking)
        (userId newId : ObjectId) (body : BookingBody),
      validateCreateBookingBody rt body = true →
      timeToMinutes body.timeSlot.startTime < timeToMinutes body.timeSlot.endTime →
      (∀ d, newDate rt tz body.date = some d →
        ((createBookingFromBody rt tz now turfs store userId newId body).1 =
            CreateBookingResult.pastDate ↔
          toDateString tz d < toDateString tz now)) ∧
      (newDate rt tz body.date = none →
        (createBookingFromBody rt tz now turfs store userId newId body).1 ≠
          CreateBookingResult.pastDate)) := by
  have hparsed : ∀ (rt : DateRuntime) (tz : Int) (now : Date) (turfs : List Turf)
      (store : List Booking) (userId newId : ObjectId) (body : BookingBody) (d : Date),
      validateCreateBookingBody rt body = true →
      newDate rt tz body.date = some d →
      createBookingFromBody rt tz now turfs store userId newId body =
        createBooking tz now turfs store userId newId (body.toRequest d) ∧
      validateCreateBooking (body.toRequest d) = true := by
    intro rt tz now turfs store userId newId body d hv hn
    rw [validateCreateBookingBody_eq rt body d, Bool.and_eq_true] at hv
    exact ⟨createBookingFromBody_parsed rt tz now turfs store userId newId body d hv.1 hn,
      hv.2⟩
  have hex : ∀ (rt : DateRuntime) (s : String), rt.isISO8601 s = true → s ≠ "" →
      validateCreateBookingBody rt (exampleBody 7 s "10:00" "11:00") = true := by
    intro rt s hs hne
    have h1 : matchesTimePattern "10:00" = true := by decide
    have h2 : matchesTimePattern "11:00" = true := by decide
    have h3 : ["cash", "card", "upi", "wallet"].contains "upi" = true := by decide
    simp [validateCreateBookingBody, exampleBody, hs, hne, h1, h2, h3]
  refine ⟨newDate_dateOnly_example, by decide, by decide, by decide, ?_, ?_, ?_, ?_, ?_⟩
  · intro rt hs
    obtain ⟨he, _⟩ := hparsed rt (-5 * msPerHour) (mondayJan15 + 15 * msPerHour)
      [exampleTurf true "06:00" "23:00" none] [] 3 50
      (exampleBody 7 "2024-01-15" "10:00" "11:00") mondayJan15
      (hex rt "2024-01-15" hs (by decide)) (newDate_dateOnly_example rt _)
    rw [he]
    rfl
  · intro rt hs
    obtain ⟨he, _⟩ := hparsed rt (6 * msPerHour) (mondayJan15 + 4 * msPerHour)
      [exampleTurf true "06:00" "23:00" none] [] 3 50
      (exampleBody 7 "2024-01-15" "10:00" "11:00") mondayJan15
      (hex rt "2024-01-15" hs (by decide)) (newDate_dateOnly_example rt _)
    rw [he]
    rfl
  · intro rt tz now turfs store userId newId body day hv hi hn h1 h2 hday
    obtain ⟨he, hv2⟩ := hparsed rt tz now turfs store userId newId body (day * msPerDay) hv hn
    rw [he]
    refine createBooking_past tz now turfs store userId newId _ hv2 hi ?_
    rw [startOfDay_lt_iff]
    show toDateString tz (day * msPerDay) < toDateString tz now
    rw [toDateString_utc_midnight_west tz day h1 h2, hday]
    exact sub_one_lt day
  · intro rt tz now hs hf
    have hn : newDate rt tz "1970-W01" = none := by
      unfold newDate
      rw [parse_week_date tz]
      exact hf
    have hv := hex rt "1970-W01" hs (by decide)
    constructor
    · rw [createBookingFromBody_invalidDate rt tz now _ [] 3 50 _ hv (by decide) hn]
      rfl
    · rw [createBookingFromBody_invalidDate rt tz now _ [] 3 50 _ hv (by decide) hn]
      rfl
  · intro rt tz now turfs store userId newId body hv hi
    constructor
    · intro d hn
      obtain ⟨he, hv2⟩ := hparsed rt tz now turfs store userId newId body d hv hn
      rw [he, createBooking_fst_pastDate_iff tz now turfs store userId newId _ hv2 hi]
      exact startOfDay_lt_iff tz d now
    · intro hn h
      rw [createBookingFromBody_invalidDate rt tz now turfs store userId newId body hv hi hn]
        at h
      cases hf : turfs.find? (fun t => t._id == body.turf) with
      | none =>
        rw [hf] at h
        cases h
      | some turfDoc =>
        rw [hf] at h
        cases ha : turfDoc.isActive with
        | false => simp [ha] at h
        | true => simp [ha] at h

/-- C16: a validated request with a valid interval and a date that is not
past, for a turf that exists and is active, is rejected with the slot-conflict
response exactly when `getConflictingBookings` returns a non-empty list; the
response then lists one entry (id, date, timeSlot, status) per conflicting
booking, in the same order, and the store is unchanged. -/
theorem createBooking_slotConflict_iff (tz : Int) (now : Date) (turfs : List Turf)
    (store : List Booking) (userId newId : ObjectId) (req : BookingRequest) (turfDoc : Turf)
    (hv : validateCreateBooking req = true)
    (hi : timeToMinutes req.timeSlot.startTime < timeToMinutes req.timeSlot.endTime)
    (hp : ¬ setHoursStartOfDay tz req.date < setHoursStartOfDay tz now)
    (hf : turfs.find? (fun t => t._id == req.turf) = some turfDoc)
    (ha : turfDoc.isActive = true) :
    ((∃ l, (createBooking tz now turfs store userId newId req).1 =
        CreateBookingResult.slotConflict l) ↔
      Booking.getConflictingBookings tz store req.turf (setHoursStartOfDay tz req.date)
        req.timeSlot.startTime req.timeSlot.endTime none ≠ []) ∧
    (Booking.getConflictingBookings tz store req.turf (setHoursStartOfDay tz req.date)
        req.timeSlot.startTime req.timeSlot.endTime none ≠ [] →
      createBooking tz now turfs store userId newId req =
        (CreateBookingResult.slotConflict
          ((Booking.getConflictingBookings tz store req.turf (setHoursStartOfDay tz req.date)
            req.timeSlot.startTime req.timeSlot.endTime none).map
            (fun b => { id := b._id, date := b.date, timeSlot := b.timeSlot,
                        status := b.status })), store)) := by
  have e := createBooking_active tz now turfs store userId newId req turfDoc hv hi hp hf ha
  refine ⟨⟨?_, ?_⟩, ?_⟩
  · rintro ⟨l, hl⟩ hnil
    rw [e, createBookingTail_no_conflict tz store userId newId req turfDoc hnil] at hl
    cases hlim : capacityLimit turfDoc with
    | none =>
      rw [hlim] at hl
      cases hl
    | some m =>
      rw [hlim] at hl
      by_cases h2 : req.players.count > m
      · simp only [if_pos h2] at hl
        cases hl
      · simp only [if_neg h2] at hl
        cases hl
  · intro hne
    rw [e, createBookingTail_conflict tz store userId newId req turfDoc hne]
    exact ⟨_, rfl⟩
  · intro hne
    rw [e, createBookingTail_conflict tz store userId newId req turfDoc hne]
    rfl

/-- C16 for the candidate 11:00-13:00 against a stored pending booking
10:00-12:00 of the same turf and day. -/
theorem createBooking_slotConflict_iff_witness :
    createBooking 0 0 [exampleTurf true "06:00" "23:00" none]
        [exampleBooking 1 7 0 "10:00" "12:00" BookingStatus.pending] 3 50
        (exampleRequest 7 0 "11:00" "13:00") =
      (CreateBookingResult.slotConflict
        [{ id := 1, date := 0, timeSlot := { startTime := "10:00", endTime := "12:00" },
           status := BookingStatus.pending }],
        [exampleBooking 1 7 0 "10:00" "12:00" BookingStatus.pending]) :=
  (createBooking_slotConflict_iff 0 0 [exampleTurf true "06:00" "23:00" none]
    [exampleBooking 1 7 0 "10:00" "12:00" BookingStatus.pending] 3 50
    (exampleRequest 7 0 "11:00" "13:00") (exampleTurf true "06:00" "23:00" none)
    (by decide) (by decide) (by decide) rfl rfl).2 (by decide)

/-- C17: for a request that passes all earlier checks on a turf whose
`capacity.maxPlayers` is set (at least 1, as the schema requires), the response
is the capacity error exactly when `players.count > maxPlayers`; a request with
`players.count` at most `maxPlayers`, equal included, is accepted and stored. -/
theorem createBooking_capacity_iff (tz : Int) (now : Date) (turfs : List Turf)
    (store : List Booking) (userId newId : ObjectId) (req : BookingRequest) (turfDoc : Turf)
    (capacity : Capacity) (maxPlayers : Int)
    (hv : validateCreateBooking req = true)
    (hi : timeToMinutes req.timeSlot.startTime < timeToMinutes req.timeSlot.endTime)
    (hp : ¬ setHoursStartOfDay tz req.date < setHoursStartOfDay tz now)
    (hf : turfs.find? (fun t => t._id == req.turf) = some turfDoc)
    (ha : turfDoc.isActive = true)
    (hc : Booking.getConflictingBookings tz store req.turf (setHoursStartOfDay tz req.date)
      req.timeSlot.startTime req.timeSlot.endTime none = [])
    (hcap : turfDoc.capacity = some capacity) (hmax : capacity.maxPlayers = some maxPlayers)
    (hpos : 1 ≤ maxPlayers) :
    ((∃ m, (createBooking tz now turfs store userId newId req).1 =
        CreateBookingResult.capacityExceeded m) ↔ req.players.count > maxPlayers) ∧
    (req.players.count > maxPlayers →
      createBooking tz now turfs store userId newId req =
        (CreateBookingResult.capacityExceeded maxPlayers, store)) ∧
    (req.players.count ≤ maxPlayers →
      createBooking tz now turfs store userId newId req =
        (CreateBookingResult.created (newBooking tz turfDoc userId newId req),
          store ++ [newBooking tz turfDoc userId newId req])) := by
  have hlim : capacityLimit turfDoc = some maxPlayers := by
    have hne : (maxPlayers != 0) = true := by
      rw [bne_iff_ne]
      omega
    simp only [capacityLimit, hcap, hmax, hne, if_true]
  have e : createBooking tz now turfs store userId newId req =
      if req.players.count > maxPlayers then
        (CreateBookingResult.capacityExceeded maxPlayers, store)
      else
        (CreateBookingResult.created (newBooking tz turfDoc userId newId req),
          store ++ [newBooking tz turfDoc userId newId req]) := by
    rw [createBooking_active tz now turfs store userId newId req turfDoc hv hi hp hf ha,
      createBookingTail_no_conflict tz store userId newId req turfDoc hc, hlim]
  refine ⟨⟨?_, ?_⟩, ?_, ?_⟩
  · rintro ⟨m, hm⟩
    by_contra hgt
    rw [e, if_neg hgt] at hm
    cases hm
  · intro hgt
    rw [e, if_pos hgt]
    exact ⟨_, rfl⟩
  · intro hgt
    rw [e, if_pos hgt]
  · intro hle
    rw [e, if_neg (not_lt.2 hle)]

/-- C17 for ten players on a turf with `maxPlayers` 22: the request is accepted. -/
theorem createBooking_capacity_iff_witness :
    createBooking 0 0 [exampleTurf true "06:00" "23:00" none] [] 3 50
        (exampleRequest 7 0 "10:00" "11:00") =
      (CreateBookingResult.created
        (newBooking 0 (exampleTurf true "06:00" "23:00" none) 3 50
          (exampleRequest 7 0 "10:00" "11:00")),
        [] ++ [newBooking 0 (exampleTurf true "06:00" "23:00" none) 3 50
          (exampleRequest 7 0 "10:00" "11:00")]) :=
  (createBooking_capacity_iff 0 0 [exampleTurf true "06:00" "23:00" none] [] 3 50
    (exampleRequest 7 0 "10:00" "11:00") (exampleTurf true "06:00" "23:00" none)
    { maxPlayers := some 22 } 22 (by decide) (by decide) (by decide) rfl rfl rfl rfl rfl
    (by decide)).2.2 (by decide)

/-- C18, as stated, fails: a request for a turf that is closed on every
weekday is accepted, and so is one for 10:00-11:00 on a turf open 06:00-09:00,
and one dated on a holiday and maintenance date of the turf. -/
theorem createBooking_accepts_closed_turf :
    (Turf.isAvailable 0 (exampleTurf false "06:00" "09:00" none) 0 "10:00" "11:00" =
        some false ∧
      createBooking 0 0 [exampleTurf false "06:00" "09:00" none] [] 3 50
          (exampleRequest 7 0 "10:00" "11:00") =
        (CreateBookingResult.created
          (newBooking 0 (exampleTurf false "06:00" "09:00" none) 3 50
            (exampleRequest 7 0 "10:00" "11:00")),
          [newBooking 0 (exampleTurf false "06:00" "09:00" none) 3 50
            (exampleRequest 7 0 "10:00" "11:00")])) ∧
    (createBooking 0 0 [exampleTurf true "06:00" "09:00" none] [] 3 50
          (exampleRequest 7 0 "10:00" "11:00")).1 =
        CreateBookingResult.created
          (newBooking 0 (exampleTurf true "06:00" "09:00" none) 3 50
            (exampleRequest 7 0 "10:00" "11:00")) ∧
    (Turf.isAvailable 0
        (withAvailability (exampleTurf true "06:00" "23:00" none)
          (exampleAvailability true "06:00" "23:00" [3600000] [7200000]))
        0 "10:00" "11:00" = some false ∧
      (createBooking 0 0
          [withAvailability (exampleTurf true "06:00" "23:00" none)
            (exampleAvailability true "06:00" "23:00" [3600000] [7200000])]
          [] 3 50 (exampleRequest 7 0 "10:00" "11:00")).1 =
        CreateBookingResult.created
          (newBooking 0 (exampleTurf true "06:00" "23:00" none) 3 50
            (exampleRequest 7 0 "10:00" "11:00"))) :=
  ⟨⟨by decide, rfl⟩, rfl, by decide, rfl⟩

/-- C18, amended: `createBooking` does not consult the availability data of a
turf. Replacing the weekly schedule, the holidays and the maintenance dates of
the turfs, in any way, leaves its response and the store it returns unchanged;
so a request that passes the validation, interval, date, turf, conflict and
capacity checks is accepted and stored whatever `Turf.isAvailable` says. -/
theorem createBooking_ignores_availability (tz : Int) (now : Date) (turfs : List Turf)
    (store : List Booking) (userId newId : ObjectId) (req : BookingRequest)
    (avail : Turf → Availability) :
    createBooking tz now (turfs.map (fun t => withAvailability t (avail t))) store
        userId newId req =
      createBooking tz now turfs store userId newId req ∧
    (∀ turfDoc : Turf, validateCreateBooking req = true →
      timeToMinutes req.timeSlot.startTime < timeToMinutes req.timeSlot.endTime →
      ¬ setHoursStartOfDay tz req.date < setHoursStartOfDay tz now →
      turfs.find? (fun t => t._id == req.turf) = some turfDoc →
      turfDoc.isActive = true →
      Booking.getConflictingBookings tz store req.turf (setHoursStartOfDay tz req.date)
        req.timeSlot.startTime req.timeSlot.endTime none = [] →
      (∀ m, capacityLimit turfDoc = some m → req.players.count ≤ m) →
      createBooking tz now turfs store userId newId req =
        (CreateBookingResult.created (newBooking tz turfDoc userId newId req),
          store ++ [newBooking tz turfDoc userId newId req])) := by
  refine ⟨createBooking_map_congr tz now turfs store userId newId req
    (fun t => withAvailability t (avail t)) (fun _ => rfl) (fun _ => rfl) (fun _ => rfl)
    (fun _ => rfl), ?_⟩
  intro turfDoc hv hi hp hf ha hc hcap
  rw [createBooking_active tz now turfs store userId newId req turfDoc hv hi hp hf ha,
    createBookingTail_no_conflict tz store userId newId req turfDoc hc]
  cases hlim : capacityLimit turfDoc with
  | none => rfl
  | some m =>
    have hle := hcap m hlim
    simp only [if_neg (not_lt.2 hle)]

/-- C19, as stated, fails: a provided peak rate of 0 with hourly rate 1000 is
replaced by 1500, and with hourly rate 0 an unset peak rate stays unset. -/
theorem preSave_at_zero :
    (Turf.preSave (withPricing (exampleTurf true "06:00" "23:00" none) 1000
      (some 0))).pricing.peakHourRate = some 1500 ∧
    (Turf.preSave (withPricing (exampleTurf true "06:00" "23:00" none) 0
      none)).pricing.peakHourRate = none := by
  constructor
  · simp only [Turf.preSave, withPricing, truthyNumber]
    norm_num
  · simp [Turf.preSave, withPricing, truthyNumber]

/-- C19, amended: after the pre-save hook, for every turf (so for every one
with `hourlyRate >= 0`): an unset peak rate becomes `hourlyRate * 1.5` when `hourlyRate > 0` and stays
unset when `hourlyRate = 0`; a provided peak rate greater than 0 is left
unchanged; and nothing but `pricing.peakHourRate` is changed. -/
theorem preSave_peakHourRate (t : Turf) :
    (t.pricing.peakHourRate = none → 0 < t.pricing.hourlyRate →
      (Turf.preSave t).pricing.peakHourRate = some (t.pricing.hourlyRate * 1.5)) ∧
    (t.pricing.peakHourRate = none → t.pricing.hourlyRate = 0 →
      (Turf.preSave t).pricing.peakHourRate = none) ∧
    (∀ r : ℚ, 0 < r → t.pricing.peakHourRate = some r →
      (Turf.preSave t).pricing.peakHourRate = some r) ∧
    Turf.preSave t = withPricing t t.pricing.hourlyRate (Turf.preSave t).pricing.peakHourRate := by
  refine ⟨?_, ?_, ?_, ?_⟩
  · intro hn hpos
    have hne : t.pricing.hourlyRate ≠ 0 := ne_of_gt hpos
    simp [Turf.preSave, truthyNumber, hn, hne]
  · intro hn hz
    simp [Turf.preSave, truthyNumber, hn, hz]
  · intro r hr hs
    have hne : r ≠ 0 := ne_of_gt hr
    simp [Turf.preSave, truthyNumber, hs, hne]
  · unfold Turf.preSave withPricing
    split_ifs <;> rfl

/-- C19, amended, at hourly rate 1000 with no peak rate: the peak rate becomes 1500. -/
theorem preSave_peakHourRate_witness :
    (Turf.preSave (withPricing (exampleTurf true "06:00" "23:00" none) 1000
      none)).pricing.peakHourRate = some (1000 * 1.5) :=
  (preSave_peakHourRate (withPricing (exampleTurf true "06:00" "23:00" none) 1000 none)).1
    rfl (by simp [withPricing])

/-! ## `Turf.isAvailable` -/

theorem getDay_lt (tz : Int) (d : Date) : getDay tz d < 7 := by
  unfold getDay
  have key : ∀ x : Int, (x % 7).toNat < 7 := by
    intro x
    omega
  exact key _

/-- The day name that `isAvailable` looks up is the weekday of the local day. -/
theorem daysOfWeek_getDay (tz : Int) (d : Date) :
    daysOfWeek[getDay tz d]? = some (weekdayLong tz d) := by
  have h := getDay_lt tz d
  unfold weekdayLong
  generalize getDay tz d = n at h ⊢
  interval_cases n <;> rfl

/-- `some` returns false without throwing exactly when the callback returns
false on every element. -/
theorem arraySome_eq_some_false_iff {α : Type} (f : α → Option Bool) (xs : List α) :
    arraySome f xs = some false ↔ ∀ x ∈ xs, f x = some false := by
  induction xs with
  | nil => simp [arraySome]
  | cons x xs ih =>
    unfold arraySome
    cases hx : f x with
    | none => simp [hx]
    | some b =>
      cases b with
      | true => simp [hx]
      | false => simp [hx, ih]

/-- Where the callback never throws, `some` is `List.any`. -/
theorem arraySome_eq_any {α : Type} (f : α → Option Bool) (g : α → Bool) (xs : List α)
    (h : ∀ x ∈ xs, f x = some (g x)) : arraySome f xs = some (xs.any g) := by
  induction xs with
  | nil => rfl
  | cons x xs ih =>
    unfold arraySome
    rw [h x (List.mem_cons_self x xs)]
    cases hg : g x with
    | true => simp [hg]
    | false =>
      simp only [List.any_cons, hg, Bool.false_or]
      exact ih (fun y hy => h y (List.mem_cons_of_mem x hy))

/-- Where the callback returns false or throws on every element and throws on
one of them, `some` throws. -/
theorem arraySome_eq_none {α : Type} (f : α → Option Bool) (xs : List α)
    (h : ∀ x ∈ xs, f x = some false ∨ f x = none) (hex : ∃ x ∈ xs, f x = none) :
    arraySome f xs = none := by
  induction xs with
  | nil =>
    obtain ⟨x, hx, _⟩ := hex
    cases hx
  | cons x xs ih =>
    unfold arraySome
    rcases h x (List.mem_cons_self x xs) with hx | hx
    · rw [hx]
      refine ih (fun y hy => h y (List.mem_cons_of_mem x hy)) ?_
      obtain ⟨y, hy, hyn⟩ := hex
      rcases List.mem_cons.1 hy with rfl | hy2
      · rw [hx] at hyn
        cases hyn
      · exact ⟨y, hy2, hyn⟩
    · rw [hx]

/-- The comparison of the callbacks is false exactly on a date of another day. -/
theorem toDateStringEq_eq_some_false_iff (tz : Int) (date : Date) (x : Option Date) :
    toDateStringEq tz date x = some false ↔
      ∃ d, x = some d ∧ sameCalendarDay tz d date = false := by
  cases x with
  | none => simp [toDateStringEq]
  | some d =>
    have hday : (toDateString tz d == toDateString tz date) = sameCalendarDay tz d date := by
      rw [Bool.eq_iff_iff, beq_iff_eq]
      exact toDateString_eq_iff tz d date
    simp [toDateStringEq, hday]

/-- The entry that `isAvailable` finds is the first one of the weekday. -/
theorem isAvailable_find (tz : Int) (t : Turf) (date : Date) :
    t.availability.days.find? (fun d => some d.day == daysOfWeek[getDay tz date]?) =
      t.availability.days.find? (fun d => d.day == weekdayLong tz date) := by
  congr 1
  funext d
  rw [daysOfWeek_getDay, Bool.eq_iff_iff]
  simp

/-- `isAvailable` returns true exactly when the schedule has an open entry for
the weekday, every holiday is a date of another day and every maintenance
entry has a date, on another day. -/
theorem isAvailable_eq_some_true_iff (tz : Int) (t : Turf) (date : Date)
    (startTime endTime : String) :
    Turf.isAvailable tz t date startTime endTime = some true ↔
      (∃ d, t.availability.days.find? (fun d => d.day == weekdayLong tz date) = some d ∧
        d.isOpen = true) ∧
      (∀ h ∈ t.availability.holidays, ∃ x, h = some x ∧ sameCalendarDay tz x date = false) ∧
      (∀ m ∈ t.availability.maintenanceDates,
        ∃ x, m.date = some x ∧ sameCalendarDay tz x date = false) := by
  have h1 := arraySome_eq_some_false_iff (fun holiday => toDateStringEq tz date holiday)
    t.availability.holidays
  have h2 := arraySome_eq_some_false_iff
    (fun (maintenance : MaintenanceEntry) => toDateStringEq tz date maintenance.date)
    t.availability.maintenanceDates
  simp only [toDateStringEq_eq_some_false_iff] at h1 h2
  rw [← h1, ← h2]
  unfold Turf.isAvailable
  simp only [isAvailable_find]
  cases t.availability.days.find? (fun d => d.day == weekdayLong tz date) with
  | none => simp
  | some d =>
    cases ho : d.isOpen with
    | false => simp [ho]
    | true =>
      cases arraySome (fun holiday => toDateStringEq tz date holiday)
          t.availability.holidays with
      | none => simp [ho]
      | some a =>
        cases arraySome
            (fun (maintenance : MaintenanceEntry) => toDateStringEq tz date maintenance.date)
            t.availability.maintenanceDates with
        | none => simp [ho]
        | some b => cases a <;> cases b <;> simp [ho]

/-- On a turf whose holidays and maintenance entries all carry a date,
`isAvailable` returns a Boolean. -/
theorem isAvailable_dated (tz : Int) (t : Turf) (date : Date) (startTime endTime : String)
    (hh : ∀ h ∈ t.availability.holidays, h ≠ none)
    (hm : ∀ m ∈ t.availability.maintenanceDates, m.date ≠ none) :
    ∃ b, Turf.isAvailable tz t date startTime endTime = some b := by
  have h1 := arraySome_eq_any (fun holiday => toDateStringEq tz date holiday)
    (fun holiday => match holiday with
      | some d => toDateString tz d == toDateString tz date
      | none => false)
    t.availability.holidays (by
      intro x hx
      cases x with
      | none => exact absurd rfl (hh none hx)
      | some d => rfl)
  have h2 := arraySome_eq_any
    (fun (maintenance : MaintenanceEntry) => toDateStringEq tz date maintenance.date)
    (fun maintenance => match maintenance.date with
      | some d => toDateString tz d == toDateString tz date
      | none => false)
    t.availability.maintenanceDates (by
      intro x hx
      cases hd : x.date with
      | none => exact absurd hd (hm x hx)
      | some d => simp only [hd, toDateStringEq])
  unfold Turf.isAvailable
  simp only [h1, h2]
  cases t.availability.days.find? (fun d => some d.day == daysOfWeek[getDay tz date]?) with
  | none => exact ⟨false, rfl⟩
  | some d =>
    cases ho : d.isOpen with
    | false => exact ⟨false, by simp only [ho, Bool.not_false, if_true]⟩
    | true =>
      simp only [ho, Bool.not_true, Bool.false_eq_true, if_false]
      exact ⟨_, rfl⟩

/-- On an open weekday of a turf whose holidays are dates, a maintenance entry
without a date makes `isAvailable` throw unless an entry before it matches;
here no entry matches. -/
theorem isAvailable_undated (tz : Int) (t : Turf) (date : Date) (startTime endTime : String)
    (d : DaySchedule)
    (hd : t.availability.days.find? (fun d => d.day == weekdayLong tz date) = some d)
    (ho : d.isOpen = true)
    (hh : ∀ h ∈ t.availability.holidays, h ≠ none)
    (hm : ∀ m ∈ t.availability.maintenanceDates,
      ∀ x, m.date = some x → sameCalendarDay tz x date = false)
    (hex : ∃ m ∈ t.availability.maintenanceDates, m.date = none) :
    Turf.isAvailable tz t date startTime endTime = none := by
  have h1 := arraySome_eq_any (fun holiday => toDateStringEq tz date holiday)
    (fun holiday => match holiday with
      | some d => toDateString tz d == toDateString tz date
      | none => false)
    t.availability.holidays (by
      intro x hx
      cases x with
      | none => exact absurd rfl (hh none hx)
      | some d => rfl)
  have h2 := arraySome_eq_none
    (fun (maintenance : MaintenanceEntry) => toDateStringEq tz date maintenance.date)
    t.availability.maintenanceDates (by
      intro x hx
      show toDateStringEq tz date x.date = some false ∨ toDateStringEq tz date x.date = none
      cases hxd : x.date with
      | none => exact Or.inr rfl
      | some y =>
        left
        exact (toDateStringEq_eq_some_false_iff tz date (some y)).2 ⟨y, rfl, hm x hx y hxd⟩)
    (by
      obtain ⟨m, hmem, hmn⟩ := hex
      refine ⟨m, hmem, ?_⟩
      simp only [hmn, toDateStringEq])
  unfold Turf.isAvailable
  simp only [isAvailable_find, hd, ho, h1, h2]
  rfl

/-- C20: `isAvailable` throws where the claim promises a Boolean. On the test
turf with a maintenance entry stored without a date, the call for Monday
15 January 2024 throws `TypeError` (the claim: true), and with that Monday also a
holiday it still throws (the claim: false); a dated entry of the same day before
the undated one gives false, and a day without an open entry gives false before
the lists are read. In general the call returns true exactly when the weekday
has an open entry, every holiday is a date of another day and every maintenance
entry has a date, on another day; on an open weekday, with every holiday a
date and no maintenance entry dated that day, an undated maintenance entry
makes it throw; where every holiday and entry carries a date it returns a
Boolean, false on a holiday or maintenance date; the times are never read. The weekday is the one of the local day: the week of
15 January 2024 runs Monday to Sunday, 31 December 1969 was a Wednesday, and
20:00 UTC on Sunday 14 January is Monday at UTC+6. -/
theorem isAvailable_throws_on_undated_maintenance :
    Turf.isAvailable 0 (testModelsTurfWith [] [undatedMaintenance]) mondayJan15
        "10:00" "12:00" = none ∧
    Turf.isAvailable 0 (testModelsTurfWith [some mondayJan15] [undatedMaintenance])
        mondayJan15 "10:00" "12:00" = none ∧
    Turf.isAvailable 0
        (testModelsTurfWith [] [maintenanceOn (mondayJan15 + 9 * msPerHour), undatedMaintenance])
        mondayJan15 "10:00" "12:00" = some false ∧
    Turf.isAvailable 0 (testModelsTurfWith [] [undatedMaintenance])
        (mondayJan15 + 2 * msPerDay) "10:00" "12:00" = some false ∧
    Turf.isAvailable 0 (testModelsTurfWith [] [maintenanceOn (mondayJan15 + msPerDay)])
        mondayJan15 "10:00" "12:00" = some true ∧
    (∀ (tz : Int) (t : Turf) (date : Date) (startTime endTime : String),
      (Turf.isAvailable tz t date startTime endTime = some true ↔
        (∃ d, t.availability.days.find? (fun d => d.day == weekdayLong tz date) = some d ∧
          d.isOpen = true) ∧
        (∀ h ∈ t.availability.holidays,
          ∃ x, h = some x ∧ sameCalendarDay tz x date = false) ∧
        (∀ m ∈ t.availability.maintenanceDates,
          ∃ x, m.date = some x ∧ sameCalendarDay tz x date = false)) ∧
      (∀ d, t.availability.days.find? (fun d => d.day == weekdayLong tz date) = some d →
        d.isOpen = true →
        (∀ h ∈ t.availability.holidays, h ≠ none) →
        (∀ m ∈ t.availability.maintenanceDates,
          ∀ x, m.date = some x → sameCalendarDay tz x date = false) →
        (∃ m ∈ t.availability.maintenanceDates, m.date = none) →
        Turf.isAvailable tz t date startTime endTime = none) ∧
      ((∀ h ∈ t.availability.holidays, h ≠ none) →
        (∀ m ∈ t.availability.maintenanceDates, m.date ≠ none) →
        (∃ b, Turf.isAvailable tz t date startTime endTime = some b) ∧
        (((∃ h ∈ t.availability.holidays,
              ∃ x, h = some x ∧ sameCalendarDay tz x date = true) ∨
            (∃ m ∈ t.availability.maintenanceDates,
              ∃ x, m.date = some x ∧ sameCalendarDay tz x date = true)) →
          Turf.isAvailable tz t date startTime endTime = some false)) ∧
      (∀ startTime2 endTime2 : String,
        Turf.isAvailable tz t date startTime2 endTime2 =
          Turf.isAvailable tz t date startTime endTime)) ∧
    [0, 1, 2, 3, 4, 5, 6].map (fun (k : Int) =>
        daysOfWeek[getDay 0 (mondayJan15 + k * msPerDay + 10 * msPerHour)]?) =
      [some DayName.monday, some DayName.tuesday, some DayName.wednesday,
        some DayName.thursday, some DayName.friday, some DayName.saturday,
        some DayName.sunday] ∧
    [0, 1, 2, 3, 4, 5, 6].map (fun (k : Int) =>
        weekdayLong 0 (mondayJan15 + k * msPerDay + 10 * msPerHour)) =
      [DayName.monday, DayName.tuesday, DayName.wednesday, DayName.thursday,
        DayName.friday, DayName.saturday, DayName.sunday] ∧
    [0, 1, 2, 3, 4, 5, 6].map (fun (k : Int) =>
        Turf.isAvailable 0 testModelsTurf (mondayJan15 + k * msPerDay + 10 * msPerHour)
          "10:00" "12:00") =
      [some true, some true, some false, some false, some false, some false, some false] ∧
    daysOfWeek[getDay 0 (-1)]? = some DayName.wednesday ∧
    Turf.isAvailable 0 testModelsTurf (mondayJan15 - 4 * msPerHour) "10:00" "12:00" =
      some false ∧
    Turf.isAvailable (6 * msPerHour) testModelsTurf (mondayJan15 - 4 * msPerHour)
        "10:00" "12:00" = some true ∧
    Turf.isAvailable (-5 * msPerHour) testModelsTurf (mondayJan15 + 2 * msPerHour)
        "10:00" "12:00" = some false := by
  refine ⟨by decide, by decide, by decide, by decide, by decide, ?_, by decide, by decide,
    by decide, by decide, by decide, by decide, by decide⟩
  intro tz t date startTime endTime
  refine ⟨isAvailable_eq_some_true_iff tz t date startTime endTime, ?_, ?_, fun _ _ => rfl⟩
  · intro d hd ho hh hm hex
    exact isAvailable_undated tz t date startTime endTime d hd ho hh hm hex
  · intro hh hm
    obtain ⟨b, hb⟩ := isAvailable_dated tz t date startTime endTime hh hm
    refine ⟨⟨b, hb⟩, ?_⟩
    intro hmatch
    cases b with
    | false => exact hb
    | true =>
      exfalso
      obtain ⟨_, h1, h2⟩ := (isAvailable_eq_some_true_iff tz t date startTime endTime).1 hb
      rcases hmatch with ⟨h, hmem, x, hx, hs⟩ | ⟨m, hmem, x, hx, hs⟩
      · obtain ⟨y, hy, hf⟩ := h1 h hmem
        rw [hx] at hy
        cases hy
        rw [hf] at hs
        cases hs
      · obtain ⟨y, hy, hf⟩ := h2 m hmem
        rw [hx] at hy
        cases hy
        rw [hf] at hs
        cases hs

/-! ## Facts about time strings and minutes -/

theorem digitChar_beq_colon (k : Nat) (h : k < 10) : (digitChar k == ':') = false := by
  have h1 := digitChar_ne_colon k h
  rw [bne_iff_ne] at h1
  exact beq_eq_false_iff_ne.2 h1

/-- The minutes of a zero-padded time `h:m`. -/
theorem timeToMinutes_hhmm (h m : Nat) (hh : h < 100) (hm : m < 100) :
    timeToMinutes (hhmm h m) = 60 * h + m := by
  unfold timeToMinutes
  rw [hhmm_toList h m hh hm]
  have c1 := digitChar_beq_colon (h / 10) (by omega)
  have c2 := digitChar_beq_colon (h % 10) (by omega)
  have c3 := digitChar_beq_colon (m / 10) (by omega)
  have c4 := digitChar_beq_colon (m % 10) (by omega)
  have c5 : ((':' : Char) == ':') = true := by decide
  simp only [splitColonAux, c1, c2, c3, c4, c5, Bool.false_eq_true, if_false, if_true,
    List.reverse_cons, List.reverse_nil, List.nil_append, List.cons_append, List.map,
    numberOfDigits, List.foldl, List.getD_cons_zero, List.getD_cons_succ,
    digitChar_toNat (h / 10) (by omega), digitChar_toNat (h % 10) (by omega),
    digitChar_toNat (m / 10) (by omega), digitChar_toNat (m % 10) (by omega)]
  omega

/-- On zero-padded 24-hour times, `strLt` is the order of the minutes. -/
theorem strLt_hhmm_iff_minutes (h m k n : Nat) (hh : h < 24) (hm : m < 60) (hk : k < 24)
    (hn : n < 60) :
    strLt (hhmm h m) (hhmm k n) = true ↔
      timeToMinutes (hhmm h m) < timeToMinutes (hhmm k n) := by
  rw [strLt_hhmm h m k n (by omega) (by omega) (by omega) (by omega),
    timeToMinutes_hhmm h m (by omega) (by omega), timeToMinutes_hhmm k n (by omega) (by omega),
    decide_eq_true_eq]
  omega

/-- With zero-padded times in the request, the booking that `createBooking`
stores has its `startTime` below its `endTime` in the string order. -/
theorem createBooking_stores_ordered_padded (tz : Int) (now : Date) (turfs : List Turf)
    (store : List Booking) (userId newId : ObjectId) (req : BookingRequest) (b : Booking)
    (store2 : List Booking) (h m k n : Nat) (hh : h < 24) (hm : m < 60) (hk : k < 24)
    (hn : n < 60) (hs : req.timeSlot.startTime = hhmm h m)
    (he : req.timeSlot.endTime = hhmm k n)
    (hc : createBooking tz now turfs store userId newId req =
      (CreateBookingResult.created b, store2)) :
    strLt b.timeSlot.startTime b.timeSlot.endTime = true := by
  obtain ⟨turfDoc, _, hb, _⟩ := createBooking_created tz now turfs store userId newId req b
    store2 hc
  have hslot : b.timeSlot = req.timeSlot := by
    rw [hb]
    rfl
  rw [hslot, hs, he, strLt_hhmm_iff_minutes h m k n hh hm hk hn, ← hs, ← he]
  by_contra hle
  have hle2 : timeToMinutes req.timeSlot.endTime ≤ timeToMinutes req.timeSlot.startTime :=
    Nat.le_of_not_lt hle
  cases hv : validateCreateBooking req with
  | false =>
    unfold createBooking at hc
    simp [hv] at hc
  | true =>
    rw [createBooking_invalid tz now turfs store userId newId req hv hle2] at hc
    cases hc

/-! ## Time format, stored intervals and the two availability tests -/

/-- C21 at the failing input: the time pattern accepts `"9:00"`, which has four
characters and no leading zero, next to the padded `"09:00"`. -/
theorem time_pattern_accepts_unpadded :
    matchesTimePattern "9:00" = true ∧ "9:00".length = 4 ∧
    matchesTimePattern "09:00" = true ∧ "9:00" ≠ "09:00" ∧
    validateCreateBooking (exampleRequest 7 0 "9:00" "10:00") = true := by
  decide

/-- C22 at the failing input: the request 9:00-10:00 passes the validation and
the minutes check and is stored, and its `startTime` is not below its `endTime`
in the string order of the conflict query. -/
theorem createBooking_stores_unordered_strings :
    (createBooking 0 0 [exampleTurf true "06:00" "23:00" none] [] 3 50
        (exampleRequest 7 0 "9:00" "10:00")).2 =
      [newBooking 0 (exampleTurf true "06:00" "23:00" none) 3 50
        (exampleRequest 7 0 "9:00" "10:00")] ∧
    (newBooking 0 (exampleTurf true "06:00" "23:00" none) 3 50
        (exampleRequest 7 0 "9:00" "10:00")).timeSlot =
      { startTime := "9:00", endTime := "10:00" } ∧
    timeToMinutes "9:00" < timeToMinutes "10:00" ∧
    strLt "9:00" "10:00" = false ∧
    Booking.checkConflict 0
      [newBooking 0 (exampleTurf true "06:00" "23:00" none) 3 50
        (exampleRequest 7 0 "9:00" "10:00")] 7 0 "9:00" "10:00" none = false :=
  ⟨rfl, rfl, by decide, by decide, rfl⟩

/-- C23: there are an open schedule, an active reservation and a generated slot
such that the slot is shown available although the conflict check rejects a
request for exactly its interval: the confirmed reservation 10:30-11:30 against
the slot 10:00-11:00 of a day open 06:00-23:00. -/
theorem display_and_conflict_check_disagree :
    ∃ (turf : Turf) (reservation : Booking) (slot : Slot),
      statusInConfirmedPending reservation.status = true ∧
      reservation.timeSlot = { startTime := "10:30", endTime := "11:30" } ∧
      (∃ slots, (getTurfAvailability 0 turf 0 [reservation]).slots = some slots ∧
        slot ∈ slots) ∧
      (slot.startTime, slot.endTime) = ("10:00", "11:00") ∧
      slot.isAvailable = true ∧
      Booking.checkConflict 0 [reservation] turf._id 0 slot.startTime slot.endTime none = true ∧
      Booking.getConflictingBookings 0 [reservation] turf._id 0 slot.startTime slot.endTime none
        = [reservation] ∧
      (createBooking 0 0 [turf] [reservation] 3 50
          (exampleRequest turf._id 0 slot.startTime slot.endTime)).1 =
        CreateBookingResult.slotConflict [conflictEntry reservation] := by
  refine ⟨exampleTurf true "06:00" "23:00" none,
    exampleBooking 1 7 0 "10:30" "11:30" BookingStatus.confirmed,
    slotForHour (exampleTurf true "06:00" "23:00" none)
      (exampleEntry true "06:00" "23:00" none DayName.thursday)
      [exampleBooking 1 7 0 "10:30" "11:30" BookingStatus.confirmed] 10,
    rfl, rfl, ⟨_, rfl, List.mem_map.2 ⟨10, by decide, rfl⟩⟩, rfl, rfl, rfl, rfl, rfl⟩

/-- C26: for zero-padded 24-hour times `h:m` and `k:n`, `minutes` is
`60 * h + m`, and the string comparison `<` holds exactly when the minutes are
smaller; so the overlap test of the conflict query on such strings is the
overlap test on their minutes. -/
theorem strLt_iff_minutes_lt (h m k n : Nat) (hh : h < 24) (hm : m < 60) (hk : k < 24)
    (hn : n < 60) :
    timeToMinutes (hhmm h m) = 60 * h + m ∧
    (strLt (hhmm h m) (hhmm k n) = true ↔
      timeToMinutes (hhmm h m) < timeToMinutes (hhmm k n)) ∧
    (strLe (hhmm h m) (hhmm k n) = true ↔
      timeToMinutes (hhmm h m) ≤ timeToMinutes (hhmm k n)) ∧
    (∀ a b c d : Nat, a < 24 → b < 60 → c < 24 → d < 60 →
      (overlapTest strLt (hhmm h m) (hhmm k n) (hhmm a b) (hhmm c d) = true ↔
        timeToMinutes (hhmm h m) < timeToMinutes (hhmm c d) ∧
        timeToMinutes (hhmm a b) < timeToMinutes (hhmm k n))) := by
  refine ⟨timeToMinutes_hhmm h m (by omega) (by omega),
    strLt_hhmm_iff_minutes h m k n hh hm hk hn, ?_, ?_⟩
  · unfold strLe
    rw [Bool.not_eq_true', ← Bool.not_eq_true, strLt_hhmm_iff_minutes k n h m hk hn hh hm]
    exact not_lt
  · intro a b c d ha hb hc hd
    unfold overlapTest
    rw [Bool.and_eq_true, strLt_hhmm_iff_minutes h m c d hh hm hc hd,
      strLt_hhmm_iff_minutes a b k n ha hb hk hn]

/-- C26 at 09:30 and 10:05. -/
theorem strLt_iff_minutes_lt_witness :
    strLt "09:30" "10:05" = true ↔ timeToMinutes "09:30" < timeToMinutes "10:05" :=
  (strLt_iff_minutes_lt 9 30 10 5 (by decide) (by decide) (by decide) (by decide)).2.1

/-! ## Facts about the booking lifecycle -/

theorem sameReservation_refl (b : Booking) : sameReservation b b :=
  ⟨rfl, rfl, rfl, rfl, rfl, rfl, rfl, rfl⟩

theorem sameReservation_trans (a b c : Booking) (h1 : sameReservation a b)
    (h2 : sameReservation b c) : sameReservation a c := by
  obtain ⟨a1, a2, a3, a4, a5, a6, a7, a8⟩ := h1
  obtain ⟨b1, b2, b3, b4, b5, b6, b7, b8⟩ := h2
  exact ⟨b1.trans a1, b2.trans a2, b3.trans a3, b4.trans a4, b5.trans a5, b6.trans a6,
    b7.trans a7, b8.trans a8⟩

theorem keepsReservations_refl (s : List Booking) : keepsReservations s s :=
  fun _ b h => ⟨b, h, sameReservation_refl b⟩

theorem keepsReservations_trans (s t u : List Booking) (h1 : keepsReservations s t)
    (h2 : keepsReservations t u) : keepsReservations s u := by
  intro i b hb
  obtain ⟨c, hc, hbc⟩ := h1 i b hb
  obtain ⟨d, hd, hcd⟩ := h2 i c hc
  exact ⟨d, hd, sameReservation_trans b c d hbc hcd⟩

theorem keepsReservations_append (s extra : List Booking) :
    keepsReservations s (s ++ extra) := by
  intro i b hb
  have hi : i < s.length := (List.getElem?_eq_some.1 hb).1
  exact ⟨b, by rw [List.getElem?_append_left hi]; exact hb, sameReservation_refl b⟩

theorem findById_id (store : List Booking) (id : ObjectId) (booking : Booking)
    (h : findById store id = some booking) : booking._id = id := by
  have := List.find?_some h
  exact beq_iff_eq.1 this

theorem keepsReservations_saveBooking (store : List Booking) (id : ObjectId)
    (booking updated : Booking) (hf : findById store id = some booking)
    (hs : sameReservation booking updated) :
    keepsReservations store (saveBooking store updated) := by
  induction store with
  | nil => exact keepsReservations_refl []
  | cons x xs ih =>
    have hid : updated._id = booking._id := hs.1
    have hbid : booking._id = id := findById_id (x :: xs) id booking hf
    unfold findById at hf
    by_cases hx : x._id = id
    · have hxb : (x._id == id) = true := beq_iff_eq.2 hx
      rw [List.find?_cons] at hf
      simp only [hxb] at hf
      cases hf
      have hsave : saveBooking (booking :: xs) updated = updated :: xs := by
        have : (booking._id == updated._id) = true := beq_iff_eq.2 hid.symm
        simp only [saveBooking, this, if_true]
      rw [hsave]
      intro i b hb
      cases i with
      | zero =>
        simp only [List.getElem?_cons_zero, Option.some.injEq] at hb
        subst hb
        exact ⟨updated, List.getElem?_cons_zero, hs⟩
      | succ j => exact ⟨b, hb, sameReservation_refl b⟩
    · have hxb : (x._id == id) = false := beq_eq_false_iff_ne.2 hx
      rw [List.find?_cons] at hf
      simp only [hxb] at hf
      have hne : (x._id == updated._id) = false := by
        apply beq_eq_false_iff_ne.2
        intro h
        apply hx
        rw [h, hid, hbid]
      have hsave : saveBooking (x :: xs) updated = x :: saveBooking xs updated := by
        simp only [saveBooking, hne, Bool.false_eq_true, if_false]
      rw [hsave]
      intro i b hb
      cases i with
      | zero =>
        simp only [List.getElem?_cons_zero, Option.some.injEq] at hb
        subst hb
        exact ⟨x, List.getElem?_cons_zero, sameReservation_refl x⟩
      | succ j =>
        have hb2 : xs[j]? = some b := by simpa using hb
        obtain ⟨c, hc, hbc⟩ := ih hf j b hb2
        exact ⟨c, by simpa using hc, hbc⟩

theorem createBooking_snd (tz : Int) (now : Date) (turfs : List Turf) (store : List Booking)
    (userId newId : ObjectId) (req : BookingRequest) :
    (createBooking tz now turfs store userId newId req).2 = store ∨
    ∃ turfDoc, (createBooking tz now turfs store userId newId req) =
      (CreateBookingResult.created (newBooking tz turfDoc userId newId req),
        store ++ [newBooking tz turfDoc userId newId req]) := by
  cases hv : validateCreateBooking req with
  | false =>
    left
    unfold createBooking
    simp [hv]
  | true =>
    by_cases hi : timeToMinutes req.timeSlot.endTime ≤ timeToMinutes req.timeSlot.startTime
    · left
      rw [createBooking_invalid tz now turfs store userId newId req hv hi]
    · have hi2 := Nat.lt_of_not_le hi
      by_cases hp : setHoursStartOfDay tz req.date < setHoursStartOfDay tz now
      · left
        rw [createBooking_past tz now turfs store userId newId req hv hi2 hp]
      · rw [createBooking_checked tz now turfs store userId newId req hv hi2 hp]
        cases turfs.find? (fun t => t._id == req.turf) with
        | none => exact Or.inl rfl
        | some turfDoc =>
          cases ha : turfDoc.isActive with
          | false =>
            left
            simp [ha]
          | true =>
            simp only [ha, Bool.not_true, Bool.false_eq_true, if_false]
            by_cases hc : Booking.getConflictingBookings tz store req.turf
                (setHoursStartOfDay tz req.date) req.timeSlot.startTime req.timeSlot.endTime
                none = []
            · rw [createBookingTail_no_conflict tz store userId newId req turfDoc hc]
              cases capacityLimit turfDoc with
              | none => exact Or.inr ⟨turfDoc, rfl⟩
              | some m =>
                by_cases h6 : req.players.count > m
                · left
                  simp only [if_pos h6]
                · right
                  exact ⟨turfDoc, by simp only [if_neg h6]⟩
            · left
              rw [createBookingTail_conflict tz store userId newId req turfDoc hc]

theorem sameReservation_cancelledDocument (now : Date) (user : RequestUser)
    (reason : Option String) (booking : Booking) :
    sameReservation booking (cancelledDocument now user reason booking) := by
  unfold cancelledDocument
  dsimp only
  split_ifs <;> exact ⟨rfl, rfl, rfl, rfl, rfl, rfl, rfl, rfl⟩

theorem cancelBooking_keeps (now : Date) (store : List Booking) (user : RequestUser)
    (id : ObjectId) (reason : Option String) :
    keepsReservations store (cancelBooking now store user id reason).2 := by
  unfold cancelBooking
  cases hf : findById store id with
  | none => exact keepsReservations_refl store
  | some booking =>
    dsimp only
    split_ifs
    · exact keepsReservations_refl store
    · exact keepsReservations_refl store
    · exact keepsReservations_refl store
    · exact keepsReservations_refl store
    · exact keepsReservations_saveBooking store id booking _ hf
        (sameReservation_cancelledDocument now user reason booking)

theorem processPayment_keeps (now : Date) (store : List Booking) (user : RequestUser)
    (id : ObjectId) (transactionId : Option String) :
    keepsReservations store (processPayment now store user id transactionId).2 := by
  unfold processPayment
  cases hf : findById store id with
  | none => exact keepsReservations_refl store
  | some booking =>
    dsimp only
    split_ifs
    · exact keepsReservations_refl store
    · exact keepsReservations_refl store
    · exact keepsReservations_refl store
    · cases transactionId with
      | none => exact keepsReservations_refl store
      | some txn =>
        dsimp only
        split_ifs
        · exact keepsReservations_refl store
        · exact keepsReservations_saveBooking store id booking _ hf
            ⟨rfl, rfl, rfl, rfl, rfl, rfl, rfl, rfl⟩

theorem ownerStatusUpdate_keeps (status : BookingStatus) (turfs : List Turf)
    (store : List Booking) (user : RequestUser) (id : ObjectId) :
    keepsReservations store (ownerStatusUpdate status turfs store user id).2 := by
  unfold ownerStatusUpdate
  cases hf : findById store id with
  | none => exact keepsReservations_refl store
  | some booking =>
    dsimp only
    cases turfs.find? (fun t => t._id == booking.turf) with
    | none => exact keepsReservations_refl store
    | some turf =>
      dsimp only
      split_ifs
      · exact keepsReservations_refl store
      · exact keepsReservations_saveBooking store id booking _ hf
          ⟨rfl, rfl, rfl, rfl, rfl, rfl, rfl, rfl⟩

theorem createBooking_keeps (tz : Int) (now : Date) (turfs : List Turf)
    (store : List Booking) (userId newId : ObjectId) (req : BookingRequest) :
    keepsReservations store (createBooking tz now turfs store userId newId req).2 := by
  rcases createBooking_snd tz now turfs store userId newId req with h | ⟨turfDoc, h⟩
  · rw [h]
    exact keepsReservations_refl store
  · rw [h]
    exact keepsReservations_append store _

theorem applyOp_keeps (tz : Int) (turfs : List Turf) (store : List Booking) (op : BookingOp) :
    keepsReservations store (applyOp tz turfs store op) := by
  cases op with
  | create now userId newId req => exact createBooking_keeps tz now turfs store userId newId req
  | cancel now user id reason => exact cancelBooking_keeps now store user id reason
  | pay now user id transactionId => exact processPayment_keeps now store user id transactionId
  | confirm user id => exact ownerStatusUpdate_keeps BookingStatus.confirmed turfs store user id
  | complete user id => exact ownerStatusUpdate_keeps BookingStatus.completed turfs store user id
  | noShow user id => exact ownerStatusUpdate_keeps BookingStatus.no_show turfs store user id

theorem applyOps_keeps (tz : Int) (turfs : List Turf) (ops : List BookingOp) :
    ∀ store : List Booking, keepsReservations store (applyOps tz turfs store ops) := by
  induction ops with
  | nil => exact fun store => keepsReservations_refl store
  | cons op rest ih =>
    intro store
    exact keepsReservations_trans store (applyOp tz turfs store op) _
      (applyOp_keeps tz turfs store op) (ih (applyOp tz turfs store op))

/-! ## The lifecycle of a reservation -/

/-- C24: no booking operation removes a reservation. After any sequence of
`createBooking`, `cancelBooking`, `processPayment`, `confirmBooking`,
`completeBooking` and `markNoShow` every document of the store is still there,
at its position, and agrees with what it was on every field but `status`,
`payment` and `cancellation` (so on turf, date and timeSlot). -/
theorem operations_keep_reservations (tz : Int) (turfs : List Turf) (store : List Booking)
    (ops : List BookingOp) :
    keepsReservations store (applyOps tz turfs store ops) ∧
    (∀ b ∈ store, ∃ c ∈ applyOps tz turfs store ops,
      c._id = b._id ∧ c.turf = b.turf ∧ c.date = b.date ∧ c.timeSlot = b.timeSlot ∧
      sameReservation b c) ∧
    store.length ≤ (applyOps tz turfs store ops).length := by
  have hk := applyOps_keeps tz turfs ops store
  refine ⟨hk, ?_, ?_⟩
  · intro b hb
    obtain ⟨i, hi⟩ := List.getElem?_of_mem hb
    obtain ⟨c, hc, hs⟩ := hk i b hi
    exact ⟨c, List.getElem?_mem hc, hs.1, hs.2.2.1, hs.2.2.2.1, hs.2.2.2.2.1, hs⟩
  · by_contra hlt
    have hlt2 : (applyOps tz turfs store ops).length < store.length := Nat.lt_of_not_le hlt
    have hget : store[(applyOps tz turfs store ops).length]? =
        some (store.get ⟨_, hlt2⟩) := List.getElem?_eq_getElem hlt2
    obtain ⟨c, hc, _⟩ := hk _ _ hget
    have hlen := (List.getElem?_eq_some.1 hc).1
    exact Nat.lt_irrefl _ hlen

/-- C27 at the failing input: from the empty store, creating a booking
10:00-11:00, cancelling it, booking the same slot again and then confirming the
cancelled booking are all accepted; before the confirmation no two pending or
confirmed bookings overlap, after it the two bookings of the slot are both
active. -/
theorem confirm_reactivates_cancelled_booking :
    noDoubleBooking
      (applyOps 0 [exampleTurf true "06:00" "23:00" none] [] (reconfirmScenario.take 3)) = true ∧
    (applyOps 0 [exampleTurf true "06:00" "23:00" none] [] (reconfirmScenario.take 3)).map
        (fun b => (b._id, b.timeSlot.startTime, b.timeSlot.endTime, b.status)) =
      [(1, "10:00", "11:00", BookingStatus.cancelled),
       (2, "10:00", "11:00", BookingStatus.pending)] ∧
    (applyOps 0 [exampleTurf true "06:00" "23:00" none] [] reconfirmScenario).map
        (fun b => (b._id, b.timeSlot.startTime, b.timeSlot.endTime, b.status)) =
      [(1, "10:00", "11:00", BookingStatus.confirmed),
       (2, "10:00", "11:00", BookingStatus.pending)] ∧
    noDoubleBooking
      (applyOps 0 [exampleTurf true "06:00" "23:00" none] [] reconfirmScenario) = false := by
  decide

/-- C29: for a booking that exists and a requester who is its user, an admin
or of role owner, `cancelBooking` fails, leaving the store unchanged, exactly
when the status is cancelled, completed or no-show. Otherwise it saves the
booking with status cancelled, with `cancelledBy` admin for an admin, owner for
an owner-role requester who is not the booker and user otherwise; exactly when
the payment was completed the payment becomes refunded and `refundAmount` is
`pricing.totalAmount`, and else the payment is unchanged and no refund amount
is set. -/
theorem cancelBooking_spec (now : Date) (store : List Booking) (user : RequestUser)
    (id : ObjectId) (reason : Option String) (booking : Booking)
    (hf : findById store id = some booking)
    (hauth : booking.user = user.id ∨ user.role = Role.admin ∨ user.role = Role.owner) :
    ((¬ ∃ b, (cancelBooking now store user id reason).1 = CancelBookingResult.cancelled b) ↔
      (booking.status = BookingStatus.cancelled ∨ booking.status = BookingStatus.completed ∨
        booking.status = BookingStatus.no_show)) ∧
    ((booking.status = BookingStatus.cancelled ∨ booking.status = BookingStatus.completed ∨
        booking.status = BookingStatus.no_show) →
      (cancelBooking now store user id reason).2 = store) ∧
    (¬ (booking.status = BookingStatus.cancelled ∨ booking.status = BookingStatus.completed ∨
        booking.status = BookingStatus.no_show) →
      ∃ b c, cancelBooking now store user id reason =
          (CancelBookingResult.cancelled b, saveBooking store b) ∧
        sameReservation booking b ∧
        b.status = BookingStatus.cancelled ∧
        b.cancellation = some c ∧
        c.cancelledBy =
          (if user.role = Role.admin then CancelledBy.admin
           else if user.role = Role.owner ∧ booking.user ≠ user.id then CancelledBy.owner
           else CancelledBy.user) ∧
        (booking.payment.status = PaymentStatus.completed →
          b.payment.status = PaymentStatus.refunded ∧
          c.refundAmount = some booking.pricing.totalAmount) ∧
        (booking.payment.status ≠ PaymentStatus.completed →
          b.payment = booking.payment ∧ c.refundAmount = none)) := by
  have hauth2 : (!(booking.user == user.id) && !(user.role == Role.admin) &&
      !(user.role == Role.owner)) = false := by
    rcases hauth with h | h | h
    · simp [h]
    · simp [h]
    · simp [h]
  have hby : cancelledByOf user booking =
      (if user.role = Role.admin then CancelledBy.admin
       else if user.role = Role.owner ∧ booking.user ≠ user.id then CancelledBy.owner
       else CancelledBy.user) := by
    unfold cancelledByOf
    by_cases h1 : user.role = Role.admin
    · simp [h1]
    · by_cases h2 : user.role = Role.owner
      · by_cases h3 : booking.user = user.id
        · simp [h2, h3]
        · simp [h2, h3]
      · simp [h1, h2]
  have hactive : ¬ (booking.status = BookingStatus.cancelled ∨
      booking.status = BookingStatus.completed ∨ booking.status = BookingStatus.no_show) →
      cancelBooking now store user id reason =
        (CancelBookingResult.cancelled (cancelledDocument now user reason booking),
          saveBooking store (cancelledDocument now user reason booking)) := by
    intro hst
    have h1 : ¬ booking.status = BookingStatus.cancelled := fun h => hst (Or.inl h)
    have h2 : ¬ booking.status = BookingStatus.completed := fun h => hst (Or.inr (Or.inl h))
    have h3 : ¬ booking.status = BookingStatus.no_show := fun h => hst (Or.inr (Or.inr h))
    unfold cancelBooking
    rw [hf]
    simp only [hauth2, Bool.false_eq_true, if_false, beq_iff_eq, h1, h2, h3]
  have hinactive : (booking.status = BookingStatus.cancelled ∨
      booking.status = BookingStatus.completed ∨ booking.status = BookingStatus.no_show) →
      (cancelBooking now store user id reason).2 = store ∧
      ¬ ∃ b, (cancelBooking now store user id reason).1 = CancelBookingResult.cancelled b := by
    intro hst
    unfold cancelBooking
    rw [hf]
    simp only [hauth2, Bool.false_eq_true, if_false, beq_iff_eq]
    rcases hst with h | h | h <;> simp [h]
  refine ⟨⟨?_, fun hst => (hinactive hst).2⟩, fun hst => (hinactive hst).1, ?_⟩
  · intro hno
    by_contra hst
    exact hno ⟨_, by rw [hactive hst]⟩
  · intro hst
    by_cases hpay : booking.payment.status = PaymentStatus.completed
    · refine ⟨cancelledDocument now user reason booking,
        { cancelledBy := cancelledByOf user booking, cancelledAt := now,
          reason := reasonOrDefault reason,
          refundAmount := some booking.pricing.totalAmount },
        hactive hst, sameReservation_cancelledDocument now user reason booking, ?_, ?_, hby,
        ?_, ?_⟩
      · simp [cancelledDocument, hpay]
      · simp [cancelledDocument, hpay]
      · intro _
        simp [cancelledDocument, hpay]
      · intro h
        exact absurd hpay h
    · refine ⟨cancelledDocument now user reason booking,
        { cancelledBy := cancelledByOf user booking, cancelledAt := now,
          reason := reasonOrDefault reason, refundAmount := none },
        hactive hst, sameReservation_cancelledDocument now user reason booking, ?_, ?_, hby,
        ?_, ?_⟩
      · simp [cancelledDocument, hpay]
      · simp [cancelledDocument, hpay]
      · intro h
        exact absurd h hpay
      · intro _
        simp [cancelledDocument, hpay]

/-- C30: for every booking stored by `createBooking`, `calculateTotal()` equals
the stored `pricing.totalAmount`; `peakHourCharges` and `discount` are 0. -/
theorem calculateTotal_eq_totalAmount (tz : Int) (now : Date) (turfs : List Turf)
    (store : List Booking) (userId newId : ObjectId) (req : BookingRequest) (b : Booking)
    (store2 : List Booking)
    (h : createBooking tz now turfs store userId newId req =
      (CreateBookingResult.created b, store2)) :
    b ∈ store2 ∧ b.pricing.peakHourCharges = 0 ∧ b.pricing.discount = 0 ∧
    b.calculateTotal = b.pricing.totalAmount := by
  obtain ⟨turfDoc, _, hb, hst⟩ := createBooking_created tz now turfs store userId newId req b
    store2 h
  refine ⟨by rw [hst]; simp, by rw [hb]; rfl, by rw [hb]; rfl, ?_⟩
  rw [hb]
  simp only [Booking.calculateTotal, newBooking]
  ring

/-- C30 for the booking 10:00-12:30 on a turf with hourly rate 1000. -/
theorem calculateTotal_eq_totalAmount_witness :
    (newBooking 0 (exampleTurf true "06:00" "23:00" none) 3 50
        (exampleRequest 7 0 "10:00" "12:30")).calculateTotal =
      (newBooking 0 (exampleTurf true "06:00" "23:00" none) 3 50
        (exampleRequest 7 0 "10:00" "12:30")).pricing.totalAmount :=
  (calculateTotal_eq_totalAmount 0 0 [exampleTurf true "06:00" "23:00" none] [] 3 50
    (exampleRequest 7 0 "10:00" "12:30")
    (newBooking 0 (exampleTurf true "06:00" "23:00" none) 3 50
      (exampleRequest 7 0 "10:00" "12:30"))
    [newBooking 0 (exampleTurf true "06:00" "23:00" none) 3 50
      (exampleRequest 7 0 "10:00" "12:30")] rfl).2.2.2

/-- C29 for a completed booking and its own user: the request fails and the
store is unchanged. -/
theorem cancelBooking_spec_witness :
    (cancelBooking 0 [exampleBooking 1 7 0 "10:00" "11:00" BookingStatus.completed]
      { id := 1, role := Role.user } 1 none).2 =
      [exampleBooking 1 7 0 "10:00" "11:00" BookingStatus.completed] :=
  (cancelBooking_spec 0 [exampleBooking 1 7 0 "10:00" "11:00" BookingStatus.completed]
    { id := 1, role := Role.user } 1 none
    (exampleBooking 1 7 0 "10:00" "11:00" BookingStatus.completed) rfl (Or.inl rfl)).2.1
    (Or.inr (Or.inl rfl))

/-! ## Facts relating the slot display and the conflict query -/

theorem slotForHour_isAvailable_false (turf : Turf) (day : DaySchedule)
    (bookings : List Booking) (hour : Int) :
    (slotForHour turf day bookings hour).isAvailable = false ↔
      ∃ b ∈ bookings,
        strLe b.timeSlot.startTime (slotForHour turf day bookings hour).startTime = true ∧
        strGt b.timeSlot.endTime (slotForHour turf day bookings hour).startTime = true := by
  simp only [slotForHour, Bool.not_eq_false', List.any_eq_true, Bool.and_eq_true]

theorem availabilityQuery_iff (tz : Int) (turfId : ObjectId) (date : Date) (b : Booking) :
    availabilityQuery tz turfId date b = true ↔
      b.turf = turfId ∧ setHoursStartOfDay tz date ≤ b.date ∧
      b.date ≤ setHoursEndOfDay tz date ∧ statusInConfirmedPending b.status = true := by
  simp only [availabilityQuery, Bool.and_eq_true, beq_iff_eq, decide_eq_true_eq]
  constructor
  · rintro ⟨⟨h1, h2, h3⟩, h4⟩
    exact ⟨h1, h2, h3, h4⟩
  · rintro ⟨h1, h2, h3, h4⟩
    exact ⟨⟨h1, h2, h3⟩, h4⟩

/-- A midnight-normalised date within the requested day is the start of that day. -/
theorem normalised_date_in_day (tz : Int) (date d : Date)
    (hn : setHoursStartOfDay tz d = d) (h1 : setHoursStartOfDay tz date ≤ d)
    (h2 : d ≤ setHoursEndOfDay tz date) : d = setHoursStartOfDay tz date := by
  have key : ∀ x y t : Int, y - (y + t) % 86400000 = y →
      x - (x + t) % 86400000 ≤ y → y ≤ x - (x + t) % 86400000 + (86400000 - 1) →
      y = x - (x + t) % 86400000 := by
    intro x y t
    omega
  exact key date d tz hn h1 h2

theorem statusInConfirmedPending_iff (st : BookingStatus) :
    statusInConfirmedPending st = true ↔
      st = BookingStatus.pending ∨ st = BookingStatus.confirmed := by
  cases st <;> simp [statusInConfirmedPending]

/-- C28: the display does not mark a slot as taken without a conflict. On an
open day with valid zero-padded `openTime` and `closeTime` and a store of
midnight-normalised dates, every generated slot with `isAvailable = false` has a
non-empty `getConflictingBookings` for its exact interval on the same turf and
date, so `checkConflict` is true for it. -/
theorem unavailable_slot_has_conflict (tz : Int) (turf : Turf) (date : Date)
    (store : List Booking) (day : DaySchedule) (h m k n : Nat) (slots : List Slot) (s : Slot)
    (hh : h ≤ 24) (hm : m < 60) (hk : k ≤ 24) (hn : n < 60)
    (hday : turf.availability.days.find? (fun d => d.day == weekdayLong tz date) = some day)
    (hopen : day.isOpen = true) (ho : day.openTime = hhmm h m)
    (hc : day.closeTime = hhmm k n)
    (hstore : ∀ b ∈ store, setHoursStartOfDay tz b.date = b.date)
    (hs : (getTurfAvailability tz turf date store).slots = some slots) (hmem : s ∈ slots)
    (hun : s.isAvailable = false) :
    Booking.getConflictingBookings tz store turf._id date s.startTime s.endTime none ≠ [] ∧
    Booking.checkConflict tz store turf._id date s.startTime s.endTime none = true := by
  rw [slots_of_hhmm tz turf date store day h m k n (by omega) (by omega) (by omega)
    (by omega) hday hopen ho hc] at hs
  cases hs
  obtain ⟨i, hi, rfl⟩ := List.mem_map.1 hmem
  have hi2 : i < k - h := List.mem_range.1 hi
  obtain ⟨b, hb, hle, hgt⟩ := (slotForHour_isAvailable_false turf day _ _).1 hun
  have t := slotForHour_times turf day (store.filter (availabilityQuery tz turf._id date))
    (h + i)
  rw [t.1] at hle hgt
  rw [t.1, t.2]
  obtain ⟨hbs, hq⟩ := List.mem_filter.1 hb
  obtain ⟨q1, q2, q3, q4⟩ := (availabilityQuery_iff tz turf._id date b).1 hq
  have hdate : b.date = setHoursStartOfDay tz date :=
    normalised_date_in_day tz date b.date (hstore b hbs) q2 q3
  have hslot : strLt (hhmm (h + i) 0) (hhmm (h + i + 1) 0) = true := by
    rw [strLt_hhmm (h + i) 0 (h + i + 1) 0 (by omega) (by omega) (by omega) (by omega),
      decide_eq_true_eq]
    omega
  have hstart : strLt b.timeSlot.startTime (hhmm (h + i + 1) 0) = true :=
    (strLt_iff_lt _ _).2
      (lt_of_le_of_lt ((strLe_iff_le _ _).1 hle) ((strLt_iff_lt _ _).1 hslot))
  have hmemc : b ∈ Booking.getConflictingBookings tz store turf._id date (hhmm (h + i) 0)
      (hhmm (h + i + 1) 0) none :=
    (mem_getConflictingBookings_iff tz store turf._id date _ _ b).2
      ⟨hbs, q1, hdate, (statusInConfirmedPending_iff b.status).1 q4, hstart, hgt⟩
  have hne : Booking.getConflictingBookings tz store turf._id date (hhmm (h + i) 0)
      (hhmm (h + i + 1) 0) none ≠ [] := List.ne_nil_of_mem hmemc
  refine ⟨hne, ?_⟩
  rw [checkConflict_eq_getConflictingBookings]
  cases hl : Booking.getConflictingBookings tz store turf._id date (hhmm (h + i) 0)
      (hhmm (h + i + 1) 0) none with
  | nil => exact absurd hl hne
  | cons x xs => rfl

/-- C28 on a day open 06:00-09:00 with a confirmed booking 07:00-08:00: the
07:00 slot is taken and the conflict check rejects 07:00-08:00. -/
theorem unavailable_slot_has_conflict_witness :
    Booking.checkConflict 0 [exampleBooking 1 7 0 "07:00" "08:00" BookingStatus.confirmed]
      7 0 "07:00" "08:00" none = true :=
  (unavailable_slot_has_conflict 0 (exampleTurf true "06:00" "09:00" none) 0
    [exampleBooking 1 7 0 "07:00" "08:00" BookingStatus.confirmed]
    (exampleEntry true "06:00" "09:00" none DayName.thursday) 6 0 9 0
    ((List.range 3).map (fun i =>
      slotForHour (exampleTurf true "06:00" "09:00" none)
        (exampleEntry true "06:00" "09:00" none DayName.thursday)
        [exampleBooking 1 7 0 "07:00" "08:00" BookingStatus.confirmed] ((6 + i : Nat) : Int)))
    (slotForHour (exampleTurf true "06:00" "09:00" none)
        (exampleEntry true "06:00" "09:00" none DayName.thursday)
        [exampleBooking 1 7 0 "07:00" "08:00" BookingStatus.confirmed] 7)
    (by decide) (by decide) (by decide) (by decide) (by decide) rfl (by decide) (by decide)
    (by decide) rfl (List.mem_map.2 ⟨1, by decide, rfl⟩) rfl).2

/-! ## The amenity mapper -/

theorem validAmenity_mem (a : MappedAmenity) (y : String) (h : validAmenity a = some y) :
    y ∈ VALID_BACKEND_AMENITIES := by
  cases a with
  | inherited => cases h
  | str value =>
    simp only [validAmenity] at h
    split_ifs at h with hv
    cases h
    exact List.mem_of_elem_eq_true hv

/-- C25: for an array of strings `mapAmenitiesToBackend` returns the valid
backend values of the mappable items in input order, each a member of
`VALID_BACKEND_AMENITIES`; for a value that is not an array it returns the
empty list; and `VALID_BACKEND_AMENITIES` and `VALID_BACKEND_SPORTS` are the
enums of the turf schema. This holds whatever `toLowerCase` does. -/
theorem mapAmenitiesToBackend_valid (toLowerCase : String → String)
    (displayAmenities more : List String) :
    (∀ y ∈ mapAmenitiesToBackend toLowerCase (AmenitiesArgument.array displayAmenities),
      y ∈ VALID_BACKEND_AMENITIES) ∧
    mapAmenitiesToBackend toLowerCase (AmenitiesArgument.array displayAmenities) =
      displayAmenities.filterMap (fun amenity =>
        (mapAmenityToBackend toLowerCase amenity).bind validAmenity) ∧
    mapAmenitiesToBackend toLowerCase (AmenitiesArgument.array (displayAmenities ++ more)) =
      mapAmenitiesToBackend toLowerCase (AmenitiesArgument.array displayAmenities) ++
        mapAmenitiesToBackend toLowerCase (AmenitiesArgument.array more) ∧
    mapAmenitiesToBackend toLowerCase AmenitiesArgument.notArray = [] ∧
    VALID_BACKEND_AMENITIES = turfSchemaAmenities ∧
    VALID_BACKEND_SPORTS = turfSchemaSports := by
  have hform : ∀ xs : List String,
      mapAmenitiesToBackend toLowerCase (AmenitiesArgument.array xs) =
        xs.filterMap (fun amenity =>
          (mapAmenityToBackend toLowerCase amenity).bind validAmenity) := by
    intro xs
    simp only [mapAmenitiesToBackend, List.filterMap_filterMap, List.filterMap_map]
    rfl
  refine ⟨?_, hform displayAmenities, ?_, rfl, rfl, rfl⟩
  · intro y hy
    rw [hform] at hy
    obtain ⟨x, _, hx⟩ := List.mem_filterMap.1 hy
    cases hm : mapAmenityToBackend toLowerCase x with
    | none =>
      rw [hm] at hx
      cases hx
    | some a =>
      rw [hm] at hx
      exact validAmenity_mem a y hx
  · rw [hform, hform, hform, List.filterMap_append]

/-- The mapper on a mixed list: display names, a backend value in another case,
an unknown amenity, an inherited property name and the empty string. -/
theorem mapAmenitiesToBackend_example :
    mapAmenitiesToBackend toLowerCaseAscii (AmenitiesArgument.array
      ["Floodlights", "Sauna", "first aid", "toString", "", "Wi-Fi", "EQUIPMENT  RENTAL"]) =
    ["lighting", "first_aid", "cafeteria", "equipment_rental"] := by
  decide

end TurfEase
